import Mathlib

/-!
OMTLMSimulator: the communication handler of the TLM manager.

A shallow embedding of `common/Communication/ManagerCommHandler.cc`.

Conventions of the embedding.

* A `char` of a `std::string` and a byte of a message buffer are both a `Char`
  (the source converts between the two by reinterpreting the buffer).
* A C `int` is an `Int`; the ids, handles and counters of the source are only
  copied, compared and stepped by one.  The one conversion of a text to an
  `int`, `std::atoi`, gives a value of 32 bits.  A `double` is kept as its
  IEEE-754 bit pattern, the functions here only copy doubles and store literal
  constants.
* `TLMErrorLog::Info` and `TLMErrorLog::Warning` write to the log sink and
  change nothing else; they are left out, together with the reads that only
  build their message text.  `TLMErrorLog::FatalError` ends the session and is
  the outcome `Fault.fatal`.
* Indexing a table of the composite model outside its range is undefined in
  the source; it is the outcome `Fault.undefinedBehaviour`.  So is the read of
  a time data struct from a message buffer that has fewer bytes than the
  struct.
* A by-reference `TLMMessage&` parameter is passed in and returned.
-/

set_option autoImplicit false

namespace OMTLM

/-- One byte of a message buffer, or one `char` of a `std::string`. -/
abbrev Byte := Char

/-- A C `double`, kept as its IEEE-754 binary64 bit pattern. -/
structure Double where
  bits : Nat
deriving DecidableEq, Repr

/-- The literal `0`. -/
def Double.zero : Double := ⟨0⟩

/-- The literal `1` as a double (`0x3FF0000000000000`). -/
def Double.one : Double := ⟨0x3FF0000000000000⟩

/-- The literal `0.1` as a double (`0x3FB999999999999A`). -/
def Double.tenth : Double := ⟨0x3FB999999999999A⟩

/-- Ways in which a handler does not return normally. -/
inductive Fault where
  /-- `TLMErrorLog::FatalError` was called, with the fixed part of its text. -/
  | fatal (text : String)
  /-- A table was indexed outside its range, or a struct was read from a
  buffer of fewer bytes. -/
  | undefinedBehaviour
  /-- `GetReadSlot` found no free buffer: the caller waits for the writer. -/
  | blocked
deriving DecidableEq, Repr

/-- Modelled from the spec: the message kinds of `TLMMessageTypeConst`
(section 3, "Message kinds"); the header declaring them is not among the
sources. -/
inductive TLMMessageTypeConst where
  | TLM_REG_COMPONENT
  | TLM_REG_INTERFACE
  | TLM_REG_PARAMETER
  | TLM_CHECK_MODEL
  | TLM_TIME_DATA
  | TLM_CLOSE_REQUEST
  | TLM_CLOSE_PERMISSION
deriving DecidableEq, Repr

/-- Modelled from the spec: the wire header of section 6 (`TLMMessageHeader`,
declared outside the sources).  `DataSize` is a byte count and kept as a
natural number. -/
structure TLMMessageHeader where
  MessageType : TLMMessageTypeConst
  TLMInterfaceID : Int
  ComponentParameterID : Int
  SourceIsBigEndianSystem : Bool
  DataSize : Nat
deriving DecidableEq, Repr

/-- Modelled from the spec: a message buffer (`TLMMessage`, declared outside
the sources): the socket it belongs to, the header and the byte vector
`Data`, which may be longer than `Header.DataSize`. -/
structure TLMMessage where
  SocketHandle : Int
  Header : TLMMessageHeader
  Data : List Byte
deriving DecidableEq, Repr

/-- The payload of a message: the first `DataSize` bytes of `Data`, as read by
`string((const char*)(&mess.Data[0]), mess.Header.DataSize)`.  Reading past
the end of `Data` is undefined in the source; here it yields the bytes that
are there. -/
def TLMMessage.payload (mess : TLMMessage) : List Byte :=
  mess.Data.take mess.Header.DataSize

/-- `std::vector<unsigned char>::resize(n)`: cut to `n` bytes or fill with zero
bytes up to `n`. -/
def resize (data : List Byte) (n : Nat) : List Byte :=
  data.take n ++ List.replicate (n - data.length) (Char.ofNat 0)

/-- `memcpy(&dst[0], src, n)`: the first `n` bytes of `dst` are replaced by the
first `n` bytes of `src`. -/
def memcpy (dst src : List Byte) (n : Nat) : List Byte :=
  src.take n ++ dst.drop n

/-- Modelled from the spec: the time-zero state of an interface
(`TLMTimeData3D`, declared outside the sources), with the three arrays the
source reads and writes. -/
structure TLMTimeData3D where
  Position : Fin 3 → Double
  RotMatrix : Fin 9 → Double
  Velocity : Fin 6 → Double

/-- Modelled from the spec: the parameter block of a connection
(`TLMConnectionParams`, declared outside the sources), with the fields the
source reads and writes. -/
structure TLMConnectionParams where
  Delay : Double
  mode : Double
  cX_R_cG_cG : Fin 3 → Double
  cX_A_cG : Fin 9 → Double
  Nom_cI_R_cX_cX : Fin 3 → Double
  Nom_cI_A_cX : Fin 9 → Double

/-- What the build fixes and the sources do not declare: the byte order of the
host (`TLMMessageHeader::IsBigEndianSystem`) and the object representation of
`TLMConnectionParams`, that is `sizeof(TLMConnectionParams)` and the bytes that
`memcpy` reads from such an object. -/
structure Platform where
  IsBigEndianSystem : Bool
  sizeofParams : Nat
  bytesOf : TLMConnectionParams → List Byte
  bytesOf_length : ∀ p, (bytesOf p).length = sizeofParams

/-- Modelled from the spec: a component proxy (section 3, `TLMComponentProxy`
is declared outside the sources): name, socket handle, readiness flag and the
inertial transformation of the component. -/
structure TLMComponentProxy where
  Name : List Char
  SocketHandle : Int
  ReadyToSim : Bool
  cX_R_cG_cG : Fin 3 → Double
  cX_A_cG : Fin 9 → Double

/-- Modelled from the spec: an interface proxy (section 3, `TLMInterfaceProxy`
is declared outside the sources). -/
structure TLMInterfaceProxy where
  ComponentID : Int
  Name : List Char
  Dimensions : Int
  Causality : List Char
  Domain : List Char
  ConnectionID : Int
  LinkedID : Int
  Connected : Bool
  time0Data3D : TLMTimeData3D

/-- Modelled from the spec: a parameter proxy (section 3,
`ComponentParameterProxy` is declared outside the sources): owning component,
name and string value. -/
structure ComponentParameterProxy where
  ComponentID : Int
  Name : List Char
  Value : List Char
deriving DecidableEq, Repr

/-- Modelled from the spec: a connection (section 3), of which the handler
uses the parameter block. -/
structure TLMConnection where
  Params : TLMConnectionParams

/-- Modelled from the spec: the composite model as flat tables addressed by
id (sections 4.4 and 9); `CompositeModel` is declared outside the sources. -/
structure CompositeModel where
  Components : List TLMComponentProxy
  Interfaces : List TLMInterfaceProxy
  Connections : List TLMConnection
  Parameters : List ComponentParameterProxy := []

/-- Element `i` of a table of the model; an index outside the table is
undefined behaviour. -/
def tableAt {α : Type} (table : List α) (i : Int) : Except Fault α :=
  if i < 0 then .error .undefinedBehaviour
  else
    match table[i.toNat]? with
    | some x => .ok x
    | none => .error .undefinedBehaviour

namespace CompositeModel

/-- Modelled from the spec: `componentCount`. -/
def GetComponentsNum (m : CompositeModel) : Int := m.Components.length

/-- Modelled from the spec: `componentById`. -/
def GetTLMComponentProxy (m : CompositeModel) (ID : Int) : Except Fault TLMComponentProxy :=
  tableAt m.Components ID

/-- Modelled from the spec: `interfaceById`. -/
def GetTLMInterfaceProxy (m : CompositeModel) (ID : Int) : Except Fault TLMInterfaceProxy :=
  tableAt m.Interfaces ID

/-- Modelled from the spec: `connectionById`. -/
def GetTLMConnection (m : CompositeModel) (ID : Int) : Except Fault TLMConnection :=
  tableAt m.Connections ID

end CompositeModel

/-- Modelled from the spec: the message queue of section 4.3
(`TLMMessageQueue`, declared outside the sources): the free buffers with the
contents they were left with, the buffers published for the writer, oldest
first, and the termination flag. -/
structure TLMMessageQueue where
  FreeSlots : List TLMMessage
  SendBuffer : List TLMMessage
  Terminated : Bool

namespace TLMMessageQueue

/-- Modelled from the spec: `acquireRead` returns a free buffer; with no free
buffer the caller waits. -/
def GetReadSlot (q : TLMMessageQueue) : Except Fault (TLMMessage × TLMMessageQueue) :=
  match q.FreeSlots with
  | [] => .error .blocked
  | slot :: rest => .ok (slot, { q with FreeSlots := rest })

/-- Modelled from the spec: `publishWrite` makes the buffer available to the
writer, behind the ones published before. -/
def PutWriteSlot (q : TLMMessageQueue) (mess : TLMMessage) : TLMMessageQueue :=
  { q with SendBuffer := q.SendBuffer ++ [mess] }

/-- Modelled from the spec: `release` returns a buffer to the free list. -/
def ReleaseSlot (q : TLMMessageQueue) (mess : TLMMessage) : TLMMessageQueue :=
  { q with FreeSlots := mess :: q.FreeSlots }

/-- Modelled from the spec: `terminate`. -/
def Terminate (q : TLMMessageQueue) : TLMMessageQueue :=
  { q with Terminated := true }

end TLMMessageQueue

/-- The two operating modes (`CommunicationMode`). -/
inductive CommunicationMode where
  | CoSimulationMode
  | InterfaceRequestMode
deriving DecidableEq, Repr

/-- Modelled from the spec: the socket set of section 4.2 (`TLMManagerComm`,
declared outside the sources): the active set of sockets, the phase (startup
or running mode) and whether `CloseAll` has closed the sockets. -/
structure TLMManagerComm where
  ActiveSockets : List Int := []
  StartupMode : Bool := true
  Closed : Bool := false
deriving DecidableEq, Repr

namespace TLMManagerComm

/-- Modelled from the spec: `dropActive(h)` removes a socket from the active
set. -/
def DropActiveSocket (comm : TLMManagerComm) (hdl : Int) : TLMManagerComm :=
  { comm with ActiveSockets := comm.ActiveSockets.filter (fun h => h ≠ hdl) }

/-- Modelled from the spec: the change from startup mode to running mode. -/
def SwitchToRunningMode (comm : TLMManagerComm) : TLMManagerComm :=
  { comm with StartupMode := false }

/-- Modelled from the spec: `closeAll()` closes every owned socket. -/
def CloseAll (comm : TLMManagerComm) : TLMManagerComm :=
  { comm with Closed := true }

end TLMManagerComm

/-- The values of the member `runningMode`. -/
inductive RunningMode where
  | StartupMode
  | RunMode
  | ShutdownMode
deriving DecidableEq, Repr

/-- The members of `ManagerCommHandler` that the handlers below use.
`monitorInterfaceMap` is the `std::multimap<int,int>` from interface id to
monitor socket, kept as its entries in insertion order (a multimap keeps the
entries of one key in that order). -/
structure ManagerCommHandler where
  TheModel : CompositeModel
  MessageQueue : TLMMessageQueue
  CommMode : CommunicationMode
  monitorInterfaceMap : List (Int × Int)
  MonitorsDisconnected : Bool
  Comm : TLMManagerComm := {}
  runningMode : RunningMode := RunningMode.StartupMode
  MonitorSockets : List Int := []
  DisconnectedMonitors : List Int := []
  exceptionMsg : List Char := []

/-- The sockets of the entries of key `TLMInterfaceID`, in the order in which
the loop from `lower_bound` to `upper_bound` visits them. -/
def equalRange (monitorInterfaceMap : List (Int × Int)) (TLMInterfaceID : Int) : List Int :=
  (monitorInterfaceMap.filter (fun entry => entry.1 = TLMInterfaceID)).map (fun entry => entry.2)

/-- `ManagerCommHandler::MarshalMessage` (lines 602-635). -/
def MarshalMessage (TheModel : CompositeModel) (message : TLMMessage) :
    Except Fault TLMMessage := do
  let src ← TheModel.GetTLMInterfaceProxy message.Header.TLMInterfaceID
  if message.Header.MessageType ≠ TLMMessageTypeConst.TLM_TIME_DATA then
    throw (Fault.fatal "Unexpected message received from")
  -- forward the time data
  let destID := src.LinkedID
  if destID < 0 then
    pure { message with
      SocketHandle := -1
      Header := { message.Header with TLMInterfaceID := -1 } }
  else
    let dest ← TheModel.GetTLMInterfaceProxy destID
    let destComp ← TheModel.GetTLMComponentProxy dest.ComponentID
    pure { message with
      SocketHandle := destComp.SocketHandle
      Header := { message.Header with TLMInterfaceID := destID } }

/-- The buffer that one round of the loop of `ForwardToMonitor` fills
(lines 803-812): `newMessage` is the buffer got from the queue. -/
def monitorCopy (TLMInterfaceID : Int) (message : TLMMessage) (hdl : Int)
    (newMessage : TLMMessage) : TLMMessage :=
  let newMessage := { newMessage with SocketHandle := hdl }
  let newMessage := { newMessage with Header := message.Header }
  let newMessage := { newMessage with
    Header := { newMessage.Header with TLMInterfaceID := TLMInterfaceID } }
  let newMessage := { newMessage with
    Header := { newMessage.Header with DataSize := message.Header.DataSize } }
  let newMessage :=
    if newMessage.Data.length < newMessage.Header.DataSize then
      { newMessage with Data := resize newMessage.Data newMessage.Header.DataSize }
    else newMessage
  { newMessage with Data := memcpy newMessage.Data message.Data newMessage.Header.DataSize }

/-- The loop of `ForwardToMonitor` over the monitor sockets of one interface
(lines 790-815). -/
def forwardLoop (TLMInterfaceID : Int) (message : TLMMessage) :
    List Int → TLMMessageQueue → Except Fault TLMMessageQueue
  | [], q => pure q
  | hdl :: rest, q => do
    let (newMessage, q) ← q.GetReadSlot
    let q := q.PutWriteSlot (monitorCopy TLMInterfaceID message hdl newMessage)
    forwardLoop TLMInterfaceID message rest q

/-- `ManagerCommHandler::ForwardToMonitor` (lines 772-823). -/
def ForwardToMonitor (self : ManagerCommHandler) (message : TLMMessage) :
    Except Fault (TLMMessage × ManagerCommHandler) := do
  if self.MonitorsDisconnected then
    return (message, self)
  -- We forward to the sender!
  let ifc ← self.TheModel.GetTLMInterfaceProxy message.Header.TLMInterfaceID
  let TLMInterfaceID := ifc.LinkedID
  if (equalRange self.monitorInterfaceMap TLMInterfaceID).length > 0 then
    if message.Header.MessageType ≠ TLMMessageTypeConst.TLM_TIME_DATA then
      throw (Fault.fatal "Unexpected message received in forward to monitor")
    let q ← forwardLoop TLMInterfaceID message
      (equalRange self.monitorInterfaceMap TLMInterfaceID) self.MessageQueue
    pure (message, { self with MessageQueue := q })
  else
    pure (message, self)

/-- The co-simulation branch of the run-phase loop of
`ManagerCommHandler::ReaderThreadRun` (lines 531-539), for a message that
was received into a buffer. -/
def ReaderThreadRun_forward (self : ManagerCommHandler) (message : TLMMessage) :
    Except Fault ManagerCommHandler := do
  let message ← MarshalMessage self.TheModel message
  -- Forward message for monitoring.
  let (message, self) ← ForwardToMonitor self message
  -- Place in send buffer
  pure { self with MessageQueue := self.MessageQueue.PutWriteSlot message }

/-! ## Registration -/

/-- The index of the first element of a table that satisfies `p`, or -1. -/
def firstIndex {α : Type} (p : α → Bool) : List α → Int
  | [] => -1
  | x :: xs =>
    if p x then 0
    else if firstIndex p xs < 0 then -1 else firstIndex p xs + 1

namespace CompositeModel

/-- Modelled from the spec: `componentIdByName`, the id of the component of
that name, or -1. -/
def GetTLMComponentID (m : CompositeModel) (Name : List Char) : Int :=
  firstIndex (fun comp => decide (comp.Name = Name)) m.Components

/-- Modelled from the spec: `interfaceIdByComponentAndLocalName`, the id of the
interface of that name on that component, or -1. -/
def GetTLMInterfaceID (m : CompositeModel) (ComponentID : Int) (Name : List Char) : Int :=
  firstIndex (fun ifc => decide (ifc.ComponentID = ComponentID ∧ ifc.Name = Name)) m.Interfaces

/-- Writing through the reference returned by `GetTLMComponentProxy(ID)`. -/
def setComponent (m : CompositeModel) (ID : Int) (comp : TLMComponentProxy) : CompositeModel :=
  { m with Components := m.Components.set ID.toNat comp }

/-- Writing through the reference returned by `GetTLMInterfaceProxy(ID)`. -/
def setInterface (m : CompositeModel) (ID : Int) (ifc : TLMInterfaceProxy) : CompositeModel :=
  { m with Interfaces := m.Interfaces.set ID.toNat ifc }

/-- Writing through the reference returned by `GetTLMConnection(ID)`. -/
def setConnection (m : CompositeModel) (ID : Int) (conn : TLMConnection) : CompositeModel :=
  { m with Connections := m.Connections.set ID.toNat conn }

end CompositeModel

/-- Modelled from the spec: the time-zero state of an interface that was just
created: no displacement, identity orientation, no velocity. -/
def freshTimeData : TLMTimeData3D :=
  { Position := fun _ => Double.zero
    RotMatrix := fun i => if i.val % 4 = 0 then Double.one else Double.zero
    Velocity := fun _ => Double.zero }

/-- Modelled from the spec: `registerInterfaceDynamic(compId, name, dims,
causality, domain)` adds an interface to the component and assigns it the next
interface id; the new interface is neither paired nor connected. -/
def CompositeModel.RegisterTLMInterfaceProxy (m : CompositeModel) (ComponentID : Int)
    (Name : List Char) (Dimensions : Int) (Causality Domain : List Char) : CompositeModel :=
  { m with
    Interfaces := m.Interfaces ++
      [{ ComponentID := ComponentID, Name := Name, Dimensions := Dimensions,
         Causality := Causality, Domain := Domain, ConnectionID := -1, LinkedID := -1,
         Connected := false, time0Data3D := freshTimeData }] }

/-- Modelled from the spec: `TLMComponentProxy::GetInertialTranformation(R, A)`
writes the inertial transformation of the component to its two arguments. -/
def TLMComponentProxy.GetInertialTranformation (comp : TLMComponentProxy) :
    (Fin 3 → Double) × (Fin 9 → Double) :=
  (comp.cX_R_cG_cG, comp.cX_A_cG)

/-- The loop `for(int i=0; i<n; i++) dst[i] = src[i];`. -/
def copyArray {n : Nat} (dst src : Fin n → Double) : Fin n → Double :=
  (List.finRange n).foldl (fun a i => Function.update a i (src i)) dst

/-- `ManagerCommHandler::ProcessRegComponentMessage` (lines 212-237). -/
def ProcessRegComponentMessage (self : ManagerCommHandler) (mess : TLMMessage) :
    Except Fault (TLMMessage × ManagerCommHandler) := do
  if mess.Header.MessageType ≠ TLMMessageTypeConst.TLM_REG_COMPONENT then
    throw (Fault.fatal "Component registration message expected")
  let aName := mess.payload
  let CompID := self.TheModel.GetTLMComponentID aName
  if CompID < 0 ∨ CompID ≥ self.TheModel.GetComponentsNum then
    throw (Fault.fatal "Component registration failed!")
  let comp ← self.TheModel.GetTLMComponentProxy CompID
  let self := { self with
    TheModel := self.TheModel.setComponent CompID { comp with SocketHandle := mess.SocketHandle } }
  let mess := { mess with Header := { mess.Header with DataSize := 0 } }
  let mess := { mess with Header := { mess.Header with TLMInterfaceID := CompID } }
  pure (mess, self)

/-- The state of the loop that splits a `REG_INTERFACE` payload (lines
256-291). -/
structure SpecificationScan where
  aName : List Char
  dimStr : List Char
  causality : List Char
  domain : List Char
  readingName : Bool
  readingDimensions : Bool
  readingCausality : Bool
  readingDomain : Bool
deriving DecidableEq, Repr

/-- The state before the loop (lines 256-265): the three defaults are set
when the payload has no colon. -/
def scanStart (aSpecification : List Char) : SpecificationScan :=
  let noColon : Bool := decide (':' ∉ aSpecification)
  { aName := []
    dimStr := if noColon then "6".toList else []
    causality := if noColon then "bidirectional".toList else []
    domain := if noColon then "mechanical".toList else []
    readingName := true
    readingDimensions := false
    readingCausality := false
    readingDomain := false }

/-- One round of the loop over the payload (lines 267-290). -/
def scanStep (s : SpecificationScan) (c : Char) : SpecificationScan :=
  if c = ':' ∧ s.readingName = true then
    { s with readingName := false, readingDimensions := true }
  else if c = ':' ∧ s.readingDimensions = true then
    { s with readingDimensions := false, readingCausality := true }
  else if c = ':' ∧ s.readingCausality = true then
    { s with readingCausality := false, readingDomain := true }
  else if s.readingDomain = true then
    { s with domain := s.domain ++ [c] }
  else if s.readingCausality = true then
    { s with causality := s.causality ++ [c] }
  else if s.readingDimensions = true then
    { s with dimStr := s.dimStr ++ [c] }
  else
    { s with aName := s.aName ++ [c] }

/-- `isspace` in the C locale. -/
def isspace (c : Char) : Bool :=
  c = ' ' ∨ c = '\t' ∨ c = '\n' ∨ c = Char.ofNat 11 ∨ c = Char.ofNat 12 ∨ c = '\r'

/-- `isdigit`. -/
def isdigit (c : Char) : Bool :=
  '0' ≤ c ∧ c ≤ '9'

/-- The digits at the start of a string, read in base ten onto `acc`. -/
def atoiDigits (acc : Int) : List Char → Int
  | [] => acc
  | c :: cs => if isdigit c then atoiDigits (acc * 10 + (c.toNat - '0'.toNat : Nat)) cs else acc

/-- The integer that `strtol` reads in base ten at the start of a string,
before it is cut to a machine range: white space is skipped, then an optional
sign and the digits that follow are read; what comes after the digits is
ignored and no digits give 0. -/
def decimalPrefix (str : List Char) : Int :=
  match str.dropWhile isspace with
  | [] => 0
  | c :: cs =>
    if c = '-' then - atoiDigits 0 cs
    else if c = '+' then atoiDigits 0 cs
    else atoiDigits 0 (c :: cs)

/-- The least value of an `int` of 32 bits. -/
def INT_MIN : Int := -2147483648

/-- The greatest value of an `int` of 32 bits. -/
def INT_MAX : Int := 2147483647

/-- The result of `strtol` for a value outside the range of a `long` of 64
bits: the nearest end of the range. -/
def clampLong (v : Int) : Int :=
  if v > 9223372036854775807 then 9223372036854775807
  else if v < -9223372036854775808 then -9223372036854775808
  else v

/-- The conversion of a `long` to an `int` of 32 bits on a two's complement
machine: the value of the low 32 bits. -/
def toInt (v : Int) : Int :=
  (v - INT_MIN) % 4294967296 + INT_MIN

/-- `std::atoi`, whose result the source stores in an `int`: a number within
the range of `int` is returned as it is.  A number outside that range is
undefined in C; it is given here as the C library of a 64-bit Linux host gives
it, `(int) strtol(str, 0, 10)`, and is in any case a value of `int`. -/
def atoi (str : List Char) : Int :=
  toInt (clampLong (decimalPrefix str))

/-- The number that a string of decimal digits denotes, as the spec words it
("the decimal integer value"): the digits read in base ten. -/
def digitsValue (ds : List Char) : Nat :=
  ds.foldl (fun v c => 10 * v + (c.toNat - '0'.toNat)) 0

/-- The decimal integer that a text denotes, in the spec's words: one or more
decimal digits, with an optional minus sign in front; other texts denote
none. -/
def decimalValue (d : List Char) : Option Int :=
  match d with
  | [] => none
  | c :: cs =>
    if c = '-' then
      if cs ≠ [] ∧ cs.all isdigit = true then some (-(digitsValue cs : Int)) else none
    else if (c :: cs).all isdigit = true then some (digitsValue (c :: cs)) else none

/-- The result of splitting a `REG_INTERFACE` payload. -/
structure InterfaceSpecification where
  aName : List Char
  dimensions : Int
  causality : List Char
  domain : List Char
deriving DecidableEq, Repr

/-- The parser of `ManagerCommHandler::ProcessRegInterfaceMessage` (lines
252-305): the payload is split at its first three colons, then the dimensions
are read and empty causality and domain get their defaults. -/
def parseInterfaceSpecification (aSpecification : List Char) : InterfaceSpecification :=
  let s := aSpecification.foldl scanStep (scanStart aSpecification)
  let dimensions : Int :=
    if s.dimStr = "3D".toList then 6
    else atoi s.dimStr
  let causality := if s.causality = [] then "bidirectional".toList else s.causality
  let domain := if s.domain = [] then "mechanical".toList else s.domain
  { aName := s.aName, dimensions := dimensions, causality := causality, domain := domain }

/-- `ManagerCommHandler::SetupInterfaceConnectionMessage` (lines 413-465).
`param` is a reference to the parameter block of the connection, so what is
written to it is written to the model. -/
def SetupInterfaceConnectionMessage (P : Platform) (self : ManagerCommHandler) (IfcID : Int)
    (mess : TLMMessage) : Except Fault (TLMMessage × ManagerCommHandler) := do
  -- set the connected flag in the CompositeModel
  let ifc ← self.TheModel.GetTLMInterfaceProxy IfcID
  let ifc := { ifc with Connected := true }
  let self := { self with TheModel := self.TheModel.setInterface IfcID ifc }
  -- Find the connection object if exists
  let connID := ifc.ConnectionID
  if connID < 0 then
    -- interface is not connected in the meta-model
    return ({ mess with Header := { mess.Header with TLMInterfaceID := -1 } }, self)
  -- Put connection parameters in the reply
  let conn ← self.TheModel.GetTLMConnection connID
  let param := conn.Params
  -- Apply component transformation for each interface.
  let CompId := ifc.ComponentID
  let comp ← self.TheModel.GetTLMComponentProxy CompId
  let param := { param with
    cX_R_cG_cG := comp.GetInertialTranformation.1
    cX_A_cG := comp.GetInertialTranformation.2 }
  -- Send initial interface position
  let td := ifc.time0Data3D
  let param := { param with Nom_cI_R_cX_cX := copyArray param.Nom_cI_R_cX_cX td.Position }
  let param := { param with Nom_cI_A_cX := copyArray param.Nom_cI_A_cX td.RotMatrix }
  let self := { self with
    TheModel := self.TheModel.setConnection connID { conn with Params := param } }
  let mess := { mess with Header := { mess.Header with DataSize := P.sizeofParams } }
  let mess := { mess with Data := resize mess.Data P.sizeofParams }
  let mess := { mess with Data := memcpy mess.Data (P.bytesOf param) mess.Header.DataSize }
  pure (mess, self)

/-- `ManagerCommHandler::SetupInterfaceRequestMessage` (lines 467-476).  The
local `param` is declared without an initial value; `uninit` is what it holds
before the two assignments. -/
def SetupInterfaceRequestMessage (P : Platform) (uninit : TLMConnectionParams)
    (mess : TLMMessage) : TLMMessage :=
  let param := uninit
  let param := { param with Delay := Double.tenth }
  let param := { param with mode := Double.one }
  let mess := { mess with Header := { mess.Header with DataSize := P.sizeofParams } }
  let mess := { mess with Data := resize mess.Data P.sizeofParams }
  { mess with Data := memcpy mess.Data (P.bytesOf param) mess.Header.DataSize }

/-- `ManagerCommHandler::ProcessRegInterfaceMessage` (lines 244-352);
`uninit` is passed on to `SetupInterfaceRequestMessage`.  The last `else` of
the source (a communication mode that is neither of the two) has no case
here. -/
def ProcessRegInterfaceMessage (P : Platform) (uninit : TLMConnectionParams)
    (self : ManagerCommHandler) (compID : Int) (mess : TLMMessage) :
    Except Fault (TLMMessage × ManagerCommHandler) := do
  if mess.Header.MessageType ≠ TLMMessageTypeConst.TLM_REG_INTERFACE then
    throw (Fault.fatal "Interface registration message expected")
  -- First, find the interface in the meta model
  let aSpecification := mess.payload
  let spec := parseInterfaceSpecification aSpecification
  let IfcID := self.TheModel.GetTLMInterfaceID compID spec.aName
  let mess := { mess with Header := { mess.Header with TLMInterfaceID := IfcID } }
  let mess := { mess with
    Header := { mess.Header with SourceIsBigEndianSystem := P.IsBigEndianSystem } }
  let mess := { mess with Header := { mess.Header with DataSize := 0 } }
  let (self, IfcID) :=
    if IfcID < 0 ∧ self.CommMode = CommunicationMode.InterfaceRequestMode then
      -- interface not found, create it
      let TheModel := self.TheModel.RegisterTLMInterfaceProxy compID spec.aName spec.dimensions
        spec.causality spec.domain
      ({ self with TheModel := TheModel }, TheModel.GetTLMInterfaceID compID spec.aName)
    else (self, IfcID)
  if IfcID < 0 then
    -- interface not found
    return (mess, self)
  match self.CommMode with
  | CommunicationMode.CoSimulationMode =>
    SetupInterfaceConnectionMessage P self IfcID mess
  | CommunicationMode.InterfaceRequestMode =>
    let mess := { mess with Header := { mess.Header with TLMInterfaceID := IfcID } }
    let ifc ← self.TheModel.GetTLMInterfaceProxy IfcID
    let self := { self with
      TheModel := self.TheModel.setInterface IfcID { ifc with Connected := true } }
    pure (SetupInterfaceRequestMessage P uninit mess, self)

/-! ## Parameter registration -/

namespace CompositeModel

/-- Modelled from the spec: `parameterId`, the id of the parameter of that
name on that component, or -1. -/
def GetComponentParameterID (m : CompositeModel) (ComponentID : Int) (Name : List Char) : Int :=
  firstIndex (fun par => decide (par.ComponentID = ComponentID ∧ par.Name = Name)) m.Parameters

/-- Modelled from the spec: the parameter proxy of an id. -/
def GetComponentParameterProxy (m : CompositeModel) (ID : Int) :
    Except Fault ComponentParameterProxy :=
  tableAt m.Parameters ID

/-- Modelled from the spec: `registerParameterDynamic(compId, name, value)`
adds a parameter with that value and assigns it the next parameter id. -/
def RegisterComponentParameterProxy (m : CompositeModel) (ComponentID : Int)
    (Name Value : List Char) : CompositeModel :=
  { m with
    Parameters := m.Parameters ++ [{ ComponentID := ComponentID, Name := Name, Value := Value }] }

end CompositeModel

/-- The state of the loop that splits a `REG_PARAMETER` payload (lines
366-378). -/
structure NameValueScan where
  aName : List Char
  aValue : List Char
  readingName : Bool
deriving DecidableEq, Repr

/-- One round of the loop over the payload (lines 369-377). -/
def nameValueStep (s : NameValueScan) (c : Char) : NameValueScan :=
  if c = ':' ∧ s.readingName = true then
    { s with readingName := false }
  else if s.readingName = true then
    { s with aName := s.aName ++ [c] }
  else
    { s with aValue := s.aValue ++ [c] }

/-- The parser of `ManagerCommHandler::ProcessRegParameterMessage` (lines
362-378): name and value of a `REG_PARAMETER` payload. -/
def parseNameAndValue (aNameAndValue : List Char) : List Char × List Char :=
  let s := aNameAndValue.foldl nameValueStep { aName := [], aValue := [], readingName := true }
  (s.aName, s.aValue)

/-- The zero byte that ends a C string. -/
def NUL : Char := Char.ofNat 0

/-- `std::string::c_str()` read as a C string: the characters before the
first zero byte. -/
def c_str (str : List Char) : List Char :=
  str.takeWhile (fun c => c ≠ NUL)

/-- `sizeof(ValueBuf)` for `char ValueBuf[100]`. -/
def sizeofValueBuf : Nat := 100

/-- `sprintf(ValueBuf, "%.99s", str)`: at most 99 characters of the C string
and a zero byte are written to the start of the buffer; the rest of the
buffer keeps what it held. -/
def sprintf_99s (ValueBuf : List Byte) (str : List Char) : List Byte :=
  let written := str.take 99 ++ [NUL]
  written ++ ValueBuf.drop written.length

/-- `ManagerCommHandler::ProcessRegParameterMessage` (lines 354-411).  The
local `ValueBuf` is declared without an initial value; the argument `ValueBuf`
is what its 100 bytes hold before `sprintf`. -/
def ProcessRegParameterMessage (P : Platform) (ValueBuf : List Byte)
    (self : ManagerCommHandler) (compID : Int) (mess : TLMMessage) :
    Except Fault (TLMMessage × ManagerCommHandler) := do
  if mess.Header.MessageType ≠ TLMMessageTypeConst.TLM_REG_PARAMETER then
    throw (Fault.fatal "Parameter registration message expected")
  -- First, find the interface in the meta model
  let aNameAndValue := mess.payload
  let (aName, aValue) := parseNameAndValue aNameAndValue
  let ParID := self.TheModel.GetComponentParameterID compID aName
  let mess := { mess with
    Header := { mess.Header with SourceIsBigEndianSystem := P.IsBigEndianSystem } }
  let mess := { mess with Header := { mess.Header with DataSize := 0 } }
  let (self, ParID) :=
    if ParID < 0 ∧ self.CommMode = CommunicationMode.InterfaceRequestMode then
      -- interface not found, create it
      let TheModel := self.TheModel.RegisterComponentParameterProxy compID aName aValue
      ({ self with TheModel := TheModel }, TheModel.GetComponentParameterID compID aName)
    else (self, ParID)
  if ParID < 0 then
    -- interface not found
    return (mess, self)
  let mess := { mess with Header := { mess.Header with ComponentParameterID := ParID } }
  let par ← self.TheModel.GetComponentParameterProxy ParID
  let ValueBuf := sprintf_99s ValueBuf (c_str par.Value)
  let mess := { mess with Header := { mess.Header with DataSize := sizeofValueBuf } }
  let mess := { mess with Data := resize mess.Data P.sizeofParams }
  -- the copy of `DataSize` bytes must fit into the resized buffer
  if mess.Data.length < mess.Header.DataSize then
    throw Fault.undefinedBehaviour
  let mess := { mess with Data := memcpy mess.Data ValueBuf mess.Header.DataSize }
  pure (mess, self)

/-! ## Errors of the threads -/

/-- `ManagerCommHandler::HandleThreadException` (lines 67-79); the lock makes
the calls of different threads follow one another. -/
def HandleThreadException (self : ManagerCommHandler) (msg : List Char) : ManagerCommHandler :=
  let self := { self with exceptionMsg := self.exceptionMsg ++ (msg ++ "\n".toList) }
  -- Terminate message queue, this will unblock the writer thread if needed.
  let self := { self with MessageQueue := self.MessageQueue.Terminate }
  -- We close all sockets on exception.
  { self with Comm := self.Comm.CloseAll }

/-- `ManagerCommHandler::GotException` (lines 81-84): the value written to
`msg` and the value returned. -/
def GotException (self : ManagerCommHandler) : List Char × Bool :=
  let msg := self.exceptionMsg
  (msg, decide (msg.length > 0))

/-- `ManagerCommHandler::Run` (lines 30-64).  What the threads do between
their start and their join is the argument `threads`; a `throw` is the
outcome `Except.error` with the thrown string. -/
def Run (threads : ManagerCommHandler → ManagerCommHandler) (self : ManagerCommHandler)
    (CommMode_In : CommunicationMode) : Except (List Char) ManagerCommHandler :=
  let self := { self with CommMode := CommMode_In }
  let self := threads self
  if self.exceptionMsg.length > 0 then
    .error self.exceptionMsg
  else
    .ok self

/-! ## Time data in interface-request mode -/

/-- Modelled from the spec: the reduced 1D form of time data
(`TLMTimeData1D`, declared outside the sources), with the two fields the
source reads. -/
structure TLMTimeData1D where
  Position : Double
  Velocity : Double
deriving DecidableEq, Repr

/-- The object representations of the time data structs, which the sources
do not declare: `sizeof(TLMTimeData3D)` and `sizeof(TLMTimeData1D)`, and what
a `TLMTimeData3D*` and a `TLMTimeData1D*` pointing at the first byte of a
buffer of at least that many bytes read. -/
structure TimeDataLayout where
  sizeof3D : Nat
  sizeof1D : Nat
  read3D : List Byte → TLMTimeData3D
  read1D : List Byte → TLMTimeData1D

/-- Modelled from the spec: `TLMCommUtil::ByteSwap(buffer, size, n)` reverses
the bytes of each of the first `n` lanes of `size` bytes (section 4.1). -/
def ByteSwap (size : Nat) : Nat → List Byte → List Byte
  | 0, data => data
  | n + 1, data => (data.take size).reverse ++ ByteSwap size n (data.drop size)

/-- `sizeof(double)`. -/
def sizeofDouble : Nat := 8

/-- An array of three doubles written element by element. -/
def array3 (a0 a1 a2 : Double) : Fin 3 → Double :=
  fun i => if i.val = 0 then a0 else if i.val = 1 then a1 else a2

/-- An array of six doubles written element by element. -/
def array6 (a0 a1 a2 a3 a4 a5 : Double) : Fin 6 → Double :=
  fun i =>
    if i.val = 0 then a0 else if i.val = 1 then a1 else if i.val = 2 then a2
    else if i.val = 3 then a3 else if i.val = 4 then a4 else a5

/-- The rotation matrix written in lines 682-684 and 707-709: ones at 0, 4
and 8, zeros elsewhere. -/
def identityRotation : Fin 9 → Double :=
  fun i => if i.val = 0 ∨ i.val = 4 ∨ i.val = 8 then Double.one else Double.zero

/-- The byte-order check and swap that each branch of
`UnpackAndStoreTimeData` makes on the payload. -/
def swapIfNeeded (P : Platform) (message : TLMMessage) : TLMMessage :=
  let switch_byte_order : Bool :=
    decide (P.IsBigEndianSystem ≠ message.Header.SourceIsBigEndianSystem)
  if switch_byte_order then
    { message with
      Data := ByteSwap sizeofDouble (message.Header.DataSize / sizeofDouble) message.Data }
  else message

/-- `ManagerCommHandler::UnpackAndStoreTimeData` (lines 637-714).  The source
reads the struct through a pointer to the first byte of `message.Data`
whatever `DataSize` is (lines 649 and 662, 666 and 680-687); on a payload of
fewer bytes than the struct has, that read leaves the buffer and the behaviour
is undefined. -/
def UnpackAndStoreTimeData (P : Platform) (L : TimeDataLayout) (self : ManagerCommHandler)
    (message : TLMMessage) : Except Fault (TLMMessage × ManagerCommHandler) := do
  if message.Header.MessageType ≠ TLMMessageTypeConst.TLM_TIME_DATA then
    throw (Fault.fatal
      "Unexpected message received in ManagerCommHandler::UnpackAndStoreTimeData(...)")
  let ip ← self.TheModel.GetTLMInterfaceProxy message.Header.TLMInterfaceID
  if ip.Dimensions = 6 ∧ ip.Causality = "bidirectional".toList then
    let message := swapIfNeeded P message
    if message.Data.length < L.sizeof3D then
      throw Fault.undefinedBehaviour
    let Next := L.read3D message.Data
    -- forward the time data
    let ip := { ip with time0Data3D := Next }
    pure (message,
      { self with TheModel := self.TheModel.setInterface message.Header.TLMInterfaceID ip })
  else if ip.Dimensions = 1 ∧ ip.Causality = "bidirectional".toList then
    let message := swapIfNeeded P message
    if message.Data.length < L.sizeof1D then
      throw Fault.undefinedBehaviour
    let Next := L.read1D message.Data
    -- forward the time data
    let data := ip.time0Data3D
    let data := { data with Position := array3 Next.Position Double.zero Double.zero }
    let data := { data with RotMatrix := identityRotation }
    let data := { data with
      Velocity := array6 Next.Velocity Double.zero Double.zero Double.zero Double.zero
        Double.zero }
    let ip := { ip with time0Data3D := data }
    pure (message,
      { self with TheModel := self.TheModel.setInterface message.Header.TLMInterfaceID ip })
  else
    let message := swapIfNeeded P message
    -- forward the time data
    let data := ip.time0Data3D
    let data := { data with Position := array3 Double.one Double.zero Double.zero }
    let data := { data with RotMatrix := identityRotation }
    let data := { data with
      Velocity := array6 Double.zero Double.zero Double.zero Double.zero Double.zero
        Double.zero }
    let ip := { ip with time0Data3D := data }
    pure (message,
      { self with TheModel := self.TheModel.setInterface message.Header.TLMInterfaceID ip })

/-- The interface-request branch of the run-phase loop of
`ManagerCommHandler::ReaderThreadRun` (lines 540-544), for a message that was
received into a buffer. -/
def ReaderThreadRun_store (P : Platform) (L : TimeDataLayout) (self : ManagerCommHandler)
    (message : TLMMessage) : Except Fault ManagerCommHandler := do
  -- CommMode == InterfaceRequestMode
  let (message, self) ← UnpackAndStoreTimeData P L self message
  pure { self with MessageQueue := self.MessageQueue.ReleaseSlot message }

/-! ## The reader after the startup protocol -/

/-- The component indices in the order of the loops
`for(int iSock = GetComponentsNum() - 1; iSock >= 0; --iSock)`. -/
def descending (n : Nat) : List Int :=
  (List.range n).reverse.map Int.ofNat

/-- The reply that the loop of lines 490-498 writes into the buffer
`message` for a component on socket `hdl`. -/
def checkModelReply (StartupOK : Int) (hdl : Int) (message : TLMMessage) : TLMMessage :=
  let message := { message with SocketHandle := hdl }
  let message := { message with
    Header := { message.Header with MessageType := TLMMessageTypeConst.TLM_CHECK_MODEL } }
  let message := { message with Header := { message.Header with DataSize := 0 } }
  { message with Header := { message.Header with TLMInterfaceID := StartupOK } }

/-- The loop that sends the status result to all components (lines
490-498), over the indices still to visit. -/
def checkModelLoop (StartupOK : Int) :
    List Int → ManagerCommHandler → Except Fault ManagerCommHandler
  | [], self => pure self
  | iSock :: rest, self => do
    let comp ← self.TheModel.GetTLMComponentProxy iSock
    let hdl := comp.SocketHandle
    let (message, q) ← self.MessageQueue.GetReadSlot
    let q := q.PutWriteSlot (checkModelReply StartupOK hdl message)
    checkModelLoop StartupOK rest { self with MessageQueue := q }

/-- What the reader finds when the run-phase loop comes to the socket of a
component: no data (`HasData` is false), a read that fails (`ReceiveMessage`
returns false) or a message. -/
inductive SocketEvent where
  | noData
  | readFailed
  | received (Header : TLMMessageHeader) (Data : List Byte)
deriving DecidableEq, Repr

/-- Whether the socket offers a `CLOSE_REQUEST` message. -/
def SocketEvent.isCloseRequest : SocketEvent → Bool
  | SocketEvent.received Header _ =>
    decide (Header.MessageType = TLMMessageTypeConst.TLM_CLOSE_REQUEST)
  | _ => false

/-- The locals `nClosedSock` and `closedSockets` of the run phase (lines
510-511). -/
structure RunPhaseLocals where
  nClosedSock : Int
  closedSockets : List Int
deriving DecidableEq, Repr

/-- The body of the loop over the components in the run phase (lines
516-551) for component `iSock`, whose socket offers `event`. -/
def ReaderThreadRun_visit (P : Platform) (L : TimeDataLayout)
    (state : ManagerCommHandler × RunPhaseLocals) (iSock : Int) (event : SocketEvent) :
    Except Fault (ManagerCommHandler × RunPhaseLocals) := do
  let (self, locals) := state
  let comp ← self.TheModel.GetTLMComponentProxy iSock
  let hdl := comp.SocketHandle
  if iSock ∉ locals.closedSockets ∧ hdl ≠ 0 ∧ event ≠ SocketEvent.noData then
    -- there is data to be received on the socket
    let (message, q) ← self.MessageQueue.GetReadSlot
    let self := { self with MessageQueue := q }
    let message := { message with SocketHandle := hdl }
    match event with
    | SocketEvent.received Header Data =>
      let message := { message with Header := Header, Data := Data }
      if message.Header.MessageType = TLMMessageTypeConst.TLM_CLOSE_REQUEST then
        let self := { self with MessageQueue := self.MessageQueue.ReleaseSlot message }
        pure (self, { locals with
          closedSockets := locals.closedSockets ++ [iSock]
          nClosedSock := locals.nClosedSock + 1 })
      else if self.CommMode = CommunicationMode.CoSimulationMode then
        let self ← ReaderThreadRun_forward self message
        pure (self, locals)
      else
        let self ← ReaderThreadRun_store P L self message
        pure (self, locals)
    | _ =>
      -- Socket was closed without permission
      let locals := { locals with nClosedSock := locals.nClosedSock + 1 }
      pure ({ self with MessageQueue := self.MessageQueue.ReleaseSlot message }, locals)
  else
    pure (self, locals)

/-- The loop over the components of one round of the run phase (lines
515-552); `round` tells what each socket offers in this round. -/
def ReaderThreadRun_round (P : Platform) (L : TimeDataLayout) (round : Int → SocketEvent) :
    List Int → ManagerCommHandler × RunPhaseLocals →
      Except Fault (ManagerCommHandler × RunPhaseLocals)
  | [], state => pure state
  | iSock :: rest, state => do
    let state ← ReaderThreadRun_visit P L state iSock (round iSock)
    ReaderThreadRun_round P L round rest state

/-- The condition of the run-phase loop (line 512). -/
def runLoopCondition (state : ManagerCommHandler × RunPhaseLocals) : Bool :=
  decide (state.2.nClosedSock < state.1.TheModel.GetComponentsNum ∨
    state.1.DisconnectedMonitors.length < state.1.MonitorSockets.length)

/-- The run-phase loop (lines 512-553) over the rounds that the sockets
offer; when the condition holds and no round is left the reader waits in
`SelectReadSocket`.  The monitor thread, which runs beside the reader, is not
part of this loop. -/
def ReaderThreadRun_runLoop (P : Platform) (L : TimeDataLayout) :
    List (Int → SocketEvent) → ManagerCommHandler × RunPhaseLocals →
      Except Fault (ManagerCommHandler × RunPhaseLocals)
  | [], state =>
    if runLoopCondition state then .error Fault.blocked else pure state
  | round :: rest, state =>
    if runLoopCondition state then do
      let state ← ReaderThreadRun_round P L round
        (descending state.1.TheModel.Components.length) state
      ReaderThreadRun_runLoop P L rest state
    else pure state

/-- The `CLOSE_PERMISSION` message for socket `hdl` (lines 558-563 and
573-575); `fresh` is a message as its constructor leaves it. -/
def closePermission (fresh : TLMMessage) (hdl : Int) : TLMMessage :=
  let message := fresh
  let message := { message with SocketHandle := hdl }
  { message with
    Header := { message.Header with MessageType := TLMMessageTypeConst.TLM_CLOSE_PERMISSION } }

/-- The loop over `closedSockets` after the run phase (lines 557-568);
`sent` collects the messages given to `TLMCommUtil::SendMessage`. -/
def permissionLoop (fresh : TLMMessage) :
    List Int → ManagerCommHandler → List TLMMessage →
      Except Fault (ManagerCommHandler × List TLMMessage)
  | [], self, sent => pure (self, sent)
  | iSock :: rest, self, sent => do
    let comp ← self.TheModel.GetTLMComponentProxy iSock
    let hdl := comp.SocketHandle
    let sent := sent ++ [closePermission fresh hdl]
    let self := { self with Comm := self.Comm.DropActiveSocket hdl }
    let self := { self with
      TheModel := self.TheModel.setComponent iSock { comp with SocketHandle := -1 } }
    permissionLoop fresh rest self sent

/-- The end of `ManagerCommHandler::ReaderThreadRun` (lines 555-585): the
state it leaves and the messages it has given to `SendMessage`. -/
def ReaderThreadRun_finish (fresh : TLMMessage) (self : ManagerCommHandler)
    (locals : RunPhaseLocals) : Except Fault (ManagerCommHandler × List TLMMessage) := do
  let (self, sent) ← permissionLoop fresh locals.closedSockets self []
  -- Send close permission to all monitors
  let sent := sent ++ self.DisconnectedMonitors.map (closePermission fresh)
  let self := { self with MonitorsDisconnected := true }
  let self := { self with runningMode := RunningMode.ShutdownMode }
  let self := { self with MessageQueue := self.MessageQueue.Terminate }
  pure ({ self with Comm := self.Comm.CloseAll }, sent)

/-- `ManagerCommHandler::ReaderThreadRun` from line 486 on, after
`RunStartupProtocol` has returned.  `CheckProxyComm` is the function of the
composite model that gives the global status; `rounds` is what the sockets
offer in the run phase.  The result is the state left and the messages given
to `SendMessage`. -/
def ReaderThreadRun_afterStartup (CheckProxyComm : CompositeModel → Int) (P : Platform)
    (L : TimeDataLayout) (fresh : TLMMessage) (rounds : List (Int → SocketEvent))
    (self : ManagerCommHandler) : Except Fault (ManagerCommHandler × List TLMMessage) := do
  -- Check that startup completed correctly
  let StartupOK := CheckProxyComm self.TheModel
  -- Send the status result to all components
  let self ← checkModelLoop StartupOK (descending self.TheModel.Components.length) self
  if StartupOK = 0 then
    return ({ self with MessageQueue := self.MessageQueue.Terminate }, [])
  let self := { self with Comm := self.Comm.SwitchToRunningMode }
  let self := { self with runningMode := RunningMode.RunMode }
  let nClosedSock := 0
  let closedSockets := []
  let (self, locals) ← ReaderThreadRun_runLoop P L rounds
    (self, { nClosedSock := nClosedSock, closedSockets := closedSockets })
  ReaderThreadRun_finish fresh self locals

/-- The send buffer of `q'` is the send buffer of `q` with further messages
behind it, all of the kind `TIME_DATA`. -/
def publishedTimeData (q q' : TLMMessageQueue) : Prop :=
  ∃ more : List TLMMessage, q'.SendBuffer = q.SendBuffer ++ more ∧
    ∀ m ∈ more, m.Header.MessageType = TLMMessageTypeConst.TLM_TIME_DATA

/-- The socket handle of component `c`, or -1 when there is no such
component. -/
def handleOf (m : CompositeModel) (c : Int) : Int :=
  match m.GetTLMComponentProxy c with
  | .ok comp => comp.SocketHandle
  | .error _ => -1

/-! ## The monitor thread -/

/-- Modelled from the spec: `interfaceIdByFullName`, the id of the interface
with the full name `component.interface`, or -1: the part before the first dot
names the component, the rest the interface on it
(`CompositeModel::GetTLMInterfaceID(std::string&)` is declared outside the
sources). -/
def CompositeModel.GetTLMInterfaceID_FullName (m : CompositeModel) (FullName : List Char) :
    Int :=
  let ComponentName := FullName.takeWhile (fun c => c ≠ '.')
  let IfcName := (FullName.dropWhile (fun c => c ≠ '.')).drop 1
  let CompID := m.GetTLMComponentID ComponentName
  if CompID < 0 then -1 else m.GetTLMInterfaceID CompID IfcName

/-- The state of the loop that splits the payload of a monitor registration
(lines 724-736). -/
structure NameTypeScan where
  aName : List Char
  type : List Char
  readingType : Bool
deriving DecidableEq, Repr

/-- One round of the loop over the payload (lines 727-735). -/
def nameTypeStep (s : NameTypeScan) (c : Char) : NameTypeScan :=
  let s := if c = ':' then { s with readingType := true } else s
  if s.readingType = true then
    { s with type := s.type ++ [c] }
  else
    { s with aName := s.aName ++ [c] }

/-- The name that `ProcessInterfaceMonitoringMessage` reads from a payload
(lines 723-736). -/
def monitoredName (aNameAndType : List Char) : List Char :=
  (aNameAndType.foldl nameTypeStep { aName := [], type := [], readingType := false }).aName

/-- `ManagerCommHandler::ProcessInterfaceMonitoringMessage` (lines 717-770):
the value returned, the reply and the state.  The loop of lines 754-760 waits
until another thread has marked the interface connected; here the handler is
`blocked` when the interface is not connected. -/
def ProcessInterfaceMonitoringMessage (P : Platform) (self : ManagerCommHandler)
    (message : TLMMessage) : Except Fault (Int × TLMMessage × ManagerCommHandler) := do
  if message.Header.MessageType ≠ TLMMessageTypeConst.TLM_REG_INTERFACE then
    throw (Fault.fatal "Interface monitoring registration message expected")
  -- First, find the interface in the meta model
  let aName := monitoredName message.payload
  -- Here the full name, i.e., component.interface, is requered
  let IfcID := self.TheModel.GetTLMInterfaceID_FullName aName
  let message := { message with Header := { message.Header with TLMInterfaceID := IfcID } }
  let message := { message with
    Header := { message.Header with SourceIsBigEndianSystem := P.IsBigEndianSystem } }
  let message := { message with Header := { message.Header with DataSize := 0 } }
  if IfcID < 0 then
    return (-1, message, self)
  -- Wait until interface registration is completet.
  let ifc ← self.TheModel.GetTLMInterfaceProxy IfcID
  if ifc.Connected = false then
    throw Fault.blocked
  let (message, self) ← SetupInterfaceConnectionMessage P self IfcID message
  pure (IfcID, message, self)

/-- Modelled from the spec: the active set is emptied, to be filled again
with the sockets of interest for the next wait. -/
def TLMManagerComm.ClearActiveSockets (comm : TLMManagerComm) : TLMManagerComm :=
  { comm with ActiveSockets := [] }

/-- Modelled from the spec: a socket is added to the active set. -/
def TLMManagerComm.AddActiveSocket (comm : TLMManagerComm) (hdl : Int) : TLMManagerComm :=
  { comm with ActiveSockets := comm.ActiveSockets ++ [hdl] }

/-- The locals `numToRegister` and `numCheckModel` of `RunStartupProtocol`
(lines 90-92). -/
structure StartupLocals where
  numToRegister : Int
  numCheckModel : Int
deriving DecidableEq, Repr

/-- What the reader finds in one round of the startup loop: whether the
time allowed for the startup is over, what the socket of each component
offers, and the connection waiting at the server socket, if there is one,
with the handle that `AcceptComponentConnections` returns for it and what the
new socket offers. -/
structure StartupRound where
  timedOut : Bool
  sockets : Int → SocketEvent
  accepted : Option (Int × SocketEvent)

/-- The body of the loop over the components in the startup loop (lines
133-171) for component `iSock`, whose socket offers `event`.  The result of
`ReceiveMessage` is not looked at there: after a failed read the buffer holds
what it held before.  `uninit` and `ValueBuf` are what the uninitialised
locals of the two handlers hold. -/
def RunStartupProtocol_visit (P : Platform) (uninit : TLMConnectionParams)
    (ValueBuf : List Byte) (state : ManagerCommHandler × StartupLocals) (iSock : Int)
    (event : SocketEvent) : Except Fault (ManagerCommHandler × StartupLocals) := do
  let (self, locals) := state
  let comp ← self.TheModel.GetTLMComponentProxy iSock
  let hdl := comp.SocketHandle
  -- The component needs to be connected to a socket
  if hdl < 0 then
    return (self, locals)
  -- The component needs to be is startup mode, not waiting for check mode
  if comp.ReadyToSim = true then
    return (self, locals)
  -- There is data waiting
  if event = SocketEvent.noData then
    return ({ self with Comm := self.Comm.AddActiveSocket hdl }, locals)
  let (message, q) ← self.MessageQueue.GetReadSlot
  let self := { self with MessageQueue := q }
  let message := { message with SocketHandle := hdl }
  let message :=
    match event with
    | SocketEvent.received Header Data => { message with Header := Header, Data := Data }
    | _ => message
  if message.Header.MessageType = TLMMessageTypeConst.TLM_CHECK_MODEL then
    -- This component is done with registration. It's will wait for others
    let self := { self with
      TheModel := self.TheModel.setComponent iSock { comp with ReadyToSim := true } }
    let locals := { locals with numCheckModel := locals.numCheckModel + 1 }
    pure ({ self with MessageQueue := self.MessageQueue.ReleaseSlot message }, locals)
  else if message.Header.MessageType = TLMMessageTypeConst.TLM_REG_PARAMETER then
    let self := { self with Comm := self.Comm.AddActiveSocket hdl }
    let (message, self) ← ProcessRegParameterMessage P ValueBuf self iSock message
    pure ({ self with MessageQueue := self.MessageQueue.PutWriteSlot message }, locals)
  else
    let self := { self with Comm := self.Comm.AddActiveSocket hdl }
    let (message, self) ← ProcessRegInterfaceMessage P uninit self iSock message
    pure ({ self with MessageQueue := self.MessageQueue.PutWriteSlot message }, locals)

/-- The loop over the components of one round of the startup loop (lines
132-172). -/
def RunStartupProtocol_round (P : Platform) (uninit : TLMConnectionParams)
    (ValueBuf : List Byte) (sockets : Int → SocketEvent) :
    List Int → ManagerCommHandler × StartupLocals →
      Except Fault (ManagerCommHandler × StartupLocals)
  | [], state => pure state
  | iSock :: rest, state => do
    let state ← RunStartupProtocol_visit P uninit ValueBuf state iSock (sockets iSock)
    RunStartupProtocol_round P uninit ValueBuf sockets rest state

/-- The check for a new connection (lines 175-200). -/
def RunStartupProtocol_accept (state : ManagerCommHandler × StartupLocals)
    (accepted : Option (Int × SocketEvent)) :
    Except Fault (ManagerCommHandler × StartupLocals) := do
  let (self, locals) := state
  match accepted with
  | some (hdl, event) =>
    if locals.numToRegister > 0 then
      let (message, q) ← self.MessageQueue.GetReadSlot
      let self := { self with MessageQueue := q }
      let message := { message with SocketHandle := hdl }
      match event with
      | SocketEvent.received Header Data =>
        let message := { message with Header := Header, Data := Data }
        let (message, self) ← ProcessRegComponentMessage self message
        let self := { self with MessageQueue := self.MessageQueue.PutWriteSlot message }
        let locals := { locals with numToRegister := locals.numToRegister - 1 }
        pure ({ self with Comm := self.Comm.AddActiveSocket hdl }, locals)
      | SocketEvent.readFailed =>
        -- the buffer is released before the fatal error
        throw (Fault.fatal "Failed to get message, exiting")
      | SocketEvent.noData =>
        -- `ReceiveMessage` waits for the message
        throw Fault.blocked
    else
      pure (self, locals)
  | none => pure (self, locals)

/-- The body of the startup loop (lines 113-204); `acceptSocket` is the
server socket. -/
def RunStartupProtocol_iteration (P : Platform) (uninit : TLMConnectionParams)
    (ValueBuf : List Byte) (acceptSocket : Int) (round : StartupRound)
    (state : ManagerCommHandler × StartupLocals) :
    Except Fault (ManagerCommHandler × StartupLocals) := do
  let (self, locals) := state
  -- Check for timeout.
  if round.timedOut = true then
    throw (Fault.fatal "Timeout - failed to start all components, give up!")
  let self := { self with Comm := self.Comm.ClearActiveSockets }
  -- Check all the components for interface registration messages
  let state ← RunStartupProtocol_round P uninit ValueBuf round.sockets
    (descending self.TheModel.Components.length) (self, locals)
  -- Check if a new connection is waiting to be accepted.
  let (self, locals) ← RunStartupProtocol_accept state round.accepted
  if locals.numToRegister ≠ 0 then
    -- still more connections expected
    pure ({ self with Comm := self.Comm.AddActiveSocket acceptSocket }, locals)
  else
    pure (self, locals)

/-- The condition of the startup loop (line 112). -/
def startupLoopCondition (state : ManagerCommHandler × StartupLocals) : Bool :=
  decide (state.2.numToRegister > 0 ∨
    state.2.numCheckModel < state.1.TheModel.GetComponentsNum)

/-- The startup loop (lines 112-205) over the rounds that the sockets offer;
when the condition holds and no round is left the reader waits in
`SelectReadSocket`. -/
def RunStartupProtocol_loop (P : Platform) (uninit : TLMConnectionParams)
    (ValueBuf : List Byte) (acceptSocket : Int) :
    List StartupRound → ManagerCommHandler × StartupLocals →
      Except Fault (ManagerCommHandler × StartupLocals)
  | [], state =>
    if startupLoopCondition state then .error Fault.blocked else pure state
  | round :: rest, state =>
    if startupLoopCondition state then do
      let state ← RunStartupProtocol_iteration P uninit ValueBuf acceptSocket round state
      RunStartupProtocol_loop P uninit ValueBuf acceptSocket rest state
    else pure state

/-- `ManagerCommHandler::RunStartupProtocol` (lines 88-206): the state it
leaves and the final values of its two counters.  `acceptSocket` is what
`CreateServerSocket` returns; the port written to the simulation parameters,
the start of the components and the timer are left out. -/
def RunStartupProtocol (P : Platform) (uninit : TLMConnectionParams) (ValueBuf : List Byte)
    (acceptSocket : Int) (rounds : List StartupRound) (self : ManagerCommHandler) :
    Except Fault (ManagerCommHandler × StartupLocals) :=
  -- Number of components that are expected to register
  let numToRegister := self.TheModel.GetComponentsNum
  -- Number of components waiting for check model reply
  let numCheckModel := 0
  let self := { self with Comm := self.Comm.AddActiveSocket acceptSocket }
  RunStartupProtocol_loop P uninit ValueBuf acceptSocket rounds
    (self, { numToRegister := numToRegister, numCheckModel := numCheckModel })

/-- The number of component proxies that are marked ready. -/
def readyCount (m : CompositeModel) : Nat :=
  m.Components.countP (fun comp => comp.ReadyToSim)

/-- The invariant of the startup loop: `numCheckModel` is the number of
component proxies marked ready, and a proxy marked ready has a non-negative
socket handle. -/
def StartupInvariant (state : ManagerCommHandler × StartupLocals) : Prop :=
  state.2.numCheckModel = readyCount state.1.TheModel ∧
  ∀ comp ∈ state.1.TheModel.Components, comp.ReadyToSim = true → 0 ≤ comp.SocketHandle

/-! ## The writer -/

/-- The number of buffers that the queue holds: the free ones and the ones
published for the writer. -/
def slotCount (q : TLMMessageQueue) : Nat :=
  q.FreeSlots.length + q.SendBuffer.length

/-! ## Concrete states used to evaluate the handlers -/

/-- An array of zeros. -/
def zeros (n : Nat) : Fin n → Double := fun _ => Double.zero

/-- A time-zero state of zeros. -/
def exampleTimeData : TLMTimeData3D :=
  { Position := zeros 3, RotMatrix := zeros 9, Velocity := zeros 6 }

/-- A parameter block of zeros. -/
def exampleParams : TLMConnectionParams :=
  { Delay := Double.zero, mode := Double.zero, cX_R_cG_cG := zeros 3, cX_A_cG := zeros 9,
    Nom_cI_R_cX_cX := zeros 3, Nom_cI_A_cX := zeros 9 }

/-- Component `A`, on socket 10. -/
def compA : TLMComponentProxy :=
  { Name := "A".toList, SocketHandle := 10, ReadyToSim := true,
    cX_R_cG_cG := zeros 3, cX_A_cG := zeros 9 }

/-- Component `B`, on socket 11. -/
def compB : TLMComponentProxy :=
  { Name := "B".toList, SocketHandle := 11, ReadyToSim := true,
    cX_R_cG_cG := zeros 3, cX_A_cG := zeros 9 }

/-- Interface 0, `A.p`, paired with interface 1 by connection 0. -/
def ifcAp : TLMInterfaceProxy :=
  { ComponentID := 0, Name := "p".toList, Dimensions := 6,
    Causality := "bidirectional".toList, Domain := "mechanical".toList,
    ConnectionID := 0, LinkedID := 1, Connected := true, time0Data3D := exampleTimeData }

/-- Interface 1, `B.p`, paired with interface 0 by connection 0. -/
def ifcBp : TLMInterfaceProxy :=
  { ComponentID := 1, Name := "p".toList, Dimensions := 6,
    Causality := "bidirectional".toList, Domain := "mechanical".toList,
    ConnectionID := 0, LinkedID := 0, Connected := true, time0Data3D := exampleTimeData }

/-- Interface 2, `A.q`, which has no pair. -/
def ifcAq : TLMInterfaceProxy :=
  { ComponentID := 0, Name := "q".toList, Dimensions := 6,
    Causality := "bidirectional".toList, Domain := "mechanical".toList,
    ConnectionID := -1, LinkedID := -1, Connected := true, time0Data3D := exampleTimeData }

/-- Components `A` and `B`, each with an interface `p`, the two paired by
connection 0, and an unpaired interface `q` on `A`. -/
def exampleModel : CompositeModel :=
  { Components := [compA, compB]
    Interfaces := [ifcAp, ifcBp, ifcAq]
    Connections := [ { Params := exampleParams } ] }

/-- An unused buffer. -/
def emptyMessage : TLMMessage :=
  { SocketHandle := -1
    Header := { MessageType := TLMMessageTypeConst.TLM_TIME_DATA, TLMInterfaceID := -1,
                ComponentParameterID := -1, SourceIsBigEndianSystem := false, DataSize := 0 }
    Data := [] }

/-- A queue with two free buffers and nothing published. -/
def exampleQueue : TLMMessageQueue :=
  { FreeSlots := [emptyMessage, emptyMessage], SendBuffer := [], Terminated := false }

/-- The run phase in co-simulation mode with one monitor, on socket 7,
subscribed to interface 1 (`B.p`). -/
def monitorOnB : ManagerCommHandler :=
  { TheModel := exampleModel, MessageQueue := exampleQueue,
    CommMode := CommunicationMode.CoSimulationMode,
    monitorInterfaceMap := [(1, 7)], MonitorsDisconnected := false }

/-- The same with the monitor subscribed to interface 0 (`A.p`). -/
def monitorOnA : ManagerCommHandler :=
  { monitorOnB with monitorInterfaceMap := [(0, 7)] }

/-- A `TIME_DATA` frame of three payload bytes received from interface `ifc`. -/
def timeDataFrom (ifc : Int) : TLMMessage :=
  { SocketHandle := 10
    Header := { MessageType := TLMMessageTypeConst.TLM_TIME_DATA, TLMInterfaceID := ifc,
                ComponentParameterID := 0, SourceIsBigEndianSystem := true, DataSize := 3 }
    Data := "xyz".toList }

/-- The eight bytes of a double, lowest first. -/
def doubleBytes (d : Double) : List Byte :=
  (List.range 8).map (fun k => Char.ofNat (d.bits / 256 ^ k % 256))

/-- The bytes of an array of doubles. -/
def arrayBytes {n : Nat} (a : Fin n → Double) : List Byte :=
  (List.finRange n).foldr (fun i acc => doubleBytes (a i) ++ acc) []

/-- The bytes of a parameter block laid out field after field. -/
def packedBytes (p : TLMConnectionParams) : List Byte :=
  doubleBytes p.Delay ++ doubleBytes p.mode ++ arrayBytes p.cX_R_cG_cG ++ arrayBytes p.cX_A_cG ++
    arrayBytes p.Nom_cI_R_cX_cX ++ arrayBytes p.Nom_cI_A_cX

/-- A little-endian host on which a parameter block takes 208 bytes. -/
def examplePlatform : Platform :=
  { IsBigEndianSystem := false
    sizeofParams := 208
    bytesOf := packedBytes
    bytesOf_length := by
      have key : ∀ (n : Nat) (a : Fin n → Double) (l : List (Fin n)),
          (l.foldr (fun i acc => doubleBytes (a i) ++ acc) []).length = 8 * l.length := by
        intro n a l
        induction l with
        | nil => rfl
        | cons i l ih =>
          simp only [List.foldr_cons, List.length_append, ih, List.length_cons]
          simp [doubleBytes]
          omega
      intro p
      have hd : ∀ d : Double, (doubleBytes d).length = 8 := by
        intro d
        simp [doubleBytes]
      simp only [packedBytes, arrayBytes, List.length_append, key, hd, List.length_finRange] }

/-- The startup phase in co-simulation mode, no monitors. -/
def startupCoSim : ManagerCommHandler :=
  { TheModel := exampleModel, MessageQueue := exampleQueue,
    CommMode := CommunicationMode.CoSimulationMode,
    monitorInterfaceMap := [], MonitorsDisconnected := false }

/-- The startup phase in interface-request mode. -/
def startupRequest : ManagerCommHandler :=
  { startupCoSim with CommMode := CommunicationMode.InterfaceRequestMode }

/-- The registration of interface `p` by component `A`. -/
def regInterfaceP : TLMMessage :=
  { SocketHandle := 10
    Header := { MessageType := TLMMessageTypeConst.TLM_REG_INTERFACE, TLMInterfaceID := 0,
                ComponentParameterID := 0, SourceIsBigEndianSystem := false, DataSize := 28 }
    Data := "p:6:bidirectional:mechanical".toList }

/-- The registration of an interface `dynamic` with one dimension. -/
def regInterfaceDynamic : TLMMessage :=
  { SocketHandle := 10
    Header := { MessageType := TLMMessageTypeConst.TLM_REG_INTERFACE, TLMInterfaceID := 0,
                ComponentParameterID := 0, SourceIsBigEndianSystem := false, DataSize := 22 }
    Data := "dynamic:1:input:signal".toList }

/-- A message of kind `kind` received on socket `hdl` whose payload is `text`. -/
def received (kind : TLMMessageTypeConst) (hdl : Int) (text : String) : TLMMessage :=
  { SocketHandle := hdl
    Header := { MessageType := kind, TLMInterfaceID := 0, ComponentParameterID := 0,
                SourceIsBigEndianSystem := false, DataSize := text.toList.length }
    Data := text.toList }

/-- A `REG_PARAMETER` message in whose header the client left parameter id 5. -/
def regParameter (text : String) : TLMMessage :=
  { SocketHandle := 10
    Header := { MessageType := TLMMessageTypeConst.TLM_REG_PARAMETER, TLMInterfaceID := 0,
                ComponentParameterID := 5, SourceIsBigEndianSystem := false,
                DataSize := text.toList.length }
    Data := text.toList }

/-- A value buffer of 100 bytes `U`, for the bytes that `ValueBuf` holds before
`sprintf`. -/
def staleValueBuf : List Byte := List.replicate 100 'U'

/-- The example model with the parameter `k` of component `A`, of value
`3.5`. -/
def modelWithParameter : CompositeModel :=
  { exampleModel with
    Parameters := [{ ComponentID := 0, Name := "k".toList, Value := "3.5".toList }] }

/-- The startup phase in co-simulation mode with that model. -/
def startupWithParameter : ManagerCommHandler :=
  { startupCoSim with TheModel := modelWithParameter }

/-- A double read from eight bytes, lowest first. -/
def readDouble (data : List Byte) : Double :=
  ⟨(data.take 8).foldr (fun b acc => b.toNat + 256 * acc) 0⟩

/-- A layout in which the time data structs are their doubles one after the
other. -/
def exampleLayout : TimeDataLayout :=
  { sizeof3D := 144
    sizeof1D := 16
    read3D := fun data =>
      { Position := fun i => readDouble (data.drop (8 * i.val))
        RotMatrix := fun i => readDouble (data.drop (8 * (3 + i.val)))
        Velocity := fun i => readDouble (data.drop (8 * (12 + i.val))) }
    read1D := fun data =>
      { Position := readDouble data, Velocity := readDouble (data.drop 8) } }

/-- The header of a `CLOSE_REQUEST` message. -/
def closeRequestHeader : TLMMessageHeader :=
  { MessageType := TLMMessageTypeConst.TLM_CLOSE_REQUEST, TLMInterfaceID := 0,
    ComponentParameterID := 0, SourceIsBigEndianSystem := false, DataSize := 0 }

/-- A round in which every socket offers a `CLOSE_REQUEST`. -/
def allRequestClose : Int → SocketEvent :=
  fun _ => SocketEvent.received closeRequestHeader []

/-- A round in which component 0 offers a `CLOSE_REQUEST` and the read from
every other socket fails. -/
def oneRequestsOneFails : Int → SocketEvent :=
  fun iSock => if iSock = 0 then SocketEvent.received closeRequestHeader []
    else SocketEvent.readFailed

/-- The run phase in co-simulation mode with the sockets 10 and 11 of the two
components in the active set. -/
def runPhaseCoSim : ManagerCommHandler :=
  { startupCoSim with
    Comm := { ActiveSockets := [10, 11], StartupMode := false }
    runningMode := RunningMode.RunMode }

/-- A `TIME_DATA` frame of three payload bytes from interface `ifc`, sent by a
little-endian client. -/
def timeDataLittle (ifc : Int) : TLMMessage :=
  { timeDataFrom ifc with
    Header := { (timeDataFrom ifc).Header with SourceIsBigEndianSystem := false } }

/-- A `TIME_DATA` frame from interface `ifc`, sent by a little-endian client,
whose payload is the 144 bytes of eighteen doubles with the bit patterns 1 to
18. -/
def timeData3D (ifc : Int) : TLMMessage :=
  { SocketHandle := 10
    Header := { MessageType := TLMMessageTypeConst.TLM_TIME_DATA, TLMInterfaceID := ifc,
                ComponentParameterID := 0, SourceIsBigEndianSystem := false, DataSize := 144 }
    Data := arrayBytes (fun i : Fin 18 => (⟨i.val + 1⟩ : Double)) }

/-- A `TIME_DATA` frame from interface `ifc`, sent by a little-endian client,
whose payload is the 16 bytes of the doubles 1 and 0.1. -/
def timeData1D (ifc : Int) : TLMMessage :=
  { SocketHandle := 10
    Header := { MessageType := TLMMessageTypeConst.TLM_TIME_DATA, TLMInterfaceID := ifc,
                ComponentParameterID := 0, SourceIsBigEndianSystem := false, DataSize := 16 }
    Data := doubleBytes Double.one ++ doubleBytes Double.tenth }

/-- Interface 3, `B.s`, bidirectional with one dimension. -/
def ifcBs : TLMInterfaceProxy :=
  { ComponentID := 1, Name := "s".toList, Dimensions := 1,
    Causality := "bidirectional".toList, Domain := "mechanical".toList,
    ConnectionID := -1, LinkedID := -1, Connected := true, time0Data3D := exampleTimeData }

/-- The run phase in interface-request mode, the model having the 1D
interface `B.s` as well. -/
def runPhaseRequest : ManagerCommHandler :=
  { startupRequest with
    TheModel := { exampleModel with Interfaces := [ifcAp, ifcBp, ifcAq, ifcBs] }
    runningMode := RunningMode.RunMode }

/-- The state and the locals with which the run-phase loop leaves
`runPhaseCoSim` when the first round is `oneRequestsOneFails` (component 0
asks to close, the read from component 1 fails) and a further round
`allRequestClose` is on offer. -/
def afterRunPhase : ManagerCommHandler × RunPhaseLocals :=
  match ReaderThreadRun_runLoop examplePlatform exampleLayout
      [oneRequestsOneFails, allRequestClose]
      (runPhaseCoSim, { nClosedSock := 0, closedSockets := [] }) with
  | .ok state => state
  | .error _ => (runPhaseCoSim, { nClosedSock := 0, closedSockets := [] })

/-- Interface 4, `B.u`, an input signal with one dimension. -/
def ifcBu : TLMInterfaceProxy :=
  { ComponentID := 1, Name := "u".toList, Dimensions := 1,
    Causality := "input".toList, Domain := "signal".toList,
    ConnectionID := -1, LinkedID := -1, Connected := true, time0Data3D := exampleTimeData }

/-- The run phase in interface-request mode, the model having the 1D
interface `B.s` and the input signal `B.u` as well. -/
def runPhaseSignal : ManagerCommHandler :=
  { runPhaseRequest with
    TheModel := { exampleModel with Interfaces := [ifcAp, ifcBp, ifcAq, ifcBs, ifcBu] } }

/-- A round in which the read from the socket of component 0 fails and no
other socket has data. -/
def firstSocketFails : Int → SocketEvent :=
  fun iSock => if iSock = 0 then SocketEvent.readFailed else SocketEvent.noData

/-- Interface `A.p` with the time-zero position (1, 0, 0). -/
def ifcApMoved : TLMInterfaceProxy :=
  { ifcAp with
    time0Data3D := { exampleTimeData with
      Position := array3 Double.one Double.zero Double.zero } }

/-- The run phase in co-simulation mode with interface `A.p` at the time-zero
position (1, 0, 0); the parameter block of connection 0 holds zeros, as the
registration of `B.p` left it. -/
def runPhaseMoved : ManagerCommHandler :=
  { runPhaseCoSim with
    TheModel := { exampleModel with Interfaces := [ifcApMoved, ifcBp, ifcAq] } }

/-- Component `A` before its client has connected. -/
def compA0 : TLMComponentProxy :=
  { compA with SocketHandle := -1, ReadyToSim := false }

/-- Component `B` before its client has connected. -/
def compB0 : TLMComponentProxy :=
  { compB with SocketHandle := -1, ReadyToSim := false }

/-- A queue with four free buffers and nothing published. -/
def startupQueue : TLMMessageQueue :=
  { FreeSlots := [emptyMessage, emptyMessage, emptyMessage, emptyMessage], SendBuffer := [],
    Terminated := false }

/-- The handler at the entry of `RunStartupProtocol`: no component is bound to
a socket or ready. -/
def beforeStartup : ManagerCommHandler :=
  { startupCoSim with
    TheModel := { exampleModel with Components := [compA0, compB0] }
    MessageQueue := startupQueue }

/-- The handler when `RunStartupProtocol` has returned: both components are
bound to their sockets and ready, and the queue has four free buffers. -/
def startupDone : ManagerCommHandler :=
  { startupCoSim with MessageQueue := startupQueue }

/-- The header of a `CHECK_MODEL` message. -/
def checkModelHeader : TLMMessageHeader :=
  { MessageType := TLMMessageTypeConst.TLM_CHECK_MODEL, TLMInterfaceID := 0,
    ComponentParameterID := 0, SourceIsBigEndianSystem := false, DataSize := 0 }

/-- A startup in three rounds: the client of `A` connects on socket 10 and
registers, the client of `B` connects on socket 11 and registers, both send
`CHECK_MODEL`. -/
def startupRounds : List StartupRound :=
  [ { timedOut := false, sockets := fun _ => SocketEvent.noData
      accepted := some (10, SocketEvent.received
        (received TLMMessageTypeConst.TLM_REG_COMPONENT 10 "A").Header "A".toList) },
    { timedOut := false, sockets := fun _ => SocketEvent.noData
      accepted := some (11, SocketEvent.received
        (received TLMMessageTypeConst.TLM_REG_COMPONENT 11 "B").Header "B".toList) },
    { timedOut := false, sockets := fun _ => SocketEvent.received checkModelHeader []
      accepted := none } ]

/-- The state and the counters with which `RunStartupProtocol` leaves
`beforeStartup` after the rounds `startupRounds`, the server socket being
socket 3. -/
def afterStartup : ManagerCommHandler × StartupLocals :=
  match RunStartupProtocol examplePlatform exampleParams staleValueBuf 3 startupRounds
      beforeStartup with
  | .ok state => state
  | .error _ => (beforeStartup, { numToRegister := 0, numCheckModel := 0 })

end OMTLM

/-! ## Theorems -/

namespace OMTLM

/-- The loop of `ForwardToMonitor` fills one free buffer per monitor socket and
publishes it, in the order of the sockets. -/
theorem forwardLoop_ok (I : Int) (message : TLMMessage) :
    ∀ (handles : List Int) (q : TLMMessageQueue),
      handles.length ≤ q.FreeSlots.length →
      forwardLoop I message handles q = .ok
        { q with
          FreeSlots := q.FreeSlots.drop handles.length
          SendBuffer := q.SendBuffer ++ List.zipWith (monitorCopy I message) handles q.FreeSlots }
  | [], q, _ => by simp [forwardLoop, pure, Except.pure]
  | hdl :: rest, q, hlen => by
    obtain ⟨free, send, term⟩ := q
    cases free with
    | nil => simp at hlen
    | cons slot free =>
      have hrest : rest.length ≤ free.length := by simpa using hlen
      have ih := forwardLoop_ok I message rest
        { FreeSlots := free, SendBuffer := send ++ [monitorCopy I message hdl slot],
          Terminated := term } hrest
      simp only [forwardLoop, TLMMessageQueue.GetReadSlot, TLMMessageQueue.PutWriteSlot,
        bind, Except.bind]
      rw [ih]
      simp

theorem monitorCopy_socket (I : Int) (message : TLMMessage) (hdl : Int) (slot : TLMMessage) :
    (monitorCopy I message hdl slot).SocketHandle = hdl := by
  unfold monitorCopy
  dsimp only
  split <;> rfl

theorem monitorCopy_header (I : Int) (message : TLMMessage) (hdl : Int) (slot : TLMMessage) :
    (monitorCopy I message hdl slot).Header = { message.Header with TLMInterfaceID := I } := by
  unfold monitorCopy
  dsimp only
  split <;> rfl

theorem monitorCopy_payload (I : Int) (message : TLMMessage) (hdl : Int) (slot : TLMMessage)
    (hwf : message.Header.DataSize ≤ message.Data.length) :
    (monitorCopy I message hdl slot).payload = message.payload := by
  unfold TLMMessage.payload
  rw [monitorCopy_header]
  unfold monitorCopy
  dsimp only
  split <;> simp [memcpy, List.take_append_eq_append_take, List.take_take, hwf]

/-- What `ForwardToMonitor` returns while monitoring is active, for a
`TIME_DATA` message of a valid interface and enough free buffers. -/
theorem forwardToMonitor_eq (self : ManagerCommHandler) (message : TLMMessage)
    (ifc : TLMInterfaceProxy)
    (hactive : self.MonitorsDisconnected = false)
    (hkind : message.Header.MessageType = TLMMessageTypeConst.TLM_TIME_DATA)
    (hifc : self.TheModel.GetTLMInterfaceProxy message.Header.TLMInterfaceID = .ok ifc)
    (hfree : (equalRange self.monitorInterfaceMap ifc.LinkedID).length
      ≤ self.MessageQueue.FreeSlots.length) :
    ForwardToMonitor self message = .ok (message,
      { self with
        MessageQueue :=
          { self.MessageQueue with
            FreeSlots := self.MessageQueue.FreeSlots.drop
              (equalRange self.monitorInterfaceMap ifc.LinkedID).length
            SendBuffer := self.MessageQueue.SendBuffer ++
              List.zipWith (monitorCopy ifc.LinkedID message)
                (equalRange self.monitorInterfaceMap ifc.LinkedID)
                self.MessageQueue.FreeSlots } }) := by
  unfold ForwardToMonitor
  simp only [hactive, hifc, hkind, bind, Except.bind, pure, Except.pure]
  by_cases hcount : (equalRange self.monitorInterfaceMap ifc.LinkedID).length > 0
  · simp only [hcount, forwardLoop_ok ifc.LinkedID message _ _ hfree]
    simp
  · have hnil : equalRange self.monitorInterfaceMap ifc.LinkedID = [] := by
      apply List.eq_nil_of_length_eq_zero
      omega
    obtain ⟨model, ⟨free, send, term⟩, mode, entries, disc⟩ := self
    simp only at hactive
    simp [hnil, hactive]

/-- What `MarshalMessage` returns for a `TIME_DATA` message of an interface with
a linked interface. -/
theorem marshalMessage_eq (TheModel : CompositeModel) (message : TLMMessage)
    (src dest : TLMInterfaceProxy) (destComp : TLMComponentProxy)
    (hkind : message.Header.MessageType = TLMMessageTypeConst.TLM_TIME_DATA)
    (hsrc : TheModel.GetTLMInterfaceProxy message.Header.TLMInterfaceID = .ok src)
    (hlinked : 0 ≤ src.LinkedID)
    (hdest : TheModel.GetTLMInterfaceProxy src.LinkedID = .ok dest)
    (hcomp : TheModel.GetTLMComponentProxy dest.ComponentID = .ok destComp) :
    MarshalMessage TheModel message = .ok
      { message with
        SocketHandle := destComp.SocketHandle
        Header := { message.Header with TLMInterfaceID := src.LinkedID } } := by
  have hnot : ¬ src.LinkedID < 0 := by omega
  unfold MarshalMessage
  simp [hsrc, hkind, hnot, hdest, hcomp, bind, Except.bind, pure, Except.pure]

/-- The send buffer after the reader has handled a `TIME_DATA` frame while
monitoring is active: the buffers filled for the monitors of the linked id of
the destination, then the routed frame. -/
theorem readerThreadRun_forward_active (self : ManagerCommHandler) (message : TLMMessage)
    (src dest : TLMInterfaceProxy) (destComp : TLMComponentProxy)
    (hkind : message.Header.MessageType = TLMMessageTypeConst.TLM_TIME_DATA)
    (hsrc : self.TheModel.GetTLMInterfaceProxy message.Header.TLMInterfaceID = .ok src)
    (hlinked : 0 ≤ src.LinkedID)
    (hdest : self.TheModel.GetTLMInterfaceProxy src.LinkedID = .ok dest)
    (hcomp : self.TheModel.GetTLMComponentProxy dest.ComponentID = .ok destComp)
    (hactive : self.MonitorsDisconnected = false)
    (hfree : (equalRange self.monitorInterfaceMap dest.LinkedID).length
      ≤ self.MessageQueue.FreeSlots.length) :
    ∃ self' : ManagerCommHandler,
      ReaderThreadRun_forward self message = .ok self' ∧
      self'.MessageQueue.SendBuffer =
        self.MessageQueue.SendBuffer ++
          (List.zipWith
            (monitorCopy dest.LinkedID
              { message with
                SocketHandle := destComp.SocketHandle
                Header := { message.Header with TLMInterfaceID := src.LinkedID } })
            (equalRange self.monitorInterfaceMap dest.LinkedID)
            self.MessageQueue.FreeSlots ++
          [{ message with
              SocketHandle := destComp.SocketHandle
              Header := { message.Header with TLMInterfaceID := src.LinkedID } }]) := by
  have hfwd := forwardToMonitor_eq self
    { message with
      SocketHandle := destComp.SocketHandle
      Header := { message.Header with TLMInterfaceID := src.LinkedID } }
    dest hactive hkind hdest hfree
  unfold ReaderThreadRun_forward
  simp only [marshalMessage_eq self.TheModel message src dest destComp hkind hsrc hlinked hdest
    hcomp, bind, Except.bind]
  rw [hfwd]
  exact ⟨_, rfl, by simp [TLMMessageQueue.PutWriteSlot]⟩

/-- C1. A `TIME_DATA` message of a valid interface A whose linked id B is not
negative is routed by `MarshalMessage` to the socket of the component owning
B with header interface id B; kind, endian flag, payload length and all bytes
are kept.  The reader then appends that message once to the send buffer, after
the buffers that `ForwardToMonitor` filled for monitors. -/
theorem marshalMessage_routes_to_linked (self : ManagerCommHandler) (message : TLMMessage)
    (src dest : TLMInterfaceProxy) (destComp : TLMComponentProxy)
    (hkind : message.Header.MessageType = TLMMessageTypeConst.TLM_TIME_DATA)
    (hsrc : self.TheModel.GetTLMInterfaceProxy message.Header.TLMInterfaceID = .ok src)
    (hlinked : 0 ≤ src.LinkedID)
    (hdest : self.TheModel.GetTLMInterfaceProxy src.LinkedID = .ok dest)
    (hcomp : self.TheModel.GetTLMComponentProxy dest.ComponentID = .ok destComp)
    (hfree : self.MonitorsDisconnected = false →
      (equalRange self.monitorInterfaceMap dest.LinkedID).length
        ≤ self.MessageQueue.FreeSlots.length) :
    ∃ routed : TLMMessage,
      MarshalMessage self.TheModel message = .ok routed ∧
      routed.SocketHandle = destComp.SocketHandle ∧
      routed.Header.TLMInterfaceID = src.LinkedID ∧
      routed.Header.MessageType = message.Header.MessageType ∧
      routed.Header.SourceIsBigEndianSystem = message.Header.SourceIsBigEndianSystem ∧
      routed.Header.DataSize = message.Header.DataSize ∧
      routed.Data = message.Data ∧
      ∃ self' : ManagerCommHandler,
        ReaderThreadRun_forward self message = .ok self' ∧
        self'.MessageQueue.SendBuffer =
          self.MessageQueue.SendBuffer ++
            (if self.MonitorsDisconnected then []
             else List.zipWith (monitorCopy dest.LinkedID routed)
               (equalRange self.monitorInterfaceMap dest.LinkedID)
               self.MessageQueue.FreeSlots) ++
            [routed] := by
  have hmarshal := marshalMessage_eq self.TheModel message src dest destComp hkind hsrc hlinked
    hdest hcomp
  refine ⟨_, hmarshal, rfl, rfl, rfl, rfl, rfl, rfl, ?_⟩
  unfold ReaderThreadRun_forward
  simp only [hmarshal, bind, Except.bind]
  cases hmon : self.MonitorsDisconnected with
  | true =>
    have hfwd : ∀ m : TLMMessage, ForwardToMonitor self m = .ok (m, self) := by
      intro m
      simp [ForwardToMonitor, hmon, pure, Except.pure]
    rw [hfwd]
    exact ⟨_, rfl, by simp [TLMMessageQueue.PutWriteSlot]⟩
  | false =>
    have hfwd := forwardToMonitor_eq self
      { message with
        SocketHandle := destComp.SocketHandle
        Header := { message.Header with TLMInterfaceID := src.LinkedID } }
      dest hmon hkind hdest (hfree hmon)
    rw [hfwd]
    exact ⟨_, rfl, by simp [TLMMessageQueue.PutWriteSlot]⟩

/-- C1 at a frame from `A.p` with a monitor subscribed to `A.p`. -/
theorem marshalMessage_routes_to_linked_witness :
    ((timeDataFrom 0).Header.MessageType = TLMMessageTypeConst.TLM_TIME_DATA ∧
      monitorOnA.TheModel.GetTLMInterfaceProxy (timeDataFrom 0).Header.TLMInterfaceID = .ok ifcAp ∧
      0 ≤ ifcAp.LinkedID ∧
      monitorOnA.TheModel.GetTLMInterfaceProxy ifcAp.LinkedID = .ok ifcBp ∧
      monitorOnA.TheModel.GetTLMComponentProxy ifcBp.ComponentID = .ok compB) ∧
    ∃ routed : TLMMessage,
      MarshalMessage monitorOnA.TheModel (timeDataFrom 0) = .ok routed ∧
      routed.SocketHandle = compB.SocketHandle ∧
      routed.Header.TLMInterfaceID = ifcAp.LinkedID ∧
      routed.Header.MessageType = (timeDataFrom 0).Header.MessageType ∧
      routed.Header.SourceIsBigEndianSystem = (timeDataFrom 0).Header.SourceIsBigEndianSystem ∧
      routed.Header.DataSize = (timeDataFrom 0).Header.DataSize ∧
      routed.Data = (timeDataFrom 0).Data ∧
      ∃ self' : ManagerCommHandler,
        ReaderThreadRun_forward monitorOnA (timeDataFrom 0) = .ok self' ∧
        self'.MessageQueue.SendBuffer =
          monitorOnA.MessageQueue.SendBuffer ++
            (if monitorOnA.MonitorsDisconnected then []
             else List.zipWith (monitorCopy ifcBp.LinkedID routed)
               (equalRange monitorOnA.monitorInterfaceMap ifcBp.LinkedID)
               monitorOnA.MessageQueue.FreeSlots) ++
            [routed] :=
  ⟨⟨rfl, rfl, by decide, rfl, rfl⟩,
    marshalMessage_routes_to_linked monitorOnA (timeDataFrom 0) ifcAp ifcBp compB
      rfl rfl (by decide) rfl rfl (fun _ => by decide)⟩

theorem zipWith_mem_of_mem {α β γ : Type} (f : α → β → γ) :
    ∀ (xs : List α) (ys : List β) (x : α), x ∈ xs → xs.length ≤ ys.length →
      ∃ y, f x y ∈ List.zipWith f xs ys
  | [], _, _, hx, _ => by simp at hx
  | _ :: _, [], _, _, hlen => by simp at hlen
  | a :: xs, b :: ys, x, hx, hlen => by
    rcases List.mem_cons.mp hx with rfl | hx
    · exact ⟨b, by simp⟩
    · obtain ⟨y, hy⟩ := zipWith_mem_of_mem f xs ys x hx (by simpa using hlen)
      exact ⟨y, by simp [hy]⟩

theorem zipWith_forall {α β γ : Type} (f : α → β → γ) (P : γ → Prop)
    (hP : ∀ x y, P (f x y)) :
    ∀ (xs : List α) (ys : List β), ∀ z ∈ List.zipWith f xs ys, P z
  | [], _, z, hz => by simp at hz
  | _ :: _, [], z, hz => by simp at hz
  | a :: xs, b :: ys, z, hz => by
    rcases List.mem_cons.mp (by simpa using hz) with rfl | hz
    · exact hP a b
    · exact zipWith_forall f P hP xs ys z hz

theorem mem_equalRange (entries : List (Int × Int)) (I hdl : Int) :
    hdl ∈ equalRange entries I ↔ (I, hdl) ∈ entries := by
  unfold equalRange
  simp only [List.mem_map, List.mem_filter, decide_eq_true_eq]
  constructor
  · rintro ⟨⟨k, v⟩, ⟨hmem, hk⟩, hv⟩
    simp only at hk hv
    subst hk; subst hv
    exact hmem
  · intro hmem
    exact ⟨(I, hdl), ⟨hmem, rfl⟩, rfl⟩

/-- C4. A `TIME_DATA` message of a valid interface whose linked id is negative
leaves `MarshalMessage` with header interface id -1 and socket handle -1; the
buffer, the payload length and so the payload are kept. -/
theorem marshalMessage_drops_unpaired (TheModel : CompositeModel) (message : TLMMessage)
    (src : TLMInterfaceProxy)
    (hkind : message.Header.MessageType = TLMMessageTypeConst.TLM_TIME_DATA)
    (hsrc : TheModel.GetTLMInterfaceProxy message.Header.TLMInterfaceID = .ok src)
    (hlinked : src.LinkedID < 0) :
    ∃ dropped : TLMMessage,
      MarshalMessage TheModel message = .ok dropped ∧
      dropped.Header.TLMInterfaceID = -1 ∧
      dropped.SocketHandle = -1 ∧
      dropped.Data = message.Data ∧
      dropped.Header.DataSize = message.Header.DataSize ∧
      dropped.payload = message.payload := by
  refine ⟨{ message with
    SocketHandle := -1
    Header := { message.Header with TLMInterfaceID := -1 } }, ?_, rfl, rfl, rfl, rfl, rfl⟩
  unfold MarshalMessage
  simp [hsrc, hkind, hlinked, bind, Except.bind, pure, Except.pure]

/-- C4 at a frame from the unpaired interface `A.q`. -/
theorem marshalMessage_drops_unpaired_witness :
    ((timeDataFrom 2).Header.MessageType = TLMMessageTypeConst.TLM_TIME_DATA ∧
      exampleModel.GetTLMInterfaceProxy (timeDataFrom 2).Header.TLMInterfaceID = .ok ifcAq ∧
      ifcAq.LinkedID < 0) ∧
    ∃ dropped : TLMMessage,
      MarshalMessage exampleModel (timeDataFrom 2) = .ok dropped ∧
      dropped.Header.TLMInterfaceID = -1 ∧
      dropped.SocketHandle = -1 ∧
      dropped.Data = (timeDataFrom 2).Data ∧
      dropped.Header.DataSize = (timeDataFrom 2).Header.DataSize ∧
      dropped.payload = (timeDataFrom 2).payload :=
  ⟨⟨rfl, rfl, by decide⟩,
    marshalMessage_drops_unpaired exampleModel (timeDataFrom 2) ifcAq rfl rfl (by decide)⟩

/-- C2 as stated fails: with `A.p` (0) and `B.p` (1) paired with each other and
socket 7 subscribed to `B.p`, a `TIME_DATA` frame received from `A.p` is
routed to `B.p` and nothing is published for socket 7. -/
theorem monitor_of_destination_gets_no_copy :
    monitorOnB.CommMode = CommunicationMode.CoSimulationMode ∧
    monitorOnB.MonitorsDisconnected = false ∧
    monitorOnB.TheModel.GetTLMInterfaceProxy 0 = .ok ifcAp ∧ ifcAp.LinkedID = 1 ∧
    monitorOnB.TheModel.GetTLMInterfaceProxy 1 = .ok ifcBp ∧ ifcBp.LinkedID = 0 ∧
    (1, 7) ∈ monitorOnB.monitorInterfaceMap ∧
    (timeDataFrom 0).Header.MessageType = TLMMessageTypeConst.TLM_TIME_DATA ∧
    (timeDataFrom 0).Header.TLMInterfaceID = 0 ∧
    ∃ self' : ManagerCommHandler,
      ReaderThreadRun_forward monitorOnB (timeDataFrom 0) = .ok self' ∧
      self'.MessageQueue.SendBuffer.map (fun m => (m.SocketHandle, m.Header.TLMInterfaceID))
        = [(11, 1)] ∧
      ∀ m ∈ self'.MessageQueue.SendBuffer, m.SocketHandle ≠ 7 :=
  ⟨rfl, rfl, rfl, rfl, rfl, rfl, by decide, rfl, rfl, _, rfl, by decide, by decide⟩

/-- C2, amended. While monitoring is active, for interfaces A and B paired
with each other and a monitor socket subscribed to A, the handling of a
`TIME_DATA` frame received from A publishes, besides the frame routed to B, a
buffer for that monitor socket with header interface id A, kind `TIME_DATA`
and the payload of the frame. -/
theorem monitor_of_source_gets_copy (self : ManagerCommHandler) (message : TLMMessage)
    (src dest : TLMInterfaceProxy) (destComp : TLMComponentProxy) (mon : Int)
    (hkind : message.Header.MessageType = TLMMessageTypeConst.TLM_TIME_DATA)
    (hsrc : self.TheModel.GetTLMInterfaceProxy message.Header.TLMInterfaceID = .ok src)
    (hlinked : 0 ≤ src.LinkedID)
    (hdest : self.TheModel.GetTLMInterfaceProxy src.LinkedID = .ok dest)
    (hpair : dest.LinkedID = message.Header.TLMInterfaceID)
    (hcomp : self.TheModel.GetTLMComponentProxy dest.ComponentID = .ok destComp)
    (hactive : self.MonitorsDisconnected = false)
    (hsub : (message.Header.TLMInterfaceID, mon) ∈ self.monitorInterfaceMap)
    (hwf : message.Header.DataSize ≤ message.Data.length)
    (hfree : (equalRange self.monitorInterfaceMap message.Header.TLMInterfaceID).length
      ≤ self.MessageQueue.FreeSlots.length) :
    ∃ (self' : ManagerCommHandler) (published : List TLMMessage) (copy : TLMMessage),
      ReaderThreadRun_forward self message = .ok self' ∧
      self'.MessageQueue.SendBuffer = self.MessageQueue.SendBuffer ++ published ∧
      copy ∈ published ∧
      copy.SocketHandle = mon ∧
      copy.Header.TLMInterfaceID = message.Header.TLMInterfaceID ∧
      copy.Header.MessageType = TLMMessageTypeConst.TLM_TIME_DATA ∧
      copy.Header.DataSize = message.Header.DataSize ∧
      copy.payload = message.payload := by
  have hfree' : (equalRange self.monitorInterfaceMap dest.LinkedID).length
      ≤ self.MessageQueue.FreeSlots.length := by
    rw [hpair]
    exact hfree
  obtain ⟨self', hrun, hsend⟩ := readerThreadRun_forward_active self message src dest destComp
    hkind hsrc hlinked hdest hcomp hactive hfree'
  have hmem : mon ∈ equalRange self.monitorInterfaceMap dest.LinkedID := by
    rw [mem_equalRange, hpair]
    exact hsub
  obtain ⟨slot, hslot⟩ := zipWith_mem_of_mem
    (monitorCopy dest.LinkedID
      { message with
        SocketHandle := destComp.SocketHandle
        Header := { message.Header with TLMInterfaceID := src.LinkedID } })
    _ self.MessageQueue.FreeSlots mon hmem hfree'
  refine ⟨self', _, _, hrun, hsend, List.mem_append_left _ hslot, monitorCopy_socket _ _ _ _,
    ?_, ?_, ?_, ?_⟩
  · rw [monitorCopy_header]
    exact hpair
  · rw [monitorCopy_header]
    exact hkind
  · rw [monitorCopy_header]
  · exact monitorCopy_payload dest.LinkedID
      { message with
        SocketHandle := destComp.SocketHandle
        Header := { message.Header with TLMInterfaceID := src.LinkedID } } mon slot hwf

/-- C2, amended, at a frame from `A.p` with socket 7 subscribed to `A.p`. -/
theorem monitor_of_source_gets_copy_witness :
    ((timeDataFrom 0).Header.MessageType = TLMMessageTypeConst.TLM_TIME_DATA ∧
      monitorOnA.TheModel.GetTLMInterfaceProxy (timeDataFrom 0).Header.TLMInterfaceID = .ok ifcAp ∧
      0 ≤ ifcAp.LinkedID ∧
      monitorOnA.TheModel.GetTLMInterfaceProxy ifcAp.LinkedID = .ok ifcBp ∧
      ifcBp.LinkedID = (timeDataFrom 0).Header.TLMInterfaceID ∧
      monitorOnA.TheModel.GetTLMComponentProxy ifcBp.ComponentID = .ok compB ∧
      monitorOnA.MonitorsDisconnected = false ∧
      ((timeDataFrom 0).Header.TLMInterfaceID, 7) ∈ monitorOnA.monitorInterfaceMap ∧
      (timeDataFrom 0).Header.DataSize ≤ (timeDataFrom 0).Data.length ∧
      (equalRange monitorOnA.monitorInterfaceMap (timeDataFrom 0).Header.TLMInterfaceID).length
        ≤ monitorOnA.MessageQueue.FreeSlots.length) ∧
    ∃ (self' : ManagerCommHandler) (published : List TLMMessage) (copy : TLMMessage),
      ReaderThreadRun_forward monitorOnA (timeDataFrom 0) = .ok self' ∧
      self'.MessageQueue.SendBuffer = monitorOnA.MessageQueue.SendBuffer ++ published ∧
      copy ∈ published ∧
      copy.SocketHandle = 7 ∧
      copy.Header.TLMInterfaceID = (timeDataFrom 0).Header.TLMInterfaceID ∧
      copy.Header.MessageType = TLMMessageTypeConst.TLM_TIME_DATA ∧
      copy.Header.DataSize = (timeDataFrom 0).Header.DataSize ∧
      copy.payload = (timeDataFrom 0).payload :=
  ⟨⟨rfl, rfl, by decide, rfl, rfl, rfl, rfl, by decide, by decide, by decide⟩,
    monitor_of_source_gets_copy monitorOnA (timeDataFrom 0) ifcAp ifcBp compB 7
      rfl rfl (by decide) rfl rfl rfl rfl (by decide) (by decide) (by decide)⟩

/-! ### Tables and lookups -/

theorem tableAt_of_lt {α : Type} (table : List α) (i : Int) (h0 : 0 ≤ i)
    (hlt : i.toNat < table.length) :
    tableAt table i = .ok (table.get ⟨i.toNat, hlt⟩) := by
  unfold tableAt
  have hneg : ¬ i < 0 := by omega
  simp [hneg, List.getElem?_eq_getElem hlt]

theorem tableAt_set_same {α : Type} (table : List α) (i : Int) (x : α) (h0 : 0 ≤ i)
    (hlt : i.toNat < table.length) :
    tableAt (table.set i.toNat x) i = .ok x := by
  unfold tableAt
  have hneg : ¬ i < 0 := by omega
  simp [hneg, List.getElem?_set, hlt]

theorem tableAt_set_other {α : Type} (table : List α) (i j : Int) (x : α) (h0 : 0 ≤ i)
    (hne : j ≠ i) :
    tableAt (table.set i.toNat x) j = tableAt table j := by
  unfold tableAt
  by_cases hj : j < 0
  · simp [hj]
  · have hnat : i.toNat ≠ j.toNat := by omega
    simp [hj, List.getElem?_set, hnat]

theorem tableAt_append_new {α : Type} (table : List α) (x : α) :
    tableAt (table ++ [x]) (table.length : Int) = .ok x := by
  unfold tableAt
  have hneg : ¬ ((table.length : Int) < 0) := by omega
  simp [hneg]

theorem tableAt_append_old {α : Type} (table : List α) (x y : α) (i : Int)
    (h : tableAt table i = .ok y) : tableAt (table ++ [x]) i = .ok y := by
  unfold tableAt at h ⊢
  by_cases hi : i < 0
  · simp [hi] at h
  · simp only [hi, if_false] at h ⊢
    cases hget : table[i.toNat]? with
    | none => simp [hget] at h
    | some z =>
      have hlt : i.toNat < table.length := by
        rcases List.getElem?_eq_some.mp hget with ⟨hlt, _⟩
        exact hlt
      rw [hget] at h
      rw [List.getElem?_append_left hlt, hget]
      exact h

theorem firstIndex_range {α : Type} (p : α → Bool) :
    ∀ xs : List α, firstIndex p xs = -1 ∨
      (0 ≤ firstIndex p xs ∧ (firstIndex p xs).toNat < xs.length)
  | [] => by simp [firstIndex]
  | x :: xs => by
    unfold firstIndex
    by_cases hx : p x = true
    · simp [hx]
    · rcases firstIndex_range p xs with h | ⟨h0, hlt⟩
      · simp [hx, h]
      · have hneg : ¬ firstIndex p xs < 0 := by omega
        simp only [hx, hneg, if_false, List.length_cons]
        right
        constructor <;> omega

theorem firstIndex_spec {α : Type} (p : α → Bool) :
    ∀ (xs : List α) (x : α), 0 ≤ firstIndex p xs →
      tableAt xs (firstIndex p xs) = .ok x → p x = true
  | [], x, h0, _ => by simp [firstIndex] at h0
  | y :: ys, x, h0, hx => by
    unfold firstIndex at h0 hx
    by_cases hy : p y = true
    · simp only [hy, if_true] at hx
      simp [tableAt] at hx
      rw [← hx]
      exact hy
    · by_cases hneg : firstIndex p ys < 0
      · simp [hy, hneg] at h0
      · have hy' : p y = false := by simpa using hy
        simp only [hy', hneg, if_false, Bool.false_eq_true] at hx
        have h0' : 0 ≤ firstIndex p ys := by omega
        apply firstIndex_spec p ys x h0'
        unfold tableAt at hx ⊢
        have hneg' : ¬ firstIndex p ys + 1 < 0 := by omega
        simp only [hneg', hneg, if_false] at hx ⊢
        have hnat : (firstIndex p ys + 1).toNat = (firstIndex p ys).toNat + 1 := by omega
        rw [hnat, List.getElem?_cons_succ] at hx
        exact hx

theorem firstIndex_append_new {α : Type} (p : α → Bool) (y : α) (hy : p y = true) :
    ∀ xs : List α, firstIndex p xs < 0 → firstIndex p (xs ++ [y]) = xs.length
  | [], _ => by simp [firstIndex, hy]
  | x :: xs, h => by
    unfold firstIndex at h
    by_cases hx : p x = true
    · simp [hx] at h
    · by_cases hneg : firstIndex p xs < 0
      · have ih := firstIndex_append_new p y hy xs hneg
        have hnot : ¬ ((xs.length : Int) < 0) := by omega
        have hx' : p x = false := by simpa using hx
        show firstIndex p (x :: (xs ++ [y])) = _
        unfold firstIndex
        simp only [hx', ih, hnot, if_false, Bool.false_eq_true, List.length_cons]
        push_cast
        rfl
      · simp only [hx, hneg, if_false] at h
        have := firstIndex_range p xs
        omega

theorem copyArray_eq {n : Nat} (dst src : Fin n → Double) : copyArray dst src = src := by
  have key : ∀ (l : List (Fin n)) (a : Fin n → Double) (i : Fin n),
      (l.foldl (fun a i => Function.update a i (src i)) a) i = if i ∈ l then src i else a i := by
    intro l
    induction l with
    | nil => intro a i; simp
    | cons j l ih =>
      intro a i
      rw [List.foldl_cons, ih]
      by_cases hil : i ∈ l
      · simp [hil]
      · by_cases hij : i = j
        · subst hij; simp [hil]
        · simp [hil, hij, Function.update_noteq hij]
  funext i
  unfold copyArray
  rw [key]
  simp [List.mem_finRange]

theorem memcpy_resize (P : Platform) (data : List Byte) (param : TLMConnectionParams) :
    memcpy (resize data P.sizeofParams) (P.bytesOf param) P.sizeofParams = P.bytesOf param := by
  have hlen := P.bytesOf_length param
  have hres : (resize data P.sizeofParams).length = P.sizeofParams := by
    unfold resize
    simp only [List.length_append, List.length_take, List.length_replicate]
    omega
  unfold memcpy
  rw [List.drop_of_length_le (by omega), List.append_nil]
  exact List.take_of_length_le (by omega)

theorem set_append_last {α : Type} (y z : α) :
    ∀ xs : List α, (xs ++ [y]).set xs.length z = xs ++ [z]
  | [] => rfl
  | x :: xs => by simp [set_append_last y z xs]

/-- C5. A `REG_COMPONENT` message whose payload is the name of component c
makes `ProcessRegComponentMessage` store the socket handle of the message in
proxy c and nothing else in the model; the reply has header interface id c and
payload length 0; every other component proxy is as before. -/
theorem processRegComponent_binds_socket (self : ManagerCommHandler) (mess : TLMMessage)
    (c : Int)
    (hkind : mess.Header.MessageType = TLMMessageTypeConst.TLM_REG_COMPONENT)
    (hname : self.TheModel.GetTLMComponentID mess.payload = c)
    (hc : 0 ≤ c) :
    ∃ (reply : TLMMessage) (self' : ManagerCommHandler) (comp : TLMComponentProxy),
      ProcessRegComponentMessage self mess = .ok (reply, self') ∧
      self.TheModel.GetTLMComponentProxy c = .ok comp ∧
      comp.Name = mess.payload ∧
      self'.TheModel.GetTLMComponentProxy c
        = .ok { comp with SocketHandle := mess.SocketHandle } ∧
      reply.Header.TLMInterfaceID = c ∧
      reply.Header.DataSize = 0 ∧
      reply.payload = [] ∧
      (∀ j : Int, j ≠ c →
        self'.TheModel.GetTLMComponentProxy j = self.TheModel.GetTLMComponentProxy j) ∧
      self'.TheModel.Interfaces = self.TheModel.Interfaces ∧
      self'.TheModel.Connections = self.TheModel.Connections := by
  subst hname
  have hrange := firstIndex_range (fun comp : TLMComponentProxy => decide (comp.Name = mess.payload))
    self.TheModel.Components
  have hlt : (self.TheModel.GetTLMComponentID mess.payload).toNat
      < self.TheModel.Components.length := by
    unfold CompositeModel.GetTLMComponentID at hc ⊢
    omega
  have hget := tableAt_of_lt self.TheModel.Components _ hc hlt
  have hnamed := firstIndex_spec _ self.TheModel.Components _ hc hget
  have hguard : ¬ (self.TheModel.GetTLMComponentID mess.payload < 0 ∨
      self.TheModel.GetTLMComponentID mess.payload ≥ self.TheModel.GetComponentsNum) := by
    unfold CompositeModel.GetComponentsNum
    omega
  have hrun : ProcessRegComponentMessage self mess = .ok
      ({ mess with
          Header := { mess.Header with
            DataSize := 0
            TLMInterfaceID := self.TheModel.GetTLMComponentID mess.payload } },
       { self with
          TheModel := self.TheModel.setComponent (self.TheModel.GetTLMComponentID mess.payload)
            { self.TheModel.Components.get ⟨_, hlt⟩ with SocketHandle := mess.SocketHandle } }) := by
    unfold ProcessRegComponentMessage
    simp only [hkind, hguard, ne_eq, not_true_eq_false, if_false, bind, Except.bind, pure,
      Except.pure, CompositeModel.GetTLMComponentProxy, hget]
  refine ⟨_, _, self.TheModel.Components.get ⟨_, hlt⟩, hrun, hget, ?_, ?_, rfl, rfl, ?_, ?_,
    rfl, rfl⟩
  · simpa using hnamed
  · exact tableAt_set_same _ _ _ hc hlt
  · simp [TLMMessage.payload]
  · intro j hj
    exact tableAt_set_other _ _ _ _ hc hj

/-- C5 at the registration of component `B` on socket 42. -/
theorem processRegComponent_binds_socket_witness :
    ((received TLMMessageTypeConst.TLM_REG_COMPONENT 42 "B").Header.MessageType
        = TLMMessageTypeConst.TLM_REG_COMPONENT ∧
      startupCoSim.TheModel.GetTLMComponentID
        (received TLMMessageTypeConst.TLM_REG_COMPONENT 42 "B").payload = 1 ∧
      (0 : Int) ≤ 1) ∧
    ∃ (reply : TLMMessage) (self' : ManagerCommHandler) (comp : TLMComponentProxy),
      ProcessRegComponentMessage startupCoSim
        (received TLMMessageTypeConst.TLM_REG_COMPONENT 42 "B") = .ok (reply, self') ∧
      startupCoSim.TheModel.GetTLMComponentProxy 1 = .ok comp ∧
      comp.Name = (received TLMMessageTypeConst.TLM_REG_COMPONENT 42 "B").payload ∧
      self'.TheModel.GetTLMComponentProxy 1
        = .ok { comp with
            SocketHandle := (received TLMMessageTypeConst.TLM_REG_COMPONENT 42 "B").SocketHandle } ∧
      reply.Header.TLMInterfaceID = 1 ∧
      reply.Header.DataSize = 0 ∧
      reply.payload = [] ∧
      (∀ j : Int, j ≠ 1 →
        self'.TheModel.GetTLMComponentProxy j = startupCoSim.TheModel.GetTLMComponentProxy j) ∧
      self'.TheModel.Interfaces = startupCoSim.TheModel.Interfaces ∧
      self'.TheModel.Connections = startupCoSim.TheModel.Connections :=
  ⟨⟨rfl, by decide, by decide⟩,
    processRegComponent_binds_socket startupCoSim
      (received TLMMessageTypeConst.TLM_REG_COMPONENT 42 "B") 1 rfl (by decide) (by decide)⟩

/-- What `ProcessRegInterfaceMessage` has done when it reaches line 314: the
header of the reply carries the id found, the endian flag of the host and
payload length 0. -/
theorem processRegInterface_unfold_cosim (P : Platform) (uninit : TLMConnectionParams)
    (self : ManagerCommHandler) (compID : Int) (mess : TLMMessage)
    (hmode : self.CommMode = CommunicationMode.CoSimulationMode)
    (hkind : mess.Header.MessageType = TLMMessageTypeConst.TLM_REG_INTERFACE) :
    ProcessRegInterfaceMessage P uninit self compID mess =
      if self.TheModel.GetTLMInterfaceID compID (parseInterfaceSpecification mess.payload).aName < 0
      then .ok ({ mess with
        Header := { mess.Header with
          TLMInterfaceID :=
            self.TheModel.GetTLMInterfaceID compID (parseInterfaceSpecification mess.payload).aName
          SourceIsBigEndianSystem := P.IsBigEndianSystem
          DataSize := 0 } }, self)
      else SetupInterfaceConnectionMessage P self
        (self.TheModel.GetTLMInterfaceID compID (parseInterfaceSpecification mess.payload).aName)
        { mess with
          Header := { mess.Header with
            TLMInterfaceID :=
              self.TheModel.GetTLMInterfaceID compID
                (parseInterfaceSpecification mess.payload).aName
            SourceIsBigEndianSystem := P.IsBigEndianSystem
            DataSize := 0 } } := by
  unfold ProcessRegInterfaceMessage
  simp only [hkind, hmode, ne_eq, not_true_eq_false, if_false, bind, Except.bind, pure,
    Except.pure, reduceCtorEq, and_false]

/-- C7. In co-simulation mode a `REG_INTERFACE` message whose name the model
lookup does not find (-1) gets a reply with header interface id -1 and payload
length 0, and the handler state, the model with it, is returned as it was. -/
theorem processRegInterface_unknown_in_cosim (P : Platform) (uninit : TLMConnectionParams)
    (self : ManagerCommHandler) (compID : Int) (mess : TLMMessage)
    (hmode : self.CommMode = CommunicationMode.CoSimulationMode)
    (hkind : mess.Header.MessageType = TLMMessageTypeConst.TLM_REG_INTERFACE)
    (hid : self.TheModel.GetTLMInterfaceID compID
      (parseInterfaceSpecification mess.payload).aName = -1) :
    ∃ reply : TLMMessage,
      ProcessRegInterfaceMessage P uninit self compID mess = .ok (reply, self) ∧
      reply.Header.TLMInterfaceID = -1 ∧
      reply.Header.DataSize = 0 ∧
      reply.payload = [] := by
  rw [processRegInterface_unfold_cosim P uninit self compID mess hmode hkind, hid]
  exact ⟨_, rfl, rfl, rfl, by simp [TLMMessage.payload]⟩

/-- C7 at the registration of `q` by component `B`, which has no such
interface. -/
theorem processRegInterface_unknown_in_cosim_witness :
    (startupCoSim.CommMode = CommunicationMode.CoSimulationMode ∧
      (received TLMMessageTypeConst.TLM_REG_INTERFACE 11 "q").Header.MessageType
        = TLMMessageTypeConst.TLM_REG_INTERFACE ∧
      startupCoSim.TheModel.GetTLMInterfaceID 1
        (parseInterfaceSpecification
          (received TLMMessageTypeConst.TLM_REG_INTERFACE 11 "q").payload).aName = -1) ∧
    ∃ reply : TLMMessage,
      ProcessRegInterfaceMessage examplePlatform exampleParams startupCoSim 1
        (received TLMMessageTypeConst.TLM_REG_INTERFACE 11 "q") = .ok (reply, startupCoSim) ∧
      reply.Header.TLMInterfaceID = -1 ∧
      reply.Header.DataSize = 0 ∧
      reply.payload = [] :=
  ⟨⟨rfl, rfl, by decide⟩,
    processRegInterface_unknown_in_cosim examplePlatform exampleParams startupCoSim 1
      (received TLMMessageTypeConst.TLM_REG_INTERFACE 11 "q") rfl rfl (by decide)⟩

/-- `SetupInterfaceConnectionMessage` for an interface without a connection. -/
theorem setupInterfaceConnection_unpaired (P : Platform) (self : ManagerCommHandler)
    (IfcID : Int) (mess : TLMMessage) (ifc : TLMInterfaceProxy)
    (hifc : self.TheModel.GetTLMInterfaceProxy IfcID = .ok ifc)
    (hconn : ifc.ConnectionID < 0) :
    SetupInterfaceConnectionMessage P self IfcID mess = .ok
      ({ mess with Header := { mess.Header with TLMInterfaceID := -1 } },
       { self with
          TheModel := self.TheModel.setInterface IfcID { ifc with Connected := true } }) := by
  unfold SetupInterfaceConnectionMessage
  simp [hifc, hconn, bind, Except.bind, pure, Except.pure]

/-- `SetupInterfaceConnectionMessage` for an interface with a connection. -/
theorem setupInterfaceConnection_paired (P : Platform) (self : ManagerCommHandler)
    (IfcID : Int) (mess : TLMMessage) (ifc : TLMInterfaceProxy) (conn : TLMConnection)
    (comp : TLMComponentProxy)
    (hifc : self.TheModel.GetTLMInterfaceProxy IfcID = .ok ifc)
    (hconn0 : 0 ≤ ifc.ConnectionID)
    (hconn : self.TheModel.GetTLMConnection ifc.ConnectionID = .ok conn)
    (hcomp : self.TheModel.GetTLMComponentProxy ifc.ComponentID = .ok comp) :
    SetupInterfaceConnectionMessage P self IfcID mess = .ok
      ({ mess with
          Header := { mess.Header with DataSize := P.sizeofParams }
          Data := P.bytesOf
            { conn.Params with
              cX_R_cG_cG := comp.cX_R_cG_cG
              cX_A_cG := comp.cX_A_cG
              Nom_cI_R_cX_cX := ifc.time0Data3D.Position
              Nom_cI_A_cX := ifc.time0Data3D.RotMatrix } },
       { self with
          TheModel :=
            (self.TheModel.setInterface IfcID { ifc with Connected := true }).setConnection
              ifc.ConnectionID
              { conn with
                Params :=
                  { conn.Params with
                    cX_R_cG_cG := comp.cX_R_cG_cG
                    cX_A_cG := comp.cX_A_cG
                    Nom_cI_R_cX_cX := ifc.time0Data3D.Position
                    Nom_cI_A_cX := ifc.time0Data3D.RotMatrix } } }) := by
  have hnot : ¬ ifc.ConnectionID < 0 := by omega
  have hconn' : (self.TheModel.setInterface IfcID { ifc with Connected := true }).GetTLMConnection
      ifc.ConnectionID = .ok conn := hconn
  have hcomp' : (self.TheModel.setInterface IfcID { ifc with Connected := true }).GetTLMComponentProxy
      ifc.ComponentID = .ok comp := hcomp
  unfold SetupInterfaceConnectionMessage
  simp only [hifc, hnot, hconn', hcomp', bind, Except.bind, pure, Except.pure, if_false,
    copyArray_eq, memcpy_resize, TLMComponentProxy.GetInertialTranformation]

/-- C6. In co-simulation mode a `REG_INTERFACE` message whose name the model
lookup finds for the registering component names an interface of that
component, and: when the interface has a connection c, the reply keeps the
id of the interface in the header, has payload length
`sizeof(TLMConnectionParams)` and its payload is the parameter block of
connection c with the inertial transformation of the owning component, the
time-zero position as nominal position and the time-zero rotation matrix as
nominal orientation; when it has none, the reply has payload length 0 and
header interface id -1. -/
theorem processRegInterface_known_in_cosim (P : Platform) (uninit : TLMConnectionParams)
    (self : ManagerCommHandler) (compID : Int) (mess : TLMMessage)
    (hmode : self.CommMode = CommunicationMode.CoSimulationMode)
    (hkind : mess.Header.MessageType = TLMMessageTypeConst.TLM_REG_INTERFACE)
    (hid : 0 ≤ self.TheModel.GetTLMInterfaceID compID
      (parseInterfaceSpecification mess.payload).aName) :
    ∃ ifc : TLMInterfaceProxy,
      self.TheModel.GetTLMInterfaceProxy
        (self.TheModel.GetTLMInterfaceID compID
          (parseInterfaceSpecification mess.payload).aName) = .ok ifc ∧
      ifc.ComponentID = compID ∧
      ifc.Name = (parseInterfaceSpecification mess.payload).aName ∧
      (∀ (conn : TLMConnection) (comp : TLMComponentProxy),
        0 ≤ ifc.ConnectionID →
        self.TheModel.GetTLMConnection ifc.ConnectionID = .ok conn →
        self.TheModel.GetTLMComponentProxy ifc.ComponentID = .ok comp →
        ∃ (reply : TLMMessage) (self' : ManagerCommHandler),
          ProcessRegInterfaceMessage P uninit self compID mess = .ok (reply, self') ∧
          reply.Header.TLMInterfaceID = self.TheModel.GetTLMInterfaceID compID
            (parseInterfaceSpecification mess.payload).aName ∧
          reply.Header.DataSize = P.sizeofParams ∧
          reply.payload = P.bytesOf
            { conn.Params with
              cX_R_cG_cG := comp.cX_R_cG_cG
              cX_A_cG := comp.cX_A_cG
              Nom_cI_R_cX_cX := ifc.time0Data3D.Position
              Nom_cI_A_cX := ifc.time0Data3D.RotMatrix }) ∧
      (ifc.ConnectionID < 0 →
        ∃ (reply : TLMMessage) (self' : ManagerCommHandler),
          ProcessRegInterfaceMessage P uninit self compID mess = .ok (reply, self') ∧
          reply.Header.TLMInterfaceID = -1 ∧
          reply.Header.DataSize = 0 ∧
          reply.payload = []) := by
  have hnot : ¬ self.TheModel.GetTLMInterfaceID compID
      (parseInterfaceSpecification mess.payload).aName < 0 := by omega
  have hrange := firstIndex_range
    (fun ifc : TLMInterfaceProxy => decide (ifc.ComponentID = compID ∧
      ifc.Name = (parseInterfaceSpecification mess.payload).aName)) self.TheModel.Interfaces
  have hlt : (self.TheModel.GetTLMInterfaceID compID
      (parseInterfaceSpecification mess.payload).aName).toNat < self.TheModel.Interfaces.length := by
    unfold CompositeModel.GetTLMInterfaceID at hid ⊢
    omega
  have hget := tableAt_of_lt self.TheModel.Interfaces _ hid hlt
  have hfound := firstIndex_spec _ self.TheModel.Interfaces _ hid hget
  simp only [decide_eq_true_eq] at hfound
  refine ⟨_, hget, hfound.1, hfound.2, ?_, ?_⟩
  · intro conn comp hconn0 hconn hcomp
    rw [processRegInterface_unfold_cosim P uninit self compID mess hmode hkind, if_neg hnot,
      setupInterfaceConnection_paired P self _ _ _ conn comp hget hconn0 hconn hcomp]
    refine ⟨_, _, rfl, rfl, rfl, ?_⟩
    simp only [TLMMessage.payload]
    exact List.take_of_length_le (by rw [P.bytesOf_length])
  · intro hconn
    rw [processRegInterface_unfold_cosim P uninit self compID mess hmode hkind, if_neg hnot,
      setupInterfaceConnection_unpaired P self _ _ _ hget hconn]
    exact ⟨_, _, rfl, rfl, rfl, by simp [TLMMessage.payload]⟩

/-- C6 at the registration of `p` by component `A` in the example model. -/
theorem processRegInterface_known_in_cosim_witness :
    (startupCoSim.CommMode = CommunicationMode.CoSimulationMode ∧
      regInterfaceP.Header.MessageType = TLMMessageTypeConst.TLM_REG_INTERFACE ∧
      0 ≤ startupCoSim.TheModel.GetTLMInterfaceID 0
        (parseInterfaceSpecification regInterfaceP.payload).aName) ∧
    ∃ ifc : TLMInterfaceProxy,
      startupCoSim.TheModel.GetTLMInterfaceProxy
        (startupCoSim.TheModel.GetTLMInterfaceID 0
          (parseInterfaceSpecification regInterfaceP.payload).aName) = .ok ifc ∧
      ifc.ComponentID = 0 ∧
      ifc.Name = (parseInterfaceSpecification regInterfaceP.payload).aName ∧
      (∀ (conn : TLMConnection) (comp : TLMComponentProxy),
        0 ≤ ifc.ConnectionID →
        startupCoSim.TheModel.GetTLMConnection ifc.ConnectionID = .ok conn →
        startupCoSim.TheModel.GetTLMComponentProxy ifc.ComponentID = .ok comp →
        ∃ (reply : TLMMessage) (self' : ManagerCommHandler),
          ProcessRegInterfaceMessage examplePlatform exampleParams startupCoSim 0 regInterfaceP
            = .ok (reply, self') ∧
          reply.Header.TLMInterfaceID = startupCoSim.TheModel.GetTLMInterfaceID 0
            (parseInterfaceSpecification regInterfaceP.payload).aName ∧
          reply.Header.DataSize = examplePlatform.sizeofParams ∧
          reply.payload = examplePlatform.bytesOf
            { conn.Params with
              cX_R_cG_cG := comp.cX_R_cG_cG
              cX_A_cG := comp.cX_A_cG
              Nom_cI_R_cX_cX := ifc.time0Data3D.Position
              Nom_cI_A_cX := ifc.time0Data3D.RotMatrix }) ∧
      (ifc.ConnectionID < 0 →
        ∃ (reply : TLMMessage) (self' : ManagerCommHandler),
          ProcessRegInterfaceMessage examplePlatform exampleParams startupCoSim 0 regInterfaceP
            = .ok (reply, self') ∧
          reply.Header.TLMInterfaceID = -1 ∧
          reply.Header.DataSize = 0 ∧
          reply.payload = []) :=
  ⟨⟨rfl, rfl, by decide⟩,
    processRegInterface_known_in_cosim examplePlatform exampleParams startupCoSim 0 regInterfaceP
      rfl rfl (by decide)⟩

/-- C8. In interface-request mode a `REG_INTERFACE` message whose name the
model lookup does not find for the component adds one interface to the model,
owned by that component, with the parsed name, dimensions, causality and
domain, and marked connected; the reply carries the id of the new interface
(the next free id) in the header and a payload of
`sizeof(TLMConnectionParams)` bytes that are the bytes of a parameter block
with `Delay` 0.1 and `mode` 1. -/
theorem processRegInterface_creates_in_request_mode (P : Platform)
    (uninit : TLMConnectionParams) (self : ManagerCommHandler) (compID : Int)
    (mess : TLMMessage)
    (hmode : self.CommMode = CommunicationMode.InterfaceRequestMode)
    (hkind : mess.Header.MessageType = TLMMessageTypeConst.TLM_REG_INTERFACE)
    (hid : self.TheModel.GetTLMInterfaceID compID
      (parseInterfaceSpecification mess.payload).aName < 0) :
    ∃ (reply : TLMMessage) (self' : ManagerCommHandler),
      ProcessRegInterfaceMessage P uninit self compID mess = .ok (reply, self') ∧
      self'.TheModel.Interfaces = self.TheModel.Interfaces ++
        [{ ComponentID := compID
           Name := (parseInterfaceSpecification mess.payload).aName
           Dimensions := (parseInterfaceSpecification mess.payload).dimensions
           Causality := (parseInterfaceSpecification mess.payload).causality
           Domain := (parseInterfaceSpecification mess.payload).domain
           ConnectionID := -1, LinkedID := -1, Connected := true
           time0Data3D := freshTimeData }] ∧
      self'.TheModel.GetTLMInterfaceID compID (parseInterfaceSpecification mess.payload).aName
        = self.TheModel.Interfaces.length ∧
      reply.Header.TLMInterfaceID = self.TheModel.Interfaces.length ∧
      reply.Header.DataSize = P.sizeofParams ∧
      reply.payload = P.bytesOf { uninit with Delay := Double.tenth, mode := Double.one } ∧
      ({ uninit with Delay := Double.tenth, mode := Double.one } : TLMConnectionParams).Delay
        = Double.tenth ∧
      ({ uninit with Delay := Double.tenth, mode := Double.one } : TLMConnectionParams).mode
        = Double.one := by
  have hnew : ∀ ifc : TLMInterfaceProxy, ifc.ComponentID = compID →
      ifc.Name = (parseInterfaceSpecification mess.payload).aName →
      firstIndex (fun ifc : TLMInterfaceProxy => decide (ifc.ComponentID = compID ∧
        ifc.Name = (parseInterfaceSpecification mess.payload).aName))
        (self.TheModel.Interfaces ++ [ifc]) = self.TheModel.Interfaces.length := by
    intro ifc h1 h2
    exact firstIndex_append_new _ ifc (by simp [h1, h2]) _ hid
  have hnot : ¬ ((self.TheModel.Interfaces.length : Int) < 0) := by omega
  have hrun : ProcessRegInterfaceMessage P uninit self compID mess = .ok
      (SetupInterfaceRequestMessage P uninit
        { mess with
          Header := { mess.Header with
            TLMInterfaceID := self.TheModel.Interfaces.length
            SourceIsBigEndianSystem := P.IsBigEndianSystem
            DataSize := 0 } },
       { self with
          TheModel := { self.TheModel with
            Interfaces := self.TheModel.Interfaces ++
              [{ ComponentID := compID
                 Name := (parseInterfaceSpecification mess.payload).aName
                 Dimensions := (parseInterfaceSpecification mess.payload).dimensions
                 Causality := (parseInterfaceSpecification mess.payload).causality
                 Domain := (parseInterfaceSpecification mess.payload).domain
                 ConnectionID := -1, LinkedID := -1, Connected := true
                 time0Data3D := freshTimeData }] } }) := by
    have hid' : firstIndex (fun ifc : TLMInterfaceProxy => decide (ifc.ComponentID = compID ∧
        ifc.Name = (parseInterfaceSpecification mess.payload).aName))
        self.TheModel.Interfaces < 0 := hid
    unfold ProcessRegInterfaceMessage
    simp only [hkind, hmode, hid', ne_eq, not_true_eq_false, if_false, bind, Except.bind, pure,
      Except.pure, and_self, if_true, CompositeModel.RegisterTLMInterfaceProxy,
      CompositeModel.GetTLMInterfaceID, hnew, hnot, CompositeModel.GetTLMInterfaceProxy,
      tableAt_append_new, CompositeModel.setInterface, Int.toNat_ofNat, set_append_last]
  refine ⟨_, _, hrun, rfl, ?_, rfl, rfl, ?_, rfl, rfl⟩
  · simp only [CompositeModel.GetTLMInterfaceID]
    exact firstIndex_append_new _ _ (by simp) _ hid
  · simp only [SetupInterfaceRequestMessage, TLMMessage.payload, memcpy_resize]
    exact List.take_of_length_le (by rw [P.bytesOf_length])

/-- C8 at the registration of `dynamic:1:input:signal` by component `A`. -/
theorem processRegInterface_creates_in_request_mode_witness :
    (startupRequest.CommMode = CommunicationMode.InterfaceRequestMode ∧
      regInterfaceDynamic.Header.MessageType = TLMMessageTypeConst.TLM_REG_INTERFACE ∧
      startupRequest.TheModel.GetTLMInterfaceID 0
        (parseInterfaceSpecification regInterfaceDynamic.payload).aName < 0) ∧
    ∃ (reply : TLMMessage) (self' : ManagerCommHandler),
      ProcessRegInterfaceMessage examplePlatform exampleParams startupRequest 0
        regInterfaceDynamic = .ok (reply, self') ∧
      self'.TheModel.Interfaces = startupRequest.TheModel.Interfaces ++
        [{ ComponentID := 0
           Name := (parseInterfaceSpecification regInterfaceDynamic.payload).aName
           Dimensions := (parseInterfaceSpecification regInterfaceDynamic.payload).dimensions
           Causality := (parseInterfaceSpecification regInterfaceDynamic.payload).causality
           Domain := (parseInterfaceSpecification regInterfaceDynamic.payload).domain
           ConnectionID := -1, LinkedID := -1, Connected := true
           time0Data3D := freshTimeData }] ∧
      self'.TheModel.GetTLMInterfaceID 0
          (parseInterfaceSpecification regInterfaceDynamic.payload).aName
        = startupRequest.TheModel.Interfaces.length ∧
      reply.Header.TLMInterfaceID = startupRequest.TheModel.Interfaces.length ∧
      reply.Header.DataSize = examplePlatform.sizeofParams ∧
      reply.payload = examplePlatform.bytesOf
        { exampleParams with Delay := Double.tenth, mode := Double.one } ∧
      ({ exampleParams with Delay := Double.tenth, mode := Double.one } : TLMConnectionParams).Delay
        = Double.tenth ∧
      ({ exampleParams with Delay := Double.tenth, mode := Double.one } : TLMConnectionParams).mode
        = Double.one :=
  ⟨⟨rfl, rfl, by decide⟩,
    processRegInterface_creates_in_request_mode examplePlatform exampleParams startupRequest 0
      regInterfaceDynamic rfl rfl (by decide)⟩

/-! ### The parser of `REG_INTERFACE` payloads -/

theorem scan_name (dim cau dom : List Char) :
    ∀ (xs a : List Char), ':' ∉ xs →
      xs.foldl scanStep ⟨a, dim, cau, dom, true, false, false, false⟩
        = ⟨a ++ xs, dim, cau, dom, true, false, false, false⟩
  | [], a, _ => by simp
  | x :: xs, a, h => by
    have hx : x ≠ ':' := fun e => h (by simp [e])
    have hxs : ':' ∉ xs := fun e => h (by simp [e])
    have hstep : scanStep ⟨a, dim, cau, dom, true, false, false, false⟩ x
        = ⟨a ++ [x], dim, cau, dom, true, false, false, false⟩ := by
      simp [scanStep, hx]
    rw [List.foldl_cons, hstep, scan_name dim cau dom xs (a ++ [x]) hxs]
    simp

theorem scan_dimensions (a cau dom : List Char) :
    ∀ (xs dim : List Char), ':' ∉ xs →
      xs.foldl scanStep ⟨a, dim, cau, dom, false, true, false, false⟩
        = ⟨a, dim ++ xs, cau, dom, false, true, false, false⟩
  | [], dim, _ => by simp
  | x :: xs, dim, h => by
    have hx : x ≠ ':' := fun e => h (by simp [e])
    have hxs : ':' ∉ xs := fun e => h (by simp [e])
    have hstep : scanStep ⟨a, dim, cau, dom, false, true, false, false⟩ x
        = ⟨a, dim ++ [x], cau, dom, false, true, false, false⟩ := by
      simp [scanStep, hx]
    rw [List.foldl_cons, hstep, scan_dimensions a cau dom xs (dim ++ [x]) hxs]
    simp

theorem scan_causality (a dim dom : List Char) :
    ∀ (xs cau : List Char), ':' ∉ xs →
      xs.foldl scanStep ⟨a, dim, cau, dom, false, false, true, false⟩
        = ⟨a, dim, cau ++ xs, dom, false, false, true, false⟩
  | [], cau, _ => by simp
  | x :: xs, cau, h => by
    have hx : x ≠ ':' := fun e => h (by simp [e])
    have hxs : ':' ∉ xs := fun e => h (by simp [e])
    have hstep : scanStep ⟨a, dim, cau, dom, false, false, true, false⟩ x
        = ⟨a, dim, cau ++ [x], dom, false, false, true, false⟩ := by
      simp [scanStep, hx]
    rw [List.foldl_cons, hstep, scan_causality a dim dom xs (cau ++ [x]) hxs]
    simp

theorem scan_domain (a dim cau : List Char) :
    ∀ (xs dom : List Char),
      xs.foldl scanStep ⟨a, dim, cau, dom, false, false, false, true⟩
        = ⟨a, dim, cau, dom ++ xs, false, false, false, true⟩
  | [], dom => by simp
  | x :: xs, dom => by
    have hstep : scanStep ⟨a, dim, cau, dom, false, false, false, true⟩ x
        = ⟨a, dim, cau, dom ++ [x], false, false, false, true⟩ := by
      simp [scanStep]
    rw [List.foldl_cons, hstep, scan_domain a dim cau xs (dom ++ [x])]
    simp

/-- The state of the scan after a payload without a colon: the payload is the
name and the three defaults set before the loop are still there. -/
theorem scan_no_colon (n : List Char) (hn : ':' ∉ n) :
    n.foldl scanStep (scanStart n)
      = ⟨n, "6".toList, "bidirectional".toList, "mechanical".toList, true, false, false, false⟩ := by
  have hstart : scanStart n
      = ⟨[], "6".toList, "bidirectional".toList, "mechanical".toList, true, false, false, false⟩ := by
    simp [scanStart, hn]
  rw [hstart, scan_name _ _ _ n [] hn]
  simp

/-- The state of the scan after a payload `n:d:c:m`. -/
theorem scan_four_fields (n d c m : List Char)
    (hn : ':' ∉ n) (hd : ':' ∉ d) (hc : ':' ∉ c) :
    (n ++ ':' :: (d ++ ':' :: (c ++ ':' :: m))).foldl scanStep
        (scanStart (n ++ ':' :: (d ++ ':' :: (c ++ ':' :: m))))
      = ⟨n, d, c, m, false, false, false, true⟩ := by
  have hstart : scanStart (n ++ ':' :: (d ++ ':' :: (c ++ ':' :: m)))
      = ⟨[], [], [], [], true, false, false, false⟩ := by
    simp [scanStart]
  have h1 : scanStep ⟨n, [], [], [], true, false, false, false⟩ ':'
      = ⟨n, [], [], [], false, true, false, false⟩ := by simp [scanStep]
  have h2 : scanStep ⟨n, d, [], [], false, true, false, false⟩ ':'
      = ⟨n, d, [], [], false, false, true, false⟩ := by simp [scanStep]
  have h3 : scanStep ⟨n, d, c, [], false, false, true, false⟩ ':'
      = ⟨n, d, c, [], false, false, false, true⟩ := by simp [scanStep]
  rw [hstart, List.foldl_append, scan_name _ _ _ n [] hn, List.nil_append, List.foldl_cons, h1,
    List.foldl_append, scan_dimensions _ _ _ d [] hd, List.nil_append, List.foldl_cons, h2,
    List.foldl_append, scan_causality _ _ _ c [] hc, List.nil_append, List.foldl_cons, h3,
    scan_domain, List.nil_append]

theorem atoiDigits_eq_foldl :
    ∀ (ds : List Char) (acc : Nat), ds.all isdigit = true →
      atoiDigits (acc : Int) ds
        = ((ds.foldl (fun v c => 10 * v + (c.toNat - '0'.toNat)) acc : Nat) : Int)
  | [], acc, _ => by simp [atoiDigits]
  | c :: cs, acc, h => by
    have hc : isdigit c = true := by
      have := List.all_eq_true.mp h c (by simp)
      exact this
    have hcs : cs.all isdigit = true := by
      apply List.all_eq_true.mpr
      intro x hx
      exact List.all_eq_true.mp h x (by simp [hx])
    have hcast : (acc : Int) * 10 + ((c.toNat - '0'.toNat : Nat) : Int)
        = ((10 * acc + (c.toNat - '0'.toNat) : Nat) : Int) := by
      push_cast
      ring
    unfold atoiDigits
    rw [if_pos hc, hcast, atoiDigits_eq_foldl cs _ hcs, List.foldl_cons]

theorem isspace_of_isdigit (c : Char) (h : isdigit c = true) : isspace c = false := by
  cases hs : isspace c with
  | false => rfl
  | true =>
    exfalso
    simp only [isspace, Bool.or_eq_true, decide_eq_true_eq, Bool.decide_or] at hs
    rcases hs with rfl | rfl | rfl | rfl | rfl | rfl <;> revert h <;> decide

/-- On a text that denotes a decimal integer `strtol` reads that integer. -/
theorem decimalPrefix_eq_decimalValue (d : List Char) (v : Int)
    (h : decimalValue d = some v) : decimalPrefix d = v := by
  cases d with
  | nil => simp [decimalValue] at h
  | cons c cs =>
    simp only [decimalValue] at h
    by_cases hminus : c = '-'
    · subst hminus
      simp only [if_true] at h
      by_cases hds : cs ≠ [] ∧ cs.all isdigit = true
      · rw [if_pos hds] at h
        have hv : v = -((digitsValue cs : Nat) : Int) := by
          injection h with h
          exact h.symm
        have hdrop : ('-' :: cs).dropWhile isspace = '-' :: cs := by
          rw [List.dropWhile_cons_of_neg (by decide)]
        have hdig := atoiDigits_eq_foldl cs 0 hds.2
        unfold decimalPrefix
        rw [hdrop]
        simp only [if_true]
        rw [hv]
        unfold digitsValue
        rw [← hdig]
        rfl
      · rw [if_neg hds] at h
        cases h
    · rw [if_neg hminus] at h
      by_cases hds : (c :: cs).all isdigit = true
      · rw [if_pos hds] at h
        have hv : v = ((digitsValue (c :: cs) : Nat) : Int) := by
          injection h with h
          exact h.symm
        have hc : isdigit c = true := List.all_eq_true.mp hds c (by simp)
        have hplus : c ≠ '+' := by
          intro e
          subst e
          revert hc
          decide
        have hdrop : (c :: cs).dropWhile isspace = c :: cs := by
          rw [List.dropWhile_cons_of_neg (by simp [isspace_of_isdigit c hc])]
        have hdig := atoiDigits_eq_foldl (c :: cs) 0 hds
        unfold decimalPrefix
        rw [hdrop]
        simp only [if_neg hminus, if_neg hplus]
        rw [hv]
        unfold digitsValue
        rw [← hdig]
        rfl
      · rw [if_neg hds] at h
        cases h

/-- The result of `atoi` is a value of `int`. -/
theorem atoi_range (str : List Char) : INT_MIN ≤ atoi str ∧ atoi str ≤ INT_MAX := by
  unfold atoi toInt INT_MIN INT_MAX
  constructor <;> omega

/-- A number within the range of `int` is returned by `atoi` as it is. -/
theorem atoi_of_in_range (str : List Char) (hmin : INT_MIN ≤ decimalPrefix str)
    (hmax : decimalPrefix str ≤ INT_MAX) : atoi str = decimalPrefix str := by
  unfold INT_MIN at hmin
  unfold INT_MAX at hmax
  have hclamp : clampLong (decimalPrefix str) = decimalPrefix str := by
    unfold clampLong
    rw [if_neg (by omega), if_neg (by omega)]
  unfold atoi toInt INT_MIN
  rw [hclamp]
  omega

/-- On a text that denotes a decimal integer within the range of `int`,
`atoi` returns that integer. -/
theorem atoi_eq_decimalValue (d : List Char) (v : Int) (h : decimalValue d = some v)
    (hmin : INT_MIN ≤ v) (hmax : v ≤ INT_MAX) : atoi d = v := by
  have hpre := decimalPrefix_eq_decimalValue d v h
  rw [atoi_of_in_range d (by rw [hpre]; exact hmin) (by rw [hpre]; exact hmax), hpre]

/-- C9 as stated fails: in the payload `p:1::signal` the fields `p`, `1` and
the empty causality contain no colon, and the parser yields causality
`bidirectional`, not the empty field; in `p:1:input:` it yields domain
`mechanical`, not the empty field.  And in `p:99999999999:input:signal` the
dimensions field denotes the decimal integer 99999999999, which no `int` of 32
bits holds: the dimensions that the parser yields are another number
(1215752191, the low 32 bits). -/
theorem parse_empty_field_is_not_kept :
    ':' ∉ "p".toList ∧ ':' ∉ "1".toList ∧ ':' ∉ "".toList ∧ ':' ∉ "input".toList ∧
    (parseInterfaceSpecification
        ("p".toList ++ ':' :: ("1".toList ++ ':' :: ("".toList ++ ':' :: "signal".toList)))).causality
      = "bidirectional".toList ∧
    (parseInterfaceSpecification
        ("p".toList ++ ':' :: ("1".toList ++ ':' :: ("".toList ++ ':' :: "signal".toList)))).causality
      ≠ "".toList ∧
    (parseInterfaceSpecification
        ("p".toList ++ ':' :: ("1".toList ++ ':' :: ("input".toList ++ ':' :: "".toList)))).domain
      ≠ "".toList ∧
    ':' ∉ "99999999999".toList ∧
    decimalValue "99999999999".toList = some 99999999999 ∧
    (parseInterfaceSpecification
        ("p".toList ++ ':' :: ("99999999999".toList ++ ':' ::
          ("input".toList ++ ':' :: "signal".toList)))).dimensions
      ≠ 99999999999 ∧
    (parseInterfaceSpecification
        ("p".toList ++ ':' :: ("99999999999".toList ++ ':' ::
          ("input".toList ++ ':' :: "signal".toList)))).dimensions
      = 1215752191 := by
  decide

/-- C9, amended. For a payload `n:d:c:m` in which n, d and c contain no colon,
c and m are not empty and d is the text `3D` or denotes a decimal integer
within the range of `int` (from -2147483648 to 2147483647), the parser yields
name n, causality c, domain m, and dimensions 6 for `3D` and otherwise the
decimal integer that d denotes. -/
theorem parse_four_fields (n d c m : List Char) (v : Int)
    (hn : ':' ∉ n) (hd : ':' ∉ d) (hc : ':' ∉ c)
    (hc0 : c ≠ []) (hm0 : m ≠ [])
    (hv : (d = "3D".toList ∧ v = 6) ∨
      (decimalValue d = some v ∧ INT_MIN ≤ v ∧ v ≤ INT_MAX)) :
    parseInterfaceSpecification (n ++ ':' :: (d ++ ':' :: (c ++ ':' :: m)))
      = { aName := n, dimensions := v, causality := c, domain := m } := by
  have hdim : (if d = "3D".toList then (6 : Int) else atoi d) = v := by
    rcases hv with ⟨h3, h6⟩ | ⟨hval, hmin, hmax⟩
    · rw [if_pos h3, h6]
    · have hnone : decimalValue "3D".toList = none := by decide
      have h3 : d ≠ "3D".toList := by
        intro e
        rw [e, hnone] at hval
        cases hval
      rw [if_neg h3]
      exact atoi_eq_decimalValue d v hval hmin hmax
  unfold parseInterfaceSpecification
  simp only [scan_four_fields n d c m hn hd hc, hdim, if_neg hc0, if_neg hm0]

/-- C9, amended, at the payload `dynamic:1:input:signal` of the spec. -/
theorem parse_four_fields_witness :
    (':' ∉ "dynamic".toList ∧ ':' ∉ "1".toList ∧ ':' ∉ "input".toList ∧
      "input".toList ≠ [] ∧ "signal".toList ≠ [] ∧
      (("1".toList = "3D".toList ∧ (1 : Int) = 6) ∨
        (decimalValue "1".toList = some 1 ∧ INT_MIN ≤ 1 ∧ (1 : Int) ≤ INT_MAX))) ∧
    parseInterfaceSpecification
        ("dynamic".toList ++ ':' :: ("1".toList ++ ':' :: ("input".toList ++ ':' :: "signal".toList)))
      = { aName := "dynamic".toList, dimensions := 1, causality := "input".toList,
          domain := "signal".toList } :=
  ⟨⟨by decide, by decide, by decide, by decide, by decide, by decide⟩,
    parse_four_fields "dynamic".toList "1".toList "input".toList "signal".toList 1
      (by decide) (by decide) (by decide) (by decide) (by decide) (by decide)⟩

/-- Causality and domain get their defaults whenever the scan leaves them
empty, and the dimensions of a payload without a colon are 6. -/
theorem parse_defaults (aSpecification : List Char) :
    ((aSpecification.foldl scanStep (scanStart aSpecification)).causality = [] →
      (parseInterfaceSpecification aSpecification).causality = "bidirectional".toList) ∧
    ((aSpecification.foldl scanStep (scanStart aSpecification)).domain = [] →
      (parseInterfaceSpecification aSpecification).domain = "mechanical".toList) ∧
    (':' ∉ aSpecification → (parseInterfaceSpecification aSpecification).dimensions = 6) := by
  refine ⟨?_, ?_, ?_⟩
  · intro h
    simp [parseInterfaceSpecification, h]
  · intro h
    simp [parseInterfaceSpecification, h]
  · intro h
    simp only [parseInterfaceSpecification, scan_no_colon aSpecification h]
    decide

/-- C10 fails on the code for the dimensions: in the payload `p::input:signal`
the dimensions field is empty and is parsed as 0, not as the default 6; so it
is in `p:`, where the payload ends after the first colon (causality and domain
do get their defaults there). -/
theorem parse_empty_dimensions_is_zero :
    parseInterfaceSpecification "p::input:signal".toList
      = { aName := "p".toList, dimensions := 0, causality := "input".toList,
          domain := "signal".toList } ∧
    parseInterfaceSpecification "p:".toList
      = { aName := "p".toList, dimensions := 0, causality := "bidirectional".toList,
          domain := "mechanical".toList } := by
  decide

/-! ### Second part: payload forms, parameters, errors -/

/-- C11. A `REG_INTERFACE` payload without a colon is parsed as the name, with
dimensions 6, causality `bidirectional` and domain `mechanical`. -/
theorem parse_without_colon (n : List Char) (hn : ':' ∉ n) :
    parseInterfaceSpecification n
      = { aName := n, dimensions := 6, causality := "bidirectional".toList,
          domain := "mechanical".toList } := by
  have hdim : (if "6".toList = "3D".toList then (6 : Int) else atoi "6".toList) = 6 := by decide
  have hcau : "bidirectional".toList ≠ [] := by decide
  have hdom : "mechanical".toList ≠ [] := by decide
  unfold parseInterfaceSpecification
  simp only [scan_no_colon n hn, hdim, if_neg hcau, if_neg hdom]

/-- C11 at the payload `flange`. -/
theorem parse_without_colon_witness :
    ':' ∉ "flange".toList ∧
    parseInterfaceSpecification "flange".toList
      = { aName := "flange".toList, dimensions := 6, causality := "bidirectional".toList,
          domain := "mechanical".toList } :=
  ⟨by decide, parse_without_colon "flange".toList (by decide)⟩

theorem scan_value (a : List Char) :
    ∀ (xs v : List Char),
      xs.foldl nameValueStep ⟨a, v, false⟩ = ⟨a, v ++ xs, false⟩
  | [], v => by simp
  | x :: xs, v => by
    have hstep : nameValueStep ⟨a, v, false⟩ x = ⟨a, v ++ [x], false⟩ := by
      simp [nameValueStep]
    rw [List.foldl_cons, hstep, scan_value a xs (v ++ [x])]
    simp

/-- The state of the scan of a `REG_PARAMETER` payload, from any state that is
still reading the name. -/
theorem scan_name_value :
    ∀ (xs a v : List Char),
      xs.foldl nameValueStep ⟨a, v, true⟩
        = if ':' ∈ xs then
            ⟨a ++ xs.takeWhile (fun c => c ≠ ':'),
              v ++ (xs.dropWhile (fun c => c ≠ ':')).drop 1, false⟩
          else ⟨a ++ xs, v, true⟩
  | [], a, v => by simp
  | x :: xs, a, v => by
    by_cases hx : x = ':'
    · subst hx
      have hstep : nameValueStep ⟨a, v, true⟩ ':' = ⟨a, v, false⟩ := by
        simp [nameValueStep]
      rw [List.foldl_cons, hstep, scan_value]
      simp
    · have hstep : nameValueStep ⟨a, v, true⟩ x = ⟨a ++ [x], v, true⟩ := by
        simp [nameValueStep, hx]
      have hx' : ¬ ':' = x := fun e => hx e.symm
      rw [List.foldl_cons, hstep, scan_name_value xs (a ++ [x]) v]
      by_cases hmem : ':' ∈ xs
      · simp [hmem, hx, List.takeWhile_cons, List.dropWhile_cons]
      · simp [hmem, hx, hx']

/-- C12. For a `REG_PARAMETER` payload s with a colon the parser yields as
name the part of s before its first colon and as value all that follows that
colon, so that name, colon and value make up s and the name has no colon; for
a payload without a colon the name is s and the value is empty. -/
theorem parseNameAndValue_splits (s : List Char) :
    (':' ∈ s →
      (parseNameAndValue s).1 = s.takeWhile (fun c => c ≠ ':') ∧
      (parseNameAndValue s).2 = (s.dropWhile (fun c => c ≠ ':')).drop 1 ∧
      (parseNameAndValue s).1 ++ ':' :: (parseNameAndValue s).2 = s ∧
      ':' ∉ (parseNameAndValue s).1) ∧
    (':' ∉ s → parseNameAndValue s = (s, [])) := by
  have hscan := scan_name_value s [] []
  constructor
  · intro hmem
    have hdrop : ∀ xs : List Char, ':' ∈ xs →
        ':' :: (xs.dropWhile (fun c => c ≠ ':')).drop 1 = xs.dropWhile (fun c => c ≠ ':') := by
      intro xs
      induction xs with
      | nil => intro h; simp at h
      | cons x xs ih =>
        intro h
        by_cases hx : x = ':'
        · subst hx; simp
        · have hxs : ':' ∈ xs := by
            rcases List.mem_cons.mp h with e | h'
            · exact absurd e.symm hx
            · exact h'
          simpa [List.dropWhile_cons, hx] using ih hxs
    have hno : ':' ∉ s.takeWhile (fun c => c ≠ ':') := by
      intro h
      have := List.mem_takeWhile_imp h
      simp at this
    have h1 : (parseNameAndValue s).1 = s.takeWhile (fun c => c ≠ ':') := by
      unfold parseNameAndValue
      rw [hscan, if_pos hmem]
      simp
    have h2 : (parseNameAndValue s).2 = (s.dropWhile (fun c => c ≠ ':')).drop 1 := by
      unfold parseNameAndValue
      rw [hscan, if_pos hmem]
      simp
    refine ⟨h1, h2, ?_, ?_⟩
    · rw [h1, h2, hdrop s hmem, List.takeWhile_append_dropWhile]
    · rw [h1]
      exact hno
  · intro hmem
    unfold parseNameAndValue
    rw [hscan, if_neg hmem]
    simp

/-- C12 at the payload `k:1:2`. -/
theorem parseNameAndValue_splits_witness :
    parseNameAndValue "k:1:2".toList = ("k".toList, "1:2".toList) ∧
    parseNameAndValue "k".toList = ("k".toList, []) := by
  have h1 := (parseNameAndValue_splits "k:1:2".toList).1 (by decide)
  have h2 := (parseNameAndValue_splits "k".toList).2 (by decide)
  refine ⟨?_, h2⟩
  apply Prod.ext
  · rw [h1.1]; decide
  · rw [h1.2.1]; decide

/-- C15 as stated fails: the registration of a component `C` that the model
does not have ends in a fatal error, there is no reply with id -1. -/
theorem processRegComponent_unknown_is_fatal_at_example :
    (received TLMMessageTypeConst.TLM_REG_COMPONENT 42 "C").Header.MessageType
      = TLMMessageTypeConst.TLM_REG_COMPONENT ∧
    startupCoSim.TheModel.GetTLMComponentID
      (received TLMMessageTypeConst.TLM_REG_COMPONENT 42 "C").payload = -1 ∧
    ProcessRegComponentMessage startupCoSim
      (received TLMMessageTypeConst.TLM_REG_COMPONENT 42 "C")
      = .error (Fault.fatal "Component registration failed!") := by
  exact ⟨rfl, by decide, rfl⟩

/-- C15, amended. A `REG_COMPONENT` message whose payload names no component
of the model makes `ProcessRegComponentMessage` call `FatalError`
("Component registration for ... failed!") before it writes anything: there is
no reply and no component proxy is changed. -/
theorem processRegComponent_unknown_is_fatal (self : ManagerCommHandler) (mess : TLMMessage)
    (hkind : mess.Header.MessageType = TLMMessageTypeConst.TLM_REG_COMPONENT)
    (hname : self.TheModel.GetTLMComponentID mess.payload < 0) :
    ProcessRegComponentMessage self mess
      = .error (Fault.fatal "Component registration failed!") := by
  unfold ProcessRegComponentMessage
  simp [hkind, hname, bind, Except.bind, throw, throwThe, MonadExceptOf.throw, pure, Except.pure]

/-- C15, amended, at the registration of the unknown component `C`. -/
theorem processRegComponent_unknown_is_fatal_witness :
    ((received TLMMessageTypeConst.TLM_REG_COMPONENT 42 "C").Header.MessageType
        = TLMMessageTypeConst.TLM_REG_COMPONENT ∧
      startupCoSim.TheModel.GetTLMComponentID
        (received TLMMessageTypeConst.TLM_REG_COMPONENT 42 "C").payload < 0) ∧
    ProcessRegComponentMessage startupCoSim
      (received TLMMessageTypeConst.TLM_REG_COMPONENT 42 "C")
      = .error (Fault.fatal "Component registration failed!") :=
  ⟨⟨rfl, by decide⟩,
    processRegComponent_unknown_is_fatal startupCoSim
      (received TLMMessageTypeConst.TLM_REG_COMPONENT 42 "C") rfl (by decide)⟩

theorem sprintf_99s_length (ValueBuf : List Byte) (str : List Char)
    (hbuf : ValueBuf.length = sizeofValueBuf) :
    (sprintf_99s ValueBuf str).length = sizeofValueBuf := by
  unfold sprintf_99s sizeofValueBuf at *
  simp only [List.length_append, List.length_take, List.length_drop, List.length_cons,
    List.length_nil, hbuf]
  omega

theorem sprintf_99s_take (ValueBuf : List Byte) (str : List Char) :
    (sprintf_99s ValueBuf str).take (min str.length 99 + 1) = str.take 99 ++ [NUL] := by
  unfold sprintf_99s
  have hlen : (str.take 99 ++ [NUL]).length = min str.length 99 + 1 := by
    simp only [List.length_append, List.length_take, List.length_cons, List.length_nil]
    omega
  rw [← hlen]
  exact List.take_left' rfl

theorem c_str_of_no_NUL (str : List Char) (h : NUL ∉ str) : c_str str = str := by
  unfold c_str
  apply List.takeWhile_eq_self_iff.mpr
  intro c hc
  have : c ≠ NUL := fun e => h (e ▸ hc)
  simpa using this

theorem length_resize (data : List Byte) (n : Nat) : (resize data n).length = n := by
  unfold resize
  simp only [List.length_append, List.length_take, List.length_replicate]
  omega

theorem memcpy_valueBuf (P : Platform) (data buf : List Byte)
    (hbuf : buf.length = sizeofValueBuf) :
    (memcpy (resize data P.sizeofParams) buf sizeofValueBuf).take sizeofValueBuf = buf := by
  unfold memcpy
  rw [List.take_of_length_le (le_of_eq hbuf), ← hbuf]
  exact List.take_left' rfl

/-- The reply of `ProcessRegParameterMessage` for a parameter that the model
lookup finds. -/
theorem processRegParameter_found (P : Platform) (ValueBuf : List Byte)
    (self : ManagerCommHandler) (compID : Int) (mess : TLMMessage)
    (par : ComponentParameterProxy)
    (hkind : mess.Header.MessageType = TLMMessageTypeConst.TLM_REG_PARAMETER)
    (hsize : sizeofValueBuf ≤ P.sizeofParams)
    (hid : 0 ≤ self.TheModel.GetComponentParameterID compID (parseNameAndValue mess.payload).1)
    (hpar : self.TheModel.GetComponentParameterProxy
      (self.TheModel.GetComponentParameterID compID (parseNameAndValue mess.payload).1)
      = .ok par) :
    ProcessRegParameterMessage P ValueBuf self compID mess = .ok
      ({ mess with
          Header := { mess.Header with
            SourceIsBigEndianSystem := P.IsBigEndianSystem
            ComponentParameterID :=
              self.TheModel.GetComponentParameterID compID (parseNameAndValue mess.payload).1
            DataSize := sizeofValueBuf }
          Data := memcpy (resize mess.Data P.sizeofParams)
            (sprintf_99s ValueBuf (c_str par.Value)) sizeofValueBuf }, self) := by
  have hnot : ¬ self.TheModel.GetComponentParameterID compID
      (parseNameAndValue mess.payload).1 < 0 := by omega
  have hfits : ¬ (resize mess.Data P.sizeofParams).length < sizeofValueBuf := by
    rw [length_resize]
    omega
  unfold ProcessRegParameterMessage
  simp only [hkind, ne_eq, not_true_eq_false, if_false, bind, Except.bind, pure, Except.pure,
    hnot, false_and, hpar, hfits]

/-- The reply of `ProcessRegParameterMessage` for a parameter that is created
in interface-request mode. -/
theorem processRegParameter_created (P : Platform) (ValueBuf : List Byte)
    (self : ManagerCommHandler) (compID : Int) (mess : TLMMessage)
    (hkind : mess.Header.MessageType = TLMMessageTypeConst.TLM_REG_PARAMETER)
    (hsize : sizeofValueBuf ≤ P.sizeofParams)
    (hmode : self.CommMode = CommunicationMode.InterfaceRequestMode)
    (hid : self.TheModel.GetComponentParameterID compID (parseNameAndValue mess.payload).1 < 0) :
    ProcessRegParameterMessage P ValueBuf self compID mess = .ok
      ({ mess with
          Header := { mess.Header with
            SourceIsBigEndianSystem := P.IsBigEndianSystem
            ComponentParameterID := self.TheModel.Parameters.length
            DataSize := sizeofValueBuf }
          Data := memcpy (resize mess.Data P.sizeofParams)
            (sprintf_99s ValueBuf (c_str (parseNameAndValue mess.payload).2)) sizeofValueBuf },
       { self with
          TheModel := self.TheModel.RegisterComponentParameterProxy compID
            (parseNameAndValue mess.payload).1 (parseNameAndValue mess.payload).2 }) := by
  have hid' : firstIndex (fun par : ComponentParameterProxy => decide (par.ComponentID = compID ∧
      par.Name = (parseNameAndValue mess.payload).1)) self.TheModel.Parameters < 0 := hid
  have hnew : firstIndex (fun par : ComponentParameterProxy => decide (par.ComponentID = compID ∧
      par.Name = (parseNameAndValue mess.payload).1))
      (self.TheModel.Parameters ++
        [{ ComponentID := compID, Name := (parseNameAndValue mess.payload).1,
           Value := (parseNameAndValue mess.payload).2 }])
      = self.TheModel.Parameters.length :=
    firstIndex_append_new _ _ (by simp) _ hid
  have hnot : ¬ ((self.TheModel.Parameters.length : Int) < 0) := by omega
  have hfits : ¬ (resize mess.Data P.sizeofParams).length < sizeofValueBuf := by
    rw [length_resize]
    omega
  unfold ProcessRegParameterMessage
  simp only [hkind, hmode, ne_eq, not_true_eq_false, if_false, bind, Except.bind, pure,
    Except.pure, CompositeModel.GetComponentParameterID, hid', and_self, if_true,
    CompositeModel.RegisterComponentParameterProxy, hnew, hnot,
    CompositeModel.GetComponentParameterProxy, tableAt_append_new, hfits]

/-- C13 as stated fails for a stored value with a zero byte: in
interface-request mode the payload `z:a\0b` creates the parameter `z` with the
three-byte value `a\0b`; the reply has `a` and a zero byte and then what the
value buffer held before, not the third byte of the value. -/
theorem processRegParameter_value_with_zero_byte :
    ∃ (reply : TLMMessage) (self' : ManagerCommHandler),
      ProcessRegParameterMessage examplePlatform staleValueBuf startupRequest 0
        (regParameter "z:a\x00b") = .ok (reply, self') ∧
      self'.TheModel.GetComponentParameterProxy reply.Header.ComponentParameterID
        = .ok { ComponentID := 0, Name := "z".toList, Value := "a\x00b".toList } ∧
      reply.payload.take (min "a\x00b".toList.length 99 + 1) = ['a', NUL, 'U', 'U'] ∧
      reply.payload.take (min "a\x00b".toList.length 99 + 1)
        ≠ "a\x00b".toList.take 99 ++ [NUL] := by
  have hrun := processRegParameter_created examplePlatform staleValueBuf startupRequest 0
    (regParameter "z:a\x00b") rfl (by decide) rfl (by decide)
  have hval : (parseNameAndValue (regParameter "z:a\x00b").payload).2 = "a\x00b".toList := by
    decide
  have hstr : c_str "a\x00b".toList = ['a'] := by decide
  rw [hval, hstr] at hrun
  have hpay := memcpy_valueBuf examplePlatform (regParameter "z:a\x00b").Data
    (sprintf_99s staleValueBuf ['a']) (sprintf_99s_length _ _ (by decide))
  refine ⟨_, _, hrun, rfl, ?_, ?_⟩
  · simp only [TLMMessage.payload, hpay]
    decide
  · simp only [TLMMessage.payload, hpay]
    decide

/-- C13, amended. For a `REG_PARAMETER` message naming a parameter that the
model lookup finds, or that is created in interface-request mode, with id p,
the reply has header `ComponentParameterID` p and payload length 100, and the
payload begins with the first min(length, 99) bytes of the stored value read
as a C string (the bytes before its first zero byte), followed by a zero byte;
for a value without a zero byte these are the first min(length, 99) bytes of
the value.  Stated for a platform on which `sizeof(TLMConnectionParams)` is at
least 100, as the copy of 100 bytes needs. -/
theorem processRegParameter_reply (P : Platform) (ValueBuf : List Byte)
    (self : ManagerCommHandler) (compID : Int) (mess : TLMMessage)
    (hkind : mess.Header.MessageType = TLMMessageTypeConst.TLM_REG_PARAMETER)
    (hbuf : ValueBuf.length = sizeofValueBuf)
    (hsize : sizeofValueBuf ≤ P.sizeofParams)
    (hfound : 0 ≤ self.TheModel.GetComponentParameterID compID
        (parseNameAndValue mess.payload).1 ∨
      self.CommMode = CommunicationMode.InterfaceRequestMode) :
    ∃ (reply : TLMMessage) (self' : ManagerCommHandler) (par : ComponentParameterProxy),
      ProcessRegParameterMessage P ValueBuf self compID mess = .ok (reply, self') ∧
      self'.TheModel.GetComponentParameterProxy reply.Header.ComponentParameterID = .ok par ∧
      (0 ≤ self.TheModel.GetComponentParameterID compID (parseNameAndValue mess.payload).1 →
        reply.Header.ComponentParameterID
          = self.TheModel.GetComponentParameterID compID (parseNameAndValue mess.payload).1 ∧
        self'.TheModel.Parameters = self.TheModel.Parameters) ∧
      (self.TheModel.GetComponentParameterID compID (parseNameAndValue mess.payload).1 < 0 →
        reply.Header.ComponentParameterID = self.TheModel.Parameters.length ∧
        par = { ComponentID := compID, Name := (parseNameAndValue mess.payload).1,
                Value := (parseNameAndValue mess.payload).2 } ∧
        self'.TheModel.Parameters = self.TheModel.Parameters ++ [par]) ∧
      reply.Header.DataSize = 100 ∧
      reply.payload.length = 100 ∧
      reply.payload.take (min (c_str par.Value).length 99 + 1)
        = (c_str par.Value).take 99 ++ [NUL] ∧
      (NUL ∉ par.Value →
        reply.payload.take (min par.Value.length 99 + 1) = par.Value.take 99 ++ [NUL]) := by
  have hpayload : ∀ (data : List Byte) (v : List Char),
      (memcpy (resize data P.sizeofParams) (sprintf_99s ValueBuf (c_str v))
        sizeofValueBuf).take sizeofValueBuf = sprintf_99s ValueBuf (c_str v) :=
    fun data v => memcpy_valueBuf P data _ (sprintf_99s_length ValueBuf _ hbuf)
  have key : ∀ (R v x : List Char), x = c_str v →
      R.take (min (c_str v).length 99 + 1) = (c_str v).take 99 ++ [NUL] →
      R.take (min x.length 99 + 1) = x.take 99 ++ [NUL] := by
    intro R v x hx h
    rw [hx]
    exact h
  by_cases hid : self.TheModel.GetComponentParameterID compID
      (parseNameAndValue mess.payload).1 < 0
  · have hmode : self.CommMode = CommunicationMode.InterfaceRequestMode := by
      rcases hfound with h | h
      · omega
      · exact h
    refine ⟨_, _, ⟨compID, (parseNameAndValue mess.payload).1, (parseNameAndValue mess.payload).2⟩,
      processRegParameter_created P ValueBuf self compID mess hkind hsize hmode hid,
      tableAt_append_new _ _, ?_, ?_, rfl, ?_, ?_, ?_⟩
    · intro h
      omega
    · intro _
      exact ⟨rfl, rfl, rfl⟩
    · exact (congrArg List.length (hpayload _ _)).trans (sprintf_99s_length ValueBuf _ hbuf)
    · exact (congrArg (List.take _) (hpayload _ _)).trans (sprintf_99s_take ValueBuf _)
    · intro hnul
      exact key _ _ _ (c_str_of_no_NUL _ hnul).symm
        ((congrArg (List.take _) (hpayload _ _)).trans (sprintf_99s_take ValueBuf _))
  · have hid0 : 0 ≤ self.TheModel.GetComponentParameterID compID
        (parseNameAndValue mess.payload).1 := by omega
    have hrange := firstIndex_range
      (fun par : ComponentParameterProxy => decide (par.ComponentID = compID ∧
        par.Name = (parseNameAndValue mess.payload).1)) self.TheModel.Parameters
    have hlt : (self.TheModel.GetComponentParameterID compID
        (parseNameAndValue mess.payload).1).toNat < self.TheModel.Parameters.length := by
      unfold CompositeModel.GetComponentParameterID at hid0 ⊢
      omega
    have hget := tableAt_of_lt self.TheModel.Parameters _ hid0 hlt
    refine ⟨_, _, self.TheModel.Parameters.get ⟨_, hlt⟩,
      processRegParameter_found P ValueBuf self compID mess _ hkind hsize hid0 hget,
      hget, ?_, ?_, rfl, ?_, ?_, ?_⟩
    · intro _
      exact ⟨rfl, rfl⟩
    · intro h
      omega
    · exact (congrArg List.length (hpayload _ _)).trans (sprintf_99s_length ValueBuf _ hbuf)
    · exact (congrArg (List.take _) (hpayload _ _)).trans (sprintf_99s_take ValueBuf _)
    · intro hnul
      exact key _ _ _ (c_str_of_no_NUL _ hnul).symm
        ((congrArg (List.take _) (hpayload _ _)).trans (sprintf_99s_take ValueBuf _))

/-- C13, amended, at the registration of the parameter `k` of component `A`,
whose stored value is `3.5`. -/
theorem processRegParameter_reply_witness :
    ((regParameter "k:0").Header.MessageType = TLMMessageTypeConst.TLM_REG_PARAMETER ∧
      staleValueBuf.length = sizeofValueBuf ∧
      sizeofValueBuf ≤ examplePlatform.sizeofParams ∧
      (0 ≤ startupWithParameter.TheModel.GetComponentParameterID 0
          (parseNameAndValue (regParameter "k:0").payload).1 ∨
        startupWithParameter.CommMode = CommunicationMode.InterfaceRequestMode)) ∧
    ∃ (reply : TLMMessage) (self' : ManagerCommHandler) (par : ComponentParameterProxy),
      ProcessRegParameterMessage examplePlatform staleValueBuf startupWithParameter 0
        (regParameter "k:0") = .ok (reply, self') ∧
      self'.TheModel.GetComponentParameterProxy reply.Header.ComponentParameterID = .ok par ∧
      (0 ≤ startupWithParameter.TheModel.GetComponentParameterID 0
          (parseNameAndValue (regParameter "k:0").payload).1 →
        reply.Header.ComponentParameterID
          = startupWithParameter.TheModel.GetComponentParameterID 0
              (parseNameAndValue (regParameter "k:0").payload).1 ∧
        self'.TheModel.Parameters = startupWithParameter.TheModel.Parameters) ∧
      (startupWithParameter.TheModel.GetComponentParameterID 0
          (parseNameAndValue (regParameter "k:0").payload).1 < 0 →
        reply.Header.ComponentParameterID = startupWithParameter.TheModel.Parameters.length ∧
        par = { ComponentID := 0, Name := (parseNameAndValue (regParameter "k:0").payload).1,
                Value := (parseNameAndValue (regParameter "k:0").payload).2 } ∧
        self'.TheModel.Parameters = startupWithParameter.TheModel.Parameters ++ [par]) ∧
      reply.Header.DataSize = 100 ∧
      reply.payload.length = 100 ∧
      reply.payload.take (min (c_str par.Value).length 99 + 1)
        = (c_str par.Value).take 99 ++ [NUL] ∧
      (NUL ∉ par.Value →
        reply.payload.take (min par.Value.length 99 + 1) = par.Value.take 99 ++ [NUL]) :=
  ⟨⟨rfl, by decide, by decide, Or.inl (by decide)⟩,
    processRegParameter_reply examplePlatform staleValueBuf startupWithParameter 0
      (regParameter "k:0") rfl (by decide) (by decide) (Or.inl (by decide))⟩

/-- In co-simulation mode the reply to a `REG_PARAMETER` message whose name the
lookup does not find is the message with the endian flag of the host and
payload length 0; the parameter id of the header is not written and the
handler state is returned as it was. -/
theorem processRegParameter_unknown_in_cosim (P : Platform) (ValueBuf : List Byte)
    (self : ManagerCommHandler) (compID : Int) (mess : TLMMessage)
    (hkind : mess.Header.MessageType = TLMMessageTypeConst.TLM_REG_PARAMETER)
    (hmode : self.CommMode = CommunicationMode.CoSimulationMode)
    (hid : self.TheModel.GetComponentParameterID compID (parseNameAndValue mess.payload).1 < 0) :
    ProcessRegParameterMessage P ValueBuf self compID mess = .ok
      ({ mess with
          Header := { mess.Header with
            SourceIsBigEndianSystem := P.IsBigEndianSystem
            DataSize := 0 } }, self) := by
  unfold ProcessRegParameterMessage
  simp only [hkind, hmode, ne_eq, not_true_eq_false, if_false, bind, Except.bind, pure,
    Except.pure, reduceCtorEq, and_false, hid, if_true]

/-- C14 fails on the code for the parameter id: in co-simulation mode the
registration of the unknown parameter `nosuch` by component `A`, sent with
parameter id 5 in the header, is answered without a fatal error, with payload
length 0 and with the model unchanged, but the reply carries parameter id 5,
not -1. -/
theorem processRegParameter_unknown_keeps_received_id :
    startupWithParameter.CommMode = CommunicationMode.CoSimulationMode ∧
    (regParameter "nosuch:1").Header.MessageType = TLMMessageTypeConst.TLM_REG_PARAMETER ∧
    (regParameter "nosuch:1").Header.ComponentParameterID = 5 ∧
    startupWithParameter.TheModel.GetComponentParameterID 0
      (parseNameAndValue (regParameter "nosuch:1").payload).1 = -1 ∧
    ∃ reply : TLMMessage,
      ProcessRegParameterMessage examplePlatform staleValueBuf startupWithParameter 0
        (regParameter "nosuch:1") = .ok (reply, startupWithParameter) ∧
      reply.Header.DataSize = 0 ∧
      reply.Header.ComponentParameterID = 5 ∧
      reply.Header.ComponentParameterID ≠ -1 :=
  ⟨rfl, rfl, rfl, by decide, _,
    processRegParameter_unknown_in_cosim examplePlatform staleValueBuf startupWithParameter 0
      (regParameter "nosuch:1") rfl rfl (by decide),
    rfl, rfl, by decide⟩

/-! ### Third part: errors of the threads, time data, the reader after startup -/

theorem handleThreadException_fold (msgs : List (List Char)) :
    ∀ self : ManagerCommHandler,
      (msgs.foldl HandleThreadException self).exceptionMsg
        = self.exceptionMsg ++ msgs.foldr (fun msg rest => msg ++ "\n".toList ++ rest) [] := by
  induction msgs with
  | nil => intro self; simp
  | cons msg msgs ih =>
    intro self
    rw [List.foldl_cons, ih]
    simp [HandleThreadException]

/-- C20. `Run` ends with an error exactly when the error buffer is not empty
after the threads are joined, and the error is the buffer; a call of
`HandleThreadException` appends its message and a newline to the buffer,
terminates the queue and closes all sockets, so that after calls with the
messages `msgs` on an empty buffer the buffer holds these messages in order,
each followed by a newline, and `Run` raises just that when there was a
call; `GotException` gives the buffer and is true exactly when it is not
empty. -/
theorem run_raises_error_buffer (threads : ManagerCommHandler → ManagerCommHandler)
    (self : ManagerCommHandler) (CommMode_In : CommunicationMode) :
    ((∃ e, Run threads self CommMode_In = .error e)
      ↔ (threads { self with CommMode := CommMode_In }).exceptionMsg ≠ []) ∧
    (∀ e, Run threads self CommMode_In = .error e →
      e = (threads { self with CommMode := CommMode_In }).exceptionMsg) ∧
    (∀ (s : ManagerCommHandler) (msg : List Char),
      (HandleThreadException s msg).exceptionMsg = s.exceptionMsg ++ (msg ++ "\n".toList) ∧
      (HandleThreadException s msg).MessageQueue.Terminated = true ∧
      (HandleThreadException s msg).Comm.Closed = true) ∧
    (∀ (s : ManagerCommHandler) (msgs : List (List Char)),
      (msgs.foldl HandleThreadException s).exceptionMsg
        = s.exceptionMsg ++ msgs.foldr (fun msg rest => msg ++ "\n".toList ++ rest) []) ∧
    (∀ msgs : List (List Char), self.exceptionMsg = [] → msgs ≠ [] →
      Run (fun s => msgs.foldl HandleThreadException s) self CommMode_In
        = .error (msgs.foldr (fun msg rest => msg ++ "\n".toList ++ rest) [])) ∧
    (∀ s : ManagerCommHandler,
      (GotException s).1 = s.exceptionMsg ∧
      ((GotException s).2 = true ↔ s.exceptionMsg ≠ [])) := by
  have hpos : ∀ l : List Char, l.length > 0 ↔ l ≠ [] := by
    intro l
    cases l <;> simp
  refine ⟨?_, ?_, ?_, ?_, ?_, ?_⟩
  · unfold Run
    by_cases h : (threads { self with CommMode := CommMode_In }).exceptionMsg.length > 0
    · simp only [h, if_true]
      exact ⟨fun _ => (hpos _).mp h, fun _ => ⟨_, rfl⟩⟩
    · simp only [h, if_false]
      constructor
      · rintro ⟨e, he⟩
        cases he
      · intro hne
        exact absurd ((hpos _).mpr hne) h
  · intro e he
    unfold Run at he
    by_cases h : (threads { self with CommMode := CommMode_In }).exceptionMsg.length > 0
    · simp only [h, if_true] at he
      injection he with he
      exact he.symm
    · simp only [h, if_false] at he
      cases he
  · intro s msg
    exact ⟨rfl, rfl, rfl⟩
  · intro s msgs
    exact handleThreadException_fold msgs s
  · intro msgs hempty hne
    have hbuf := handleThreadException_fold msgs { self with CommMode := CommMode_In }
    have hbuf' : (msgs.foldl HandleThreadException
        { self with CommMode := CommMode_In }).exceptionMsg
        = msgs.foldr (fun msg rest => msg ++ "\n".toList ++ rest) [] := by
      rw [hbuf]
      show self.exceptionMsg ++ _ = _
      rw [hempty, List.nil_append]
    have hlen : (msgs.foldr (fun msg rest => msg ++ "\n".toList ++ rest) []).length > 0 := by
      cases msgs with
      | nil => exact absurd rfl hne
      | cons m ms => simp
    unfold Run
    simp only [hbuf', hlen, if_true]
  · intro s
    refine ⟨rfl, ?_⟩
    unfold GotException
    simp only [decide_eq_true_eq]
    exact hpos _

theorem mem_descending (n : Nat) (i : Int) :
    i ∈ descending n ↔ 0 ≤ i ∧ i.toNat < n := by
  unfold descending
  simp only [List.mem_map, List.mem_reverse, List.mem_range]
  constructor
  · rintro ⟨k, hk, rfl⟩
    exact ⟨by simp, by simpa using hk⟩
  · rintro ⟨h0, hlt⟩
    exact ⟨i.toNat, hlt, by simp [Int.toNat_of_nonneg h0]⟩

theorem length_descending (n : Nat) : (descending n).length = n := by
  simp [descending]

theorem nodup_descending (n : Nat) : (descending n).Nodup := by
  unfold descending
  apply List.Nodup.map
  · intro a b h
    exact Int.ofNat.inj h
  · exact List.nodup_reverse.mpr (List.nodup_range n)

theorem handleOf_of_ok (m : CompositeModel) (c : Int) (comp : TLMComponentProxy)
    (h : m.GetTLMComponentProxy c = .ok comp) : handleOf m c = comp.SocketHandle := by
  unfold handleOf
  rw [h]

/-- The loop of the `CHECK_MODEL` replies fills one free buffer per index and
publishes it. -/
theorem checkModelLoop_ok (StartupOK : Int) :
    ∀ (indices : List Int) (self : ManagerCommHandler),
      (∀ i ∈ indices, 0 ≤ i ∧ i.toNat < self.TheModel.Components.length) →
      indices.length ≤ self.MessageQueue.FreeSlots.length →
      checkModelLoop StartupOK indices self = .ok
        { self with
          MessageQueue :=
            { self.MessageQueue with
              FreeSlots := self.MessageQueue.FreeSlots.drop indices.length
              SendBuffer := self.MessageQueue.SendBuffer ++
                List.zipWith (fun i slot => checkModelReply StartupOK (handleOf self.TheModel i) slot)
                  indices self.MessageQueue.FreeSlots } }
  | [], self, _, _ => by
    simp [checkModelLoop, pure, Except.pure]
  | i :: rest, self, hvalid, hlen => by
    have hi := hvalid i (by simp)
    have hget := tableAt_of_lt self.TheModel.Components i hi.1 hi.2
    cases hfree : self.MessageQueue.FreeSlots with
    | nil => rw [hfree] at hlen; simp at hlen
    | cons slot free =>
      have hrest : rest.length ≤ free.length := by
        rw [hfree] at hlen
        simpa using hlen
      have ih := checkModelLoop_ok StartupOK rest
        { self with
          MessageQueue :=
            { self.MessageQueue with
              FreeSlots := free
              SendBuffer := self.MessageQueue.SendBuffer ++
                [checkModelReply StartupOK (self.TheModel.Components.get ⟨i.toNat, hi.2⟩).SocketHandle
                  slot] } }
        (fun j hj => hvalid j (by simp [hj])) hrest
      have hh : handleOf self.TheModel i
          = (self.TheModel.Components.get ⟨i.toNat, hi.2⟩).SocketHandle :=
        handleOf_of_ok _ _ _ hget
      simp only [checkModelLoop, CompositeModel.GetTLMComponentProxy, hget,
        TLMMessageQueue.GetReadSlot, hfree, TLMMessageQueue.PutWriteSlot, bind, Except.bind]
      rw [ih]
      simp [hh]

theorem zipWith_checkModelReply_socket (StartupOK : Int) (m : CompositeModel) :
    ∀ (indices : List Int) (free : List TLMMessage), indices.length ≤ free.length →
      (List.zipWith (fun i slot => checkModelReply StartupOK (handleOf m i) slot)
        indices free).map (fun r => r.SocketHandle) = indices.map (handleOf m)
  | [], _, _ => by simp
  | _ :: _, [], hlen => by simp at hlen
  | i :: indices, slot :: free, hlen => by
    have ih := zipWith_checkModelReply_socket StartupOK m indices free (by simpa using hlen)
    rw [List.zipWith_cons_cons, List.map_cons, List.map_cons, ih]
    rfl

/-- C18 fails on the code: when `CheckProxyComm` gives status 0 for the
example model the reader returns with the queue terminated and the two
status replies published, but the sockets of the socket set are not closed
(`CloseAll` has not been called). -/
theorem reader_startup_failure_leaves_sockets_open :
    startupCoSim.Comm.Closed = false ∧
    ∃ self' : ManagerCommHandler,
      ReaderThreadRun_afterStartup (fun _ => 0) examplePlatform exampleLayout emptyMessage
        [allRequestClose] startupCoSim = .ok (self', []) ∧
      self'.MessageQueue.Terminated = true ∧
      self'.MessageQueue.SendBuffer.map (fun r => (r.SocketHandle, r.Header.TLMInterfaceID))
        = [(11, 0), (10, 0)] ∧
      self'.Comm.Closed = false ∧
      self'.runningMode = RunningMode.StartupMode :=
  ⟨rfl, _, rfl, rfl, by decide, rfl, rfl⟩

theorem tableAt_ok_range {α : Type} (table : List α) (i : Int) (x : α)
    (h : tableAt table i = .ok x) : 0 ≤ i ∧ i.toNat < table.length := by
  unfold tableAt at h
  by_cases hneg : i < 0
  · simp [hneg] at h
  · simp only [hneg, if_false] at h
    cases hget : table[i.toNat]? with
    | none => simp [hget] at h
    | some y =>
      rcases List.getElem?_eq_some.mp hget with ⟨hlt, _⟩
      exact ⟨by omega, hlt⟩

theorem swapIfNeeded_same_endian (P : Platform) (message : TLMMessage)
    (h : message.Header.SourceIsBigEndianSystem = P.IsBigEndianSystem) :
    swapIfNeeded P message = message := by
  unfold swapIfNeeded
  simp [h]

/-- C19 as stated fails: a `TIME_DATA` frame of three payload bytes, with the
endian flag of the host, is stored neither for the bidirectional 6D interface
`A.p` nor for the bidirectional 1D interface `B.s`: the struct that the source
reads through the pointer to the first payload byte has 144 and 16 bytes here,
so the read leaves the buffer. -/
theorem reader_store_short_payload_is_undefined :
    (timeDataLittle 0).Header.MessageType = TLMMessageTypeConst.TLM_TIME_DATA ∧
    (timeDataLittle 0).Header.SourceIsBigEndianSystem = examplePlatform.IsBigEndianSystem ∧
    (timeDataLittle 0).Data.length = 3 ∧
    exampleLayout.sizeof3D = 144 ∧ exampleLayout.sizeof1D = 16 ∧
    runPhaseRequest.TheModel.GetTLMInterfaceProxy (timeDataLittle 0).Header.TLMInterfaceID
      = .ok ifcAp ∧
    ifcAp.Dimensions = 6 ∧ ifcAp.Causality = "bidirectional".toList ∧
    UnpackAndStoreTimeData examplePlatform exampleLayout runPhaseRequest (timeDataLittle 0)
      = .error Fault.undefinedBehaviour ∧
    ReaderThreadRun_store examplePlatform exampleLayout runPhaseRequest (timeDataLittle 0)
      = .error Fault.undefinedBehaviour ∧
    runPhaseRequest.TheModel.GetTLMInterfaceProxy (timeDataLittle 3).Header.TLMInterfaceID
      = .ok ifcBs ∧
    ifcBs.Dimensions = 1 ∧ ifcBs.Causality = "bidirectional".toList ∧
    UnpackAndStoreTimeData examplePlatform exampleLayout runPhaseRequest (timeDataLittle 3)
      = .error Fault.undefinedBehaviour ∧
    ReaderThreadRun_store examplePlatform exampleLayout runPhaseRequest (timeDataLittle 3)
      = .error Fault.undefinedBehaviour :=
  ⟨rfl, rfl, rfl, rfl, rfl, rfl, rfl, rfl, rfl, rfl, rfl, rfl, rfl, rfl, rfl⟩

/-- C19, amended. For a `TIME_DATA` message whose endian flag is that of the
host, whose header names a valid bidirectional interface of 6 dimensions or of
1 dimension and whose data buffer `message.Data` has at least the bytes of the
struct read for that shape (`sizeof(TLMTimeData3D)` for 6 dimensions,
`sizeof(TLMTimeData1D)` for 1), the interface-request branch of the reader
returns and stores in the
time-zero state of that interface: for 6 dimensions the 3D state that the
payload holds; for 1 dimension the position (p, 0, 0), the identity rotation
matrix and the velocity (v, 0, 0, 0, 0, 0) with p and v the position and
velocity of the payload.  The other fields of that interface proxy, every
other interface proxy, the components and the connections stay as they were,
the buffer goes back to the free list unchanged and nothing is added to the
send buffer. -/
theorem reader_store_bidirectional (P : Platform) (L : TimeDataLayout)
    (self : ManagerCommHandler) (message : TLMMessage) (ip : TLMInterfaceProxy)
    (hkind : message.Header.MessageType = TLMMessageTypeConst.TLM_TIME_DATA)
    (hflag : message.Header.SourceIsBigEndianSystem = P.IsBigEndianSystem)
    (hip : self.TheModel.GetTLMInterfaceProxy message.Header.TLMInterfaceID = .ok ip)
    (hcau : ip.Causality = "bidirectional".toList)
    (hdim : (ip.Dimensions = 6 ∧ L.sizeof3D ≤ message.Data.length) ∨
      (ip.Dimensions = 1 ∧ L.sizeof1D ≤ message.Data.length)) :
    ∃ (self' : ManagerCommHandler) (stored : TLMTimeData3D),
      ReaderThreadRun_store P L self message = .ok self' ∧
      self'.TheModel.GetTLMInterfaceProxy message.Header.TLMInterfaceID
        = .ok { ip with time0Data3D := stored } ∧
      (ip.Dimensions = 6 → stored = L.read3D message.Data) ∧
      (ip.Dimensions = 1 →
        (∀ i : Fin 3, stored.Position i
          = if i.val = 0 then (L.read1D message.Data).Position else Double.zero) ∧
        (∀ i : Fin 9, stored.RotMatrix i
          = if i.val = 0 ∨ i.val = 4 ∨ i.val = 8 then Double.one else Double.zero) ∧
        (∀ i : Fin 6, stored.Velocity i
          = if i.val = 0 then (L.read1D message.Data).Velocity else Double.zero)) ∧
      (∀ j : Int, j ≠ message.Header.TLMInterfaceID →
        self'.TheModel.GetTLMInterfaceProxy j = self.TheModel.GetTLMInterfaceProxy j) ∧
      self'.TheModel.Components = self.TheModel.Components ∧
      self'.TheModel.Connections = self.TheModel.Connections ∧
      self'.MessageQueue.SendBuffer = self.MessageQueue.SendBuffer ∧
      self'.MessageQueue.FreeSlots = message :: self.MessageQueue.FreeSlots := by
  obtain ⟨h0, hlt⟩ := tableAt_ok_range _ _ _ hip
  have hswap := swapIfNeeded_same_endian P message hflag
  rcases hdim with ⟨h6, hsize⟩ | ⟨h1, hsize⟩
  · have hc6 : ip.Dimensions = 6 ∧ ip.Causality = "bidirectional".toList := ⟨h6, hcau⟩
    have hs : ¬ message.Data.length < L.sizeof3D := by omega
    have hrun : ReaderThreadRun_store P L self message = .ok
        { self with
          TheModel := self.TheModel.setInterface message.Header.TLMInterfaceID
            { ip with time0Data3D := L.read3D message.Data }
          MessageQueue := self.MessageQueue.ReleaseSlot message } := by
      unfold ReaderThreadRun_store UnpackAndStoreTimeData
      simp only [hkind, hip, ne_eq, not_true_eq_false, if_false, bind, Except.bind, pure,
        Except.pure]
      rw [if_pos hc6, hswap, if_neg hs]
    refine ⟨_, _, hrun, tableAt_set_same _ _ _ h0 hlt, ?_, ?_, ?_, rfl, rfl, rfl, rfl⟩
    · intro _
      rfl
    · intro h
      rw [h6] at h
      exact absurd h (by decide)
    · intro j hj
      exact tableAt_set_other _ _ _ _ h0 hj
  · have hc6 : ¬ (ip.Dimensions = 6 ∧ ip.Causality = "bidirectional".toList) := by
      intro h
      rw [h1] at h
      exact absurd h.1 (by decide)
    have hc1 : ip.Dimensions = 1 ∧ ip.Causality = "bidirectional".toList := ⟨h1, hcau⟩
    have hs : ¬ message.Data.length < L.sizeof1D := by omega
    have hrun : ReaderThreadRun_store P L self message = .ok
        { self with
          TheModel := self.TheModel.setInterface message.Header.TLMInterfaceID
            { ip with
              time0Data3D :=
                { Position := array3 (L.read1D message.Data).Position Double.zero Double.zero
                  RotMatrix := identityRotation
                  Velocity := array6 (L.read1D message.Data).Velocity Double.zero Double.zero
                    Double.zero Double.zero Double.zero } }
          MessageQueue := self.MessageQueue.ReleaseSlot message } := by
      unfold ReaderThreadRun_store UnpackAndStoreTimeData
      simp only [hkind, hip, ne_eq, not_true_eq_false, if_false, bind, Except.bind, pure,
        Except.pure]
      rw [if_neg hc6, if_pos hc1, hswap, if_neg hs]
    refine ⟨_, _, hrun, tableAt_set_same _ _ _ h0 hlt, ?_, ?_, ?_, rfl, rfl, rfl, rfl⟩
    · intro h
      rw [h1] at h
      exact absurd h (by decide)
    · intro _
      refine ⟨?_, ?_, ?_⟩
      · intro i
        simp only [array3]
        split
        · rfl
        · split <;> rfl
      · intro i
        rfl
      · intro i
        simp only [array6]
        repeat (first | rfl | split)
    · intro j hj
      exact tableAt_set_other _ _ _ _ h0 hj

set_option maxRecDepth 20000 in
/-- C19, amended, at a frame of 144 payload bytes for the 6D interface `A.p`
and at a frame of 16 payload bytes, holding the position 1 and the velocity
0.1, for the 1D interface `B.s`. -/
theorem reader_store_bidirectional_witness :
    ((timeData3D 0).Header.MessageType = TLMMessageTypeConst.TLM_TIME_DATA ∧
      (timeData3D 0).Header.SourceIsBigEndianSystem = examplePlatform.IsBigEndianSystem ∧
      runPhaseRequest.TheModel.GetTLMInterfaceProxy (timeData3D 0).Header.TLMInterfaceID
        = .ok ifcAp ∧
      ifcAp.Causality = "bidirectional".toList ∧
      ((ifcAp.Dimensions = 6 ∧ exampleLayout.sizeof3D ≤ (timeData3D 0).Data.length) ∨
        (ifcAp.Dimensions = 1 ∧ exampleLayout.sizeof1D ≤ (timeData3D 0).Data.length))) ∧
    (∃ (self' : ManagerCommHandler) (stored : TLMTimeData3D),
      ReaderThreadRun_store examplePlatform exampleLayout runPhaseRequest (timeData3D 0)
        = .ok self' ∧
      self'.TheModel.GetTLMInterfaceProxy 0 = .ok { ifcAp with time0Data3D := stored } ∧
      stored = exampleLayout.read3D (timeData3D 0).Data ∧
      stored.Position 0 = ⟨1⟩ ∧ stored.RotMatrix 0 = ⟨4⟩ ∧ stored.Velocity 5 = ⟨18⟩ ∧
      self'.MessageQueue.SendBuffer = runPhaseRequest.MessageQueue.SendBuffer) ∧
    (∃ (self' : ManagerCommHandler) (stored : TLMTimeData3D),
      ReaderThreadRun_store examplePlatform exampleLayout runPhaseRequest (timeData1D 3)
        = .ok self' ∧
      self'.TheModel.GetTLMInterfaceProxy 3 = .ok { ifcBs with time0Data3D := stored } ∧
      (∀ i : Fin 3, stored.Position i = if i.val = 0 then Double.one else Double.zero) ∧
      (∀ i : Fin 9, stored.RotMatrix i
        = if i.val = 0 ∨ i.val = 4 ∨ i.val = 8 then Double.one else Double.zero) ∧
      (∀ i : Fin 6, stored.Velocity i = if i.val = 0 then Double.tenth else Double.zero) ∧
      self'.MessageQueue.SendBuffer = runPhaseRequest.MessageQueue.SendBuffer) := by
  refine ⟨⟨rfl, rfl, rfl, rfl, Or.inl ⟨rfl, by decide⟩⟩, ?_, ?_⟩
  · obtain ⟨self', stored, hrun, hget, h6, _, _, _, _, hsend, _⟩ :=
      reader_store_bidirectional examplePlatform exampleLayout runPhaseRequest
        (timeData3D 0) ifcAp rfl rfl rfl rfl (Or.inl ⟨rfl, by decide⟩)
    have hst := h6 rfl
    refine ⟨self', stored, hrun, hget, hst, ?_, ?_, ?_, hsend⟩
    · rw [hst]
      decide
    · rw [hst]
      decide
    · rw [hst]
      decide
  · obtain ⟨self', stored, hrun, hget, _, h1, _, _, _, hsend, _⟩ :=
      reader_store_bidirectional examplePlatform exampleLayout runPhaseRequest
        (timeData1D 3) ifcBs rfl rfl rfl rfl (Or.inr ⟨rfl, by decide⟩)
    obtain ⟨hpos, hrot, hvel⟩ := h1 rfl
    have hp : (exampleLayout.read1D (timeData1D 3).Data).Position = Double.one := by decide
    have hv : (exampleLayout.read1D (timeData1D 3).Data).Velocity = Double.tenth := by decide
    rw [hp] at hpos
    rw [hv] at hvel
    exact ⟨self', stored, hrun, hget, hpos, hrot, hvel, hsend⟩

/-! ### The run phase and the close permissions -/

/-- `ForwardToMonitor` changes nothing but the message queue. -/
theorem forwardToMonitor_frame (self : ManagerCommHandler) (message message' : TLMMessage)
    (self' : ManagerCommHandler)
    (h : ForwardToMonitor self message = .ok (message', self')) :
    message' = message ∧ self'.TheModel = self.TheModel ∧ self'.CommMode = self.CommMode ∧
    self'.Comm = self.Comm ∧ self'.DisconnectedMonitors = self.DisconnectedMonitors ∧
    self'.MonitorSockets = self.MonitorSockets := by
  unfold ForwardToMonitor at h
  by_cases hdisc : self.MonitorsDisconnected = true
  · simp only [hdisc, if_true, pure, Except.pure, bind, Except.bind] at h
    injection h with h
    injection h with h1 h2
    subst h1; subst h2
    exact ⟨rfl, rfl, rfl, rfl, rfl, rfl⟩
  · simp only [hdisc, bind, Except.bind] at h
    cases hifc : self.TheModel.GetTLMInterfaceProxy message.Header.TLMInterfaceID with
    | error e => simp [hifc, pure, Except.pure] at h
    | ok ifc =>
      simp only [hifc] at h
      by_cases hcount : (equalRange self.monitorInterfaceMap ifc.LinkedID).length > 0
      · simp only [hcount, if_true] at h
        by_cases hkind : message.Header.MessageType = TLMMessageTypeConst.TLM_TIME_DATA
        · simp only [hkind, ne_eq, not_true_eq_false, if_false, pure, Except.pure] at h
          cases hloop : forwardLoop ifc.LinkedID message
              (equalRange self.monitorInterfaceMap ifc.LinkedID) self.MessageQueue with
          | error e => simp [hloop] at h
          | ok q =>
            simp only [hloop] at h
            injection h with h
            injection h with h1 h2
            subst h1; subst h2
            exact ⟨rfl, rfl, rfl, rfl, rfl, rfl⟩
        · simp [hkind, throw, throwThe, MonadExceptOf.throw, pure, Except.pure] at h
      · simp only [hcount, if_false, pure, Except.pure] at h
        injection h with h
        injection h with h1 h2
        subst h1; subst h2
        exact ⟨rfl, rfl, rfl, rfl, rfl, rfl⟩

/-- The co-simulation branch of the reader changes nothing but the message
queue. -/
theorem readerThreadRun_forward_frame (self self' : ManagerCommHandler) (message : TLMMessage)
    (h : ReaderThreadRun_forward self message = .ok self') :
    self'.TheModel = self.TheModel ∧ self'.Comm = self.Comm ∧
    self'.DisconnectedMonitors = self.DisconnectedMonitors ∧
    self'.MonitorSockets = self.MonitorSockets := by
  unfold ReaderThreadRun_forward at h
  simp only [bind, Except.bind] at h
  cases hm : MarshalMessage self.TheModel message with
  | error e => simp [hm] at h
  | ok routed =>
    simp only [hm] at h
    cases hf : ForwardToMonitor self routed with
    | error e => simp [hf] at h
    | ok r =>
      obtain ⟨m', s'⟩ := r
      simp only [hf, pure, Except.pure] at h
      injection h with h
      subst h
      obtain ⟨_, h1, _, h2, h3, h4⟩ := forwardToMonitor_frame self routed m' s' hf
      exact ⟨h1, h2, h3, h4⟩

/-- The interface-request branch of the reader leaves the components, the
socket set and the monitor lists as they were. -/
theorem readerThreadRun_store_frame (P : Platform) (L : TimeDataLayout)
    (self self' : ManagerCommHandler) (message : TLMMessage)
    (h : ReaderThreadRun_store P L self message = .ok self') :
    self'.TheModel.Components = self.TheModel.Components ∧ self'.Comm = self.Comm ∧
    self'.DisconnectedMonitors = self.DisconnectedMonitors ∧
    self'.MonitorSockets = self.MonitorSockets := by
  unfold ReaderThreadRun_store UnpackAndStoreTimeData at h
  simp only [bind, Except.bind, pure, Except.pure] at h
  by_cases hkind : message.Header.MessageType = TLMMessageTypeConst.TLM_TIME_DATA
  · simp only [hkind, ne_eq, not_true_eq_false, if_false] at h
    cases hip : self.TheModel.GetTLMInterfaceProxy message.Header.TLMInterfaceID with
    | error e => simp [hip] at h
    | ok ip =>
      simp only [hip] at h
      by_cases c6 : ip.Dimensions = 6 ∧ ip.Causality = "bidirectional".toList
      · simp only [c6, and_self, if_true] at h
        by_cases hs : (swapIfNeeded P message).Data.length < L.sizeof3D
        · simp [hs, throw, throwThe, MonadExceptOf.throw] at h
        · simp only [hs, if_false] at h
          injection h with h
          subst h
          exact ⟨rfl, rfl, rfl, rfl⟩
      · by_cases c1 : ip.Dimensions = 1 ∧ ip.Causality = "bidirectional".toList
        · simp only [c6, c1, and_self, if_true, if_false] at h
          by_cases hs : (swapIfNeeded P message).Data.length < L.sizeof1D
          · simp [hs, throw, throwThe, MonadExceptOf.throw] at h
          · simp only [hs, if_false] at h
            injection h with h
            subst h
            exact ⟨rfl, rfl, rfl, rfl⟩
        · simp only [c6, c1, if_false] at h
          injection h with h
          subst h
          exact ⟨rfl, rfl, rfl, rfl⟩
  · simp [hkind, throw, throwThe, MonadExceptOf.throw, pure, Except.pure] at h

/-- What one visit of the run-phase loop does to the components and to
`closedSockets`: the components stay, and the index is appended exactly when
it was not yet in the list, the socket handle is not 0 and the socket offered
a `CLOSE_REQUEST`. -/
theorem visit_spec (P : Platform) (L : TimeDataLayout) (self self' : ManagerCommHandler)
    (locals locals' : RunPhaseLocals) (iSock : Int) (event : SocketEvent)
    (h : ReaderThreadRun_visit P L (self, locals) iSock event = .ok (self', locals')) :
    self'.TheModel.Components = self.TheModel.Components ∧
    (0 ≤ iSock ∧ iSock.toNat < self.TheModel.Components.length) ∧
    locals'.closedSockets =
      (if iSock ∉ locals.closedSockets ∧ handleOf self.TheModel iSock ≠ 0 ∧
          event.isCloseRequest = true
        then locals.closedSockets ++ [iSock] else locals.closedSockets) := by
  unfold ReaderThreadRun_visit at h
  simp only [bind, Except.bind, pure, Except.pure] at h
  cases hcomp : self.TheModel.GetTLMComponentProxy iSock with
  | error e => simp [hcomp] at h
  | ok comp =>
    have hrange := tableAt_ok_range _ _ _ hcomp
    have hhandle : handleOf self.TheModel iSock = comp.SocketHandle := handleOf_of_ok _ _ _ hcomp
    simp only [hcomp] at h
    rw [hhandle]
    by_cases hcond : iSock ∉ locals.closedSockets ∧ comp.SocketHandle ≠ 0 ∧
        event ≠ SocketEvent.noData
    · rw [if_pos hcond] at h
      cases hslot : self.MessageQueue.GetReadSlot with
      | error e => simp [hslot] at h
      | ok r =>
        obtain ⟨slot, q⟩ := r
        simp only [hslot] at h
        cases event with
        | noData => exact absurd rfl hcond.2.2
        | readFailed =>
          simp only at h
          injection h with h
          injection h with h1 h2
          subst h1; subst h2
          refine ⟨rfl, hrange, ?_⟩
          simp [SocketEvent.isCloseRequest]
        | received Header Data =>
          simp only at h
          by_cases hclose : Header.MessageType = TLMMessageTypeConst.TLM_CLOSE_REQUEST
          · simp only [hclose, if_true] at h
            injection h with h
            injection h with h1 h2
            subst h1; subst h2
            refine ⟨rfl, hrange, ?_⟩
            simp [SocketEvent.isCloseRequest, hclose, hcond.1, hcond.2.1]
          · have hnotreq : ¬ ((SocketEvent.received Header Data).isCloseRequest = true) := by
              simp [SocketEvent.isCloseRequest, hclose]
            simp only [hclose, if_false] at h
            by_cases hmode : self.CommMode = CommunicationMode.CoSimulationMode
            · rw [if_pos hmode] at h
              cases hfwd : ReaderThreadRun_forward { self with MessageQueue := q }
                  { slot with SocketHandle := comp.SocketHandle, Header := Header, Data := Data } with
              | error e =>
                rw [hfwd] at h
                cases h
              | ok s1 =>
                rw [hfwd] at h
                injection h with h
                injection h with h1 h2
                subst h1; subst h2
                obtain ⟨hm, _⟩ := readerThreadRun_forward_frame _ _ _ hfwd
                refine ⟨by rw [hm], hrange, ?_⟩
                simp [hnotreq]
            · rw [if_neg hmode] at h
              cases hst : ReaderThreadRun_store P L { self with MessageQueue := q }
                  { slot with SocketHandle := comp.SocketHandle, Header := Header, Data := Data } with
              | error e =>
                rw [hst] at h
                cases h
              | ok s1 =>
                rw [hst] at h
                injection h with h
                injection h with h1 h2
                subst h1; subst h2
                obtain ⟨hm, _⟩ := readerThreadRun_store_frame _ _ _ _ _ hst
                refine ⟨hm, hrange, ?_⟩
                simp [hnotreq]
    · rw [if_neg hcond] at h
      injection h with h
      injection h with h1 h2
      subst h1; subst h2
      refine ⟨rfl, hrange, ?_⟩
      by_cases hreq : event.isCloseRequest = true
      · have hne : event ≠ SocketEvent.noData := by
          intro e
          rw [e] at hreq
          simp [SocketEvent.isCloseRequest] at hreq
        have : ¬ (iSock ∉ locals.closedSockets ∧ comp.SocketHandle ≠ 0) := by
          intro hc
          exact hcond ⟨hc.1, hc.2, hne⟩
        simp only [hreq, and_true]
        rw [if_neg this]
      · simp [hreq]

theorem handleOf_congr (m1 m2 : CompositeModel) (h : m1.Components = m2.Components) (c : Int) :
    handleOf m1 c = handleOf m2 c := by
  unfold handleOf CompositeModel.GetTLMComponentProxy
  rw [h]

/-- One round of the run-phase loop over the indices `indices`: the
components stay, `closedSockets` stays free of repetitions, and it gains
exactly the indices of the round whose socket handle is not 0 and whose socket
offered a `CLOSE_REQUEST`. -/
theorem round_spec (P : Platform) (L : TimeDataLayout) (round : Int → SocketEvent) :
    ∀ (indices : List Int) (self self' : ManagerCommHandler) (locals locals' : RunPhaseLocals),
      ReaderThreadRun_round P L round indices (self, locals) = .ok (self', locals') →
      self'.TheModel.Components = self.TheModel.Components ∧
      (locals.closedSockets.Nodup → locals'.closedSockets.Nodup) ∧
      (∀ c : Int, c ∈ locals'.closedSockets ↔
        c ∈ locals.closedSockets ∨
          (c ∈ indices ∧ handleOf self.TheModel c ≠ 0 ∧ (round c).isCloseRequest = true))
  | [], self, self', locals, locals', h => by
    simp only [ReaderThreadRun_round, pure, Except.pure] at h
    injection h with h
    injection h with h1 h2
    subst h1; subst h2
    exact ⟨rfl, id, fun c => by simp⟩
  | i :: rest, self, self', locals, locals', h => by
    simp only [ReaderThreadRun_round, bind, Except.bind] at h
    cases hv : ReaderThreadRun_visit P L (self, locals) i (round i) with
    | error e =>
      rw [hv] at h
      cases h
    | ok st1 =>
      obtain ⟨s1, l1⟩ := st1
      rw [hv] at h
      obtain ⟨hc1, _, hl1⟩ := visit_spec P L self s1 locals l1 i (round i) hv
      obtain ⟨hc2, hnd2, hmem2⟩ := round_spec P L round rest s1 self' l1 locals' h
      have hh : ∀ c, handleOf s1.TheModel c = handleOf self.TheModel c :=
        handleOf_congr _ _ hc1
      refine ⟨hc2.trans hc1, ?_, ?_⟩
      · intro hnd
        apply hnd2
        rw [hl1]
        split
        · rename_i hcond
          exact List.Nodup.append hnd (List.nodup_singleton i)
            (by
              intro a ha hb
              rw [List.mem_singleton] at hb
              exact hcond.1 (hb ▸ ha))
        · exact hnd
      · intro c
        rw [hmem2 c, hl1, hh c]
        by_cases hcond : i ∉ locals.closedSockets ∧ handleOf self.TheModel i ≠ 0 ∧
            (round i).isCloseRequest = true
        · rw [if_pos hcond]
          simp only [List.mem_append, List.mem_cons, List.not_mem_nil, or_false]
          constructor
          · rintro ((h1 | h1) | ⟨h1, h2⟩)
            · exact Or.inl h1
            · subst h1
              exact Or.inr ⟨Or.inl rfl, hcond.2⟩
            · exact Or.inr ⟨Or.inr h1, h2⟩
          · rintro (h1 | ⟨h1 | h1, h2⟩)
            · exact Or.inl (Or.inl h1)
            · exact Or.inl (Or.inr h1)
            · exact Or.inr ⟨h1, h2⟩
        · rw [if_neg hcond]
          simp only [List.mem_cons]
          constructor
          · rintro (h1 | ⟨h1, h2⟩)
            · exact Or.inl h1
            · exact Or.inr ⟨Or.inr h1, h2⟩
          · rintro (h1 | ⟨h1 | h1, h2⟩)
            · exact Or.inl h1
            · subst h1
              by_cases hin : c ∈ locals.closedSockets
              · exact Or.inl hin
              · exact absurd ⟨hin, h2⟩ hcond
            · exact Or.inr ⟨h1, h2⟩

/-- The run-phase loop, when it has exited: some first rounds were gone
through, the components stayed, `closedSockets` stayed free of repetitions and
gained exactly the component indices with a socket handle other than 0 whose
socket offered a `CLOSE_REQUEST` in one of these rounds. -/
theorem runLoop_spec (P : Platform) (L : TimeDataLayout) :
    ∀ (rounds : List (Int → SocketEvent)) (self self' : ManagerCommHandler)
      (locals locals' : RunPhaseLocals),
      ReaderThreadRun_runLoop P L rounds (self, locals) = .ok (self', locals') →
      ∃ k : Nat,
        self'.TheModel.Components = self.TheModel.Components ∧
        (locals.closedSockets.Nodup → locals'.closedSockets.Nodup) ∧
        (∀ c : Int, c ∈ locals'.closedSockets ↔
          c ∈ locals.closedSockets ∨
            ((0 ≤ c ∧ c.toNat < self.TheModel.Components.length) ∧
              handleOf self.TheModel c ≠ 0 ∧
              ∃ round ∈ rounds.take k, (round c).isCloseRequest = true))
  | [], self, self', locals, locals', h => by
    unfold ReaderThreadRun_runLoop at h
    by_cases hcond : runLoopCondition (self, locals) = true
    · rw [if_pos hcond] at h
      cases h
    · rw [if_neg hcond] at h
      simp only [pure, Except.pure] at h
      injection h with h
      injection h with h1 h2
      subst h1; subst h2
      exact ⟨0, rfl, id, fun c => by simp⟩
  | round :: rest, self, self', locals, locals', h => by
    unfold ReaderThreadRun_runLoop at h
    by_cases hcond : runLoopCondition (self, locals) = true
    · rw [if_pos hcond] at h
      simp only [bind, Except.bind] at h
      cases hr : ReaderThreadRun_round P L round (descending self.TheModel.Components.length)
          (self, locals) with
      | error e =>
        rw [hr] at h
        cases h
      | ok st1 =>
        obtain ⟨s1, l1⟩ := st1
        rw [hr] at h
        obtain ⟨hc1, hnd1, hmem1⟩ := round_spec P L round _ self s1 locals l1 hr
        obtain ⟨k, hc2, hnd2, hmem2⟩ := runLoop_spec P L rest s1 self' l1 locals' h
        refine ⟨k + 1, hc2.trans hc1, fun hnd => hnd2 (hnd1 hnd), ?_⟩
        intro c
        rw [hmem2 c, hmem1 c, hc1, handleOf_congr _ _ hc1 c, mem_descending]
        simp only [List.take_succ_cons, List.mem_cons, exists_eq_or_imp]
        constructor
        · rintro ((h1 | ⟨h1, h2, h3⟩) | ⟨h1, h2, r, hr1, hr2⟩)
          · exact Or.inl h1
          · exact Or.inr ⟨h1, h2, Or.inl h3⟩
          · exact Or.inr ⟨h1, h2, Or.inr ⟨r, hr1, hr2⟩⟩
        · rintro (h1 | ⟨h1, h2, h3 | ⟨r, hr1, hr2⟩⟩)
          · exact Or.inl (Or.inl h1)
          · exact Or.inl (Or.inr ⟨h1, h2, h3⟩)
          · exact Or.inr ⟨h1, h2, r, hr1, hr2⟩
    · rw [if_neg hcond] at h
      simp only [pure, Except.pure] at h
      injection h with h
      injection h with h1 h2
      subst h1; subst h2
      exact ⟨0, rfl, id, fun c => by simp⟩

/-- The loop over `closedSockets` after the run phase, for indices of the
component table without repetition: it returns, one permission is sent per
index, to the socket the component had, in the order of the list; that socket
leaves the active set and the handle of the proxy becomes -1; the other
proxies and the other active sockets stay. -/
theorem permissionLoop_spec (fresh : TLMMessage) :
    ∀ (indices : List Int) (self : ManagerCommHandler) (sent : List TLMMessage),
      indices.Nodup →
      (∀ c ∈ indices, 0 ≤ c ∧ c.toNat < self.TheModel.Components.length) →
      ∃ self' : ManagerCommHandler,
        permissionLoop fresh indices self sent =
          .ok (self', sent ++
            indices.map (fun c => closePermission fresh (handleOf self.TheModel c))) ∧
        self'.TheModel.Components.length = self.TheModel.Components.length ∧
        self'.DisconnectedMonitors = self.DisconnectedMonitors ∧
        (∀ c ∈ indices, handleOf self'.TheModel c = -1) ∧
        (∀ c : Int, c ∉ indices →
          self'.TheModel.GetTLMComponentProxy c = self.TheModel.GetTLMComponentProxy c) ∧
        (∀ h : Int, h ∈ self'.Comm.ActiveSockets ↔
          h ∈ self.Comm.ActiveSockets ∧ ∀ c ∈ indices, h ≠ handleOf self.TheModel c)
  | [], self, sent, _, _ => by
    refine ⟨self, ?_, rfl, rfl, ?_, fun _ _ => rfl, ?_⟩
    · simp [permissionLoop, pure, Except.pure]
    · intro c hc
      cases hc
    · intro h
      simp
  | i :: rest, self, sent, hnd, hvalid => by
    obtain ⟨hi, hrest⟩ := List.nodup_cons.mp hnd
    obtain ⟨h0, hlt⟩ := hvalid i (List.mem_cons_self i rest)
    have hget : self.TheModel.GetTLMComponentProxy i =
        .ok (self.TheModel.Components.get ⟨i.toNat, hlt⟩) := tableAt_of_lt _ i h0 hlt
    have hhandle : handleOf self.TheModel i =
        (self.TheModel.Components.get ⟨i.toNat, hlt⟩).SocketHandle := by
      unfold handleOf
      rw [hget]
    generalize hcomp : self.TheModel.Components.get ⟨i.toNat, hlt⟩ = comp at hget hhandle
    have hlen : ∀ x : TLMComponentProxy,
        (self.TheModel.setComponent i x).Components.length =
          self.TheModel.Components.length := by
      intro x
      simp [CompositeModel.setComponent]
    have hother : ∀ (x : TLMComponentProxy) (c : Int), c ≠ i →
        (self.TheModel.setComponent i x).GetTLMComponentProxy c =
          self.TheModel.GetTLMComponentProxy c := by
      intro x c hc
      exact tableAt_set_other self.TheModel.Components i c x h0 hc
    have hsame : ∀ x : TLMComponentProxy,
        (self.TheModel.setComponent i x).GetTLMComponentProxy i = .ok x := by
      intro x
      exact tableAt_set_same self.TheModel.Components i x h0 hlt
    have hhother : ∀ (x : TLMComponentProxy) (c : Int), c ≠ i →
        handleOf (self.TheModel.setComponent i x) c = handleOf self.TheModel c := by
      intro x c hc
      unfold handleOf
      rw [hother x c hc]
    obtain ⟨self', hloop, hlen', hmon', hminus', hkeep', hact'⟩ :=
      permissionLoop_spec fresh rest
        { self with
          Comm := self.Comm.DropActiveSocket comp.SocketHandle
          TheModel := self.TheModel.setComponent i { comp with SocketHandle := -1 } }
        (sent ++ [closePermission fresh comp.SocketHandle]) hrest
        (by
          intro c hc
          have hv := hvalid c (List.mem_cons_of_mem i hc)
          exact ⟨hv.1, by rw [hlen]; exact hv.2⟩)
    have hne : ∀ c ∈ rest, c ≠ i := by
      intro c hc hci
      exact hi (hci ▸ hc)
    refine ⟨self', ?_, hlen'.trans (hlen _), hmon', ?_, ?_, ?_⟩
    · simp only [permissionLoop, bind, Except.bind, hget]
      rw [hloop, List.map_cons, hhandle, List.append_assoc, List.singleton_append]
      congr 4
      apply List.map_congr_left
      intro c hc
      exact congrArg (closePermission fresh) (hhother _ c (hne c hc))
    · intro c hc
      rcases List.mem_cons.mp hc with hci | hcr
      · subst hci
        unfold handleOf
        rw [hkeep' c hi, hsame]
      · exact hminus' c hcr
    · intro c hc
      have hci : c ≠ i := fun e => hc (e ▸ List.mem_cons_self i rest)
      have hcr : c ∉ rest := fun e => hc (List.mem_cons_of_mem i e)
      rw [hkeep' c hcr]
      exact hother _ c hci
    · intro h
      rw [hact' h]
      simp only [TLMManagerComm.DropActiveSocket, List.mem_filter, decide_eq_true_eq,
        List.mem_cons, forall_eq_or_imp, hhandle]
      constructor
      · rintro ⟨⟨h1, h2⟩, h3⟩
        exact ⟨h1, h2, fun c hc => (hhother _ c (hne c hc)) ▸ h3 c hc⟩
      · rintro ⟨h1, h2, h3⟩
        exact ⟨⟨h1, h2⟩, fun c hc => (hhother _ c (hne c hc)).symm ▸ h3 c hc⟩

/-- What `closePermission` writes: the socket handle is `hdl`, the kind is
`CLOSE_PERMISSION`, and the rest of the message is as in `fresh`. -/
theorem closePermission_fields (fresh : TLMMessage) (hdl : Int) :
    (closePermission fresh hdl).SocketHandle = hdl ∧
    (closePermission fresh hdl).Header.MessageType
      = TLMMessageTypeConst.TLM_CLOSE_PERMISSION ∧
    (closePermission fresh hdl).Header.TLMInterfaceID = fresh.Header.TLMInterfaceID ∧
    (closePermission fresh hdl).Header.ComponentParameterID
      = fresh.Header.ComponentParameterID ∧
    (closePermission fresh hdl).Header.SourceIsBigEndianSystem
      = fresh.Header.SourceIsBigEndianSystem ∧
    (closePermission fresh hdl).Header.DataSize = fresh.Header.DataSize ∧
    (closePermission fresh hdl).Data = fresh.Data :=
  ⟨rfl, rfl, rfl, rfl, rfl, rfl, rfl⟩

/-- C17. When the run-phase loop, started with no socket counted, has exited
after some first rounds, `closedSockets` holds without repetition exactly the
components (socket handle other than 0) from which a `CLOSE_REQUEST` was
received in these rounds; a failed read adds none.  The end of the reader then
returns and has sent one `CLOSE_PERMISSION` per element of `closedSockets`, to
the socket of that component, followed by the permissions of the disconnected
monitors: the socket handles of the messages sent are, in this order, the
handles of the components of `closedSockets` and the sockets of the
disconnected monitors, every message sent has the kind `CLOSE_PERMISSION` and
is otherwise as its constructor leaves it.  Each component sent permission has
its socket out of the active set and socket handle -1 in its proxy, the other
proxies are as before.  If every component is among those that sent
`CLOSE_REQUEST`, the components sent permission are all components, each
once. -/
theorem reader_sends_one_permission_per_request (P : Platform) (L : TimeDataLayout)
    (fresh : TLMMessage) (rounds : List (Int → SocketEvent))
    (self0 self : ManagerCommHandler) (locals : RunPhaseLocals)
    (hrun : ReaderThreadRun_runLoop P L rounds
      (self0, { nClosedSock := 0, closedSockets := [] }) = .ok (self, locals)) :
    ∃ (k : Nat) (self' : ManagerCommHandler) (sent : List TLMMessage),
      ReaderThreadRun_finish fresh self locals = .ok (self', sent) ∧
      sent =
        locals.closedSockets.map
            (fun c => closePermission fresh (handleOf self0.TheModel c)) ++
          self.DisconnectedMonitors.map (closePermission fresh) ∧
      locals.closedSockets.Nodup ∧
      (∀ c : Int, c ∈ locals.closedSockets ↔
        (0 ≤ c ∧ c.toNat < self0.TheModel.Components.length) ∧
          handleOf self0.TheModel c ≠ 0 ∧
          ∃ round ∈ rounds.take k, (round c).isCloseRequest = true) ∧
      (∀ c ∈ locals.closedSockets,
        handleOf self'.TheModel c = -1 ∧
          handleOf self0.TheModel c ∉ self'.Comm.ActiveSockets) ∧
      (∀ c : Int, c ∉ locals.closedSockets →
        self'.TheModel.GetTLMComponentProxy c = self0.TheModel.GetTLMComponentProxy c) ∧
      ((∀ c : Int, 0 ≤ c → c.toNat < self0.TheModel.Components.length →
          c ∈ locals.closedSockets) →
        locals.closedSockets.Perm (descending self0.TheModel.Components.length)) ∧
      sent.map (fun m => m.SocketHandle)
        = locals.closedSockets.map (handleOf self0.TheModel) ++ self.DisconnectedMonitors ∧
      (∀ m ∈ sent,
        m.Header.MessageType = TLMMessageTypeConst.TLM_CLOSE_PERMISSION ∧
        m.Header.TLMInterfaceID = fresh.Header.TLMInterfaceID ∧
        m.Header.ComponentParameterID = fresh.Header.ComponentParameterID ∧
        m.Header.SourceIsBigEndianSystem = fresh.Header.SourceIsBigEndianSystem ∧
        m.Header.DataSize = fresh.Header.DataSize ∧
        m.Data = fresh.Data) := by
  obtain ⟨k, hc, hnd, hmem⟩ := runLoop_spec P L rounds self0 self _ locals hrun
  have hnd' : locals.closedSockets.Nodup := hnd List.nodup_nil
  have hmem' : ∀ c : Int, c ∈ locals.closedSockets ↔
      (0 ≤ c ∧ c.toNat < self0.TheModel.Components.length) ∧
        handleOf self0.TheModel c ≠ 0 ∧
        ∃ round ∈ rounds.take k, (round c).isCloseRequest = true := by
    intro c
    rw [hmem c]
    simp only [List.not_mem_nil, false_or]
  have hvalid : ∀ c ∈ locals.closedSockets,
      0 ≤ c ∧ c.toNat < self.TheModel.Components.length := by
    intro c hcm
    rw [hc]
    exact ((hmem' c).mp hcm).1
  have hh : ∀ c, handleOf self.TheModel c = handleOf self0.TheModel c :=
    handleOf_congr _ _ hc
  obtain ⟨s1, hloop, _, hmon, hminus, hkeep, hact⟩ :=
    permissionLoop_spec fresh locals.closedSockets self [] hnd' hvalid
  have hfin : ReaderThreadRun_finish fresh self locals =
      .ok ({ s1 with
              MonitorsDisconnected := true
              runningMode := RunningMode.ShutdownMode
              MessageQueue := s1.MessageQueue.Terminate
              Comm := s1.Comm.CloseAll },
        [] ++ locals.closedSockets.map
            (fun c => closePermission fresh (handleOf self.TheModel c)) ++
          s1.DisconnectedMonitors.map (closePermission fresh)) := by
    unfold ReaderThreadRun_finish
    simp only [bind, Except.bind, hloop, pure, Except.pure]
  refine ⟨k, _, _, hfin, ?_, hnd', hmem', ?_, ?_, ?_, ?_, ?_⟩
  · rw [List.nil_append, hmon]
    congr 1
    apply List.map_congr_left
    intro c _
    rw [hh c]
  · intro c hcm
    refine ⟨hminus c hcm, ?_⟩
    intro hin
    have hin' : handleOf self0.TheModel c ∈ s1.Comm.ActiveSockets := hin
    exact ((hact _).mp hin').2 c hcm (hh c).symm
  · intro c hcm
    have h1 : s1.TheModel.GetTLMComponentProxy c = self.TheModel.GetTLMComponentProxy c :=
      hkeep c hcm
    have h2 : self.TheModel.GetTLMComponentProxy c = self0.TheModel.GetTLMComponentProxy c := by
      unfold CompositeModel.GetTLMComponentProxy
      rw [hc]
    exact h1.trans h2
  · intro hall
    apply (List.perm_ext_iff_of_nodup hnd' (nodup_descending _)).mpr
    intro c
    rw [mem_descending]
    constructor
    · intro hcm
      exact ((hmem' c).mp hcm).1
    · rintro ⟨h0, hlt⟩
      exact hall c h0 hlt
  · rw [List.nil_append, hmon, List.map_append, List.map_map, List.map_map]
    congr 1
    · apply List.map_congr_left
      intro c _
      exact hh c
    · exact List.map_id _
  · intro m hm
    rw [List.nil_append, List.mem_append, List.mem_map, List.mem_map] at hm
    rcases hm with ⟨c, _, rfl⟩ | ⟨hdl, _, rfl⟩
    · exact (closePermission_fields fresh _).2
    · exact (closePermission_fields fresh _).2

/-- C17 at the run in which component 0 asks to close and the read from
component 1 fails: one `CLOSE_PERMISSION`, for socket 10. -/
theorem reader_sends_one_permission_per_request_witness :
    ReaderThreadRun_runLoop examplePlatform exampleLayout
        [oneRequestsOneFails, allRequestClose]
        (runPhaseCoSim, { nClosedSock := 0, closedSockets := [] })
      = .ok (afterRunPhase.1, afterRunPhase.2) ∧
    afterRunPhase.2 = { nClosedSock := 2, closedSockets := [0] } ∧
    ∃ (k : Nat) (self' : ManagerCommHandler) (sent : List TLMMessage),
      ReaderThreadRun_finish emptyMessage afterRunPhase.1 afterRunPhase.2 = .ok (self', sent) ∧
      sent =
        afterRunPhase.2.closedSockets.map
            (fun c => closePermission emptyMessage (handleOf runPhaseCoSim.TheModel c)) ++
          afterRunPhase.1.DisconnectedMonitors.map (closePermission emptyMessage) ∧
      afterRunPhase.2.closedSockets.Nodup ∧
      (∀ c : Int, c ∈ afterRunPhase.2.closedSockets ↔
        (0 ≤ c ∧ c.toNat < runPhaseCoSim.TheModel.Components.length) ∧
          handleOf runPhaseCoSim.TheModel c ≠ 0 ∧
          ∃ round ∈ [oneRequestsOneFails, allRequestClose].take k,
            (round c).isCloseRequest = true) ∧
      (∀ c ∈ afterRunPhase.2.closedSockets,
        handleOf self'.TheModel c = -1 ∧
          handleOf runPhaseCoSim.TheModel c ∉ self'.Comm.ActiveSockets) ∧
      (∀ c : Int, c ∉ afterRunPhase.2.closedSockets →
        self'.TheModel.GetTLMComponentProxy c =
          runPhaseCoSim.TheModel.GetTLMComponentProxy c) ∧
      ((∀ c : Int, 0 ≤ c → c.toNat < runPhaseCoSim.TheModel.Components.length →
          c ∈ afterRunPhase.2.closedSockets) →
        afterRunPhase.2.closedSockets.Perm
          (descending runPhaseCoSim.TheModel.Components.length)) ∧
      sent.map (fun m => m.SocketHandle)
        = afterRunPhase.2.closedSockets.map (handleOf runPhaseCoSim.TheModel)
          ++ afterRunPhase.1.DisconnectedMonitors ∧
      (∀ m ∈ sent,
        m.Header.MessageType = TLMMessageTypeConst.TLM_CLOSE_PERMISSION ∧
        m.Header.TLMInterfaceID = emptyMessage.Header.TLMInterfaceID ∧
        m.Header.ComponentParameterID = emptyMessage.Header.ComponentParameterID ∧
        m.Header.SourceIsBigEndianSystem = emptyMessage.Header.SourceIsBigEndianSystem ∧
        m.Header.DataSize = emptyMessage.Header.DataSize ∧
        m.Data = emptyMessage.Data) :=
  ⟨rfl, by decide,
    reader_sends_one_permission_per_request examplePlatform exampleLayout emptyMessage
      [oneRequestsOneFails, allRequestClose] runPhaseCoSim afterRunPhase.1 afterRunPhase.2 rfl⟩

/-! ### Fourth part: shapes, the monitor, the quorum, the startup loop, buffers -/

/-- C28. For a `TIME_DATA` message whose header names a valid interface that
is neither bidirectional with 6 dimensions nor bidirectional with 1 dimension,
`UnpackAndStoreTimeData` returns and stores in the time-zero state of that
interface the position (1, 0, 0), the identity rotation matrix and a velocity
of six zeros, whatever the payload and the endian flag of the message are; the
other interface proxies stay as they were. -/
theorem unpack_other_shape_stores_constant (P : Platform) (L : TimeDataLayout)
    (self : ManagerCommHandler) (message : TLMMessage) (ip : TLMInterfaceProxy)
    (hkind : message.Header.MessageType = TLMMessageTypeConst.TLM_TIME_DATA)
    (hip : self.TheModel.GetTLMInterfaceProxy message.Header.TLMInterfaceID = .ok ip)
    (h6 : ¬ (ip.Dimensions = 6 ∧ ip.Causality = "bidirectional".toList))
    (h1 : ¬ (ip.Dimensions = 1 ∧ ip.Causality = "bidirectional".toList)) :
    ∃ (message' : TLMMessage) (self' : ManagerCommHandler) (stored : TLMTimeData3D),
      UnpackAndStoreTimeData P L self message = .ok (message', self') ∧
      self'.TheModel.GetTLMInterfaceProxy message.Header.TLMInterfaceID
        = .ok { ip with time0Data3D := stored } ∧
      (∀ i : Fin 3, stored.Position i = if i.val = 0 then Double.one else Double.zero) ∧
      (∀ i : Fin 9, stored.RotMatrix i
        = if i.val = 0 ∨ i.val = 4 ∨ i.val = 8 then Double.one else Double.zero) ∧
      (∀ i : Fin 6, stored.Velocity i = Double.zero) ∧
      (∀ j : Int, j ≠ message.Header.TLMInterfaceID →
        self'.TheModel.GetTLMInterfaceProxy j = self.TheModel.GetTLMInterfaceProxy j) ∧
      (∀ other : TLMMessage,
        other.Header.MessageType = TLMMessageTypeConst.TLM_TIME_DATA →
        other.Header.TLMInterfaceID = message.Header.TLMInterfaceID →
        ∃ (other' : TLMMessage) (self'' : ManagerCommHandler),
          UnpackAndStoreTimeData P L self other = .ok (other', self'') ∧
          self''.TheModel.GetTLMInterfaceProxy message.Header.TLMInterfaceID
            = .ok { ip with time0Data3D := stored }) := by
  obtain ⟨h0, hlt⟩ := tableAt_ok_range _ _ _ hip
  have hrun : ∀ other : TLMMessage,
      other.Header.MessageType = TLMMessageTypeConst.TLM_TIME_DATA →
      other.Header.TLMInterfaceID = message.Header.TLMInterfaceID →
      UnpackAndStoreTimeData P L self other = .ok
        (swapIfNeeded P other,
          { self with
            TheModel := self.TheModel.setInterface message.Header.TLMInterfaceID
              { ip with
                time0Data3D :=
                  { Position := array3 Double.one Double.zero Double.zero
                    RotMatrix := identityRotation
                    Velocity := array6 Double.zero Double.zero Double.zero Double.zero
                      Double.zero Double.zero } } }) := by
    intro other hk hid
    have hid' : (swapIfNeeded P other).Header.TLMInterfaceID
        = message.Header.TLMInterfaceID := by
      unfold swapIfNeeded
      dsimp only
      split <;> exact hid
    unfold UnpackAndStoreTimeData
    simp only [hk, hid, hip, ne_eq, not_true_eq_false, if_false, bind, Except.bind, pure,
      Except.pure]
    rw [if_neg h6, if_neg h1, hid']
  refine ⟨_, _, _, hrun message hkind rfl, tableAt_set_same _ _ _ h0 hlt, ?_, ?_, ?_, ?_, ?_⟩
  · intro i
    simp only [array3]
    split
    · rfl
    · split <;> rfl
  · intro i
    rfl
  · intro i
    simp only [array6]
    repeat (first | rfl | split)
  · intro j hj
    exact tableAt_set_other _ _ _ _ h0 hj
  · intro other hk hid
    exact ⟨_, _, hrun other hk hid, tableAt_set_same _ _ _ h0 hlt⟩

/-- C28 at a frame for the input signal `B.u`. -/
theorem unpack_other_shape_stores_constant_witness :
    ((timeDataFrom 4).Header.MessageType = TLMMessageTypeConst.TLM_TIME_DATA ∧
      runPhaseSignal.TheModel.GetTLMInterfaceProxy (timeDataFrom 4).Header.TLMInterfaceID
        = .ok ifcBu ∧
      ¬ (ifcBu.Dimensions = 6 ∧ ifcBu.Causality = "bidirectional".toList) ∧
      ¬ (ifcBu.Dimensions = 1 ∧ ifcBu.Causality = "bidirectional".toList)) ∧
    ∃ (message' : TLMMessage) (self' : ManagerCommHandler) (stored : TLMTimeData3D),
      UnpackAndStoreTimeData examplePlatform exampleLayout runPhaseSignal (timeDataFrom 4)
        = .ok (message', self') ∧
      self'.TheModel.GetTLMInterfaceProxy (timeDataFrom 4).Header.TLMInterfaceID
        = .ok { ifcBu with time0Data3D := stored } ∧
      (∀ i : Fin 3, stored.Position i = if i.val = 0 then Double.one else Double.zero) ∧
      (∀ i : Fin 9, stored.RotMatrix i
        = if i.val = 0 ∨ i.val = 4 ∨ i.val = 8 then Double.one else Double.zero) ∧
      (∀ i : Fin 6, stored.Velocity i = Double.zero) ∧
      (∀ j : Int, j ≠ (timeDataFrom 4).Header.TLMInterfaceID →
        self'.TheModel.GetTLMInterfaceProxy j = runPhaseSignal.TheModel.GetTLMInterfaceProxy j) ∧
      (∀ other : TLMMessage,
        other.Header.MessageType = TLMMessageTypeConst.TLM_TIME_DATA →
        other.Header.TLMInterfaceID = (timeDataFrom 4).Header.TLMInterfaceID →
        ∃ (other' : TLMMessage) (self'' : ManagerCommHandler),
          UnpackAndStoreTimeData examplePlatform exampleLayout runPhaseSignal other
            = .ok (other', self'') ∧
          self''.TheModel.GetTLMInterfaceProxy (timeDataFrom 4).Header.TLMInterfaceID
            = .ok { ifcBu with time0Data3D := stored }) :=
  ⟨⟨rfl, rfl, by decide, by decide⟩,
    unpack_other_shape_stores_constant examplePlatform exampleLayout runPhaseSignal
      (timeDataFrom 4) ifcBu rfl rfl (by decide) (by decide)⟩

/-- C27 fails on the code: with monitoring active, a `TIME_DATA` frame from
interface 2 (`A.q`, a valid index, without a pair) is dropped by
`MarshalMessage`, which sets the header interface id to -1; the reader then
calls `ForwardToMonitor`, whose first step is the table lookup of interface
-1, outside the table. -/
theorem forwardToMonitor_looks_up_dropped_message :
    monitorOnB.MonitorsDisconnected = false ∧
    monitorOnB.CommMode = CommunicationMode.CoSimulationMode ∧
    (timeDataFrom 2).Header.MessageType = TLMMessageTypeConst.TLM_TIME_DATA ∧
    monitorOnB.TheModel.GetTLMInterfaceProxy (timeDataFrom 2).Header.TLMInterfaceID
      = .ok ifcAq ∧
    ∃ routed : TLMMessage,
      MarshalMessage monitorOnB.TheModel (timeDataFrom 2) = .ok routed ∧
      routed.Header.TLMInterfaceID = -1 ∧
      monitorOnB.TheModel.GetTLMInterfaceProxy routed.Header.TLMInterfaceID
        = .error Fault.undefinedBehaviour ∧
      ForwardToMonitor monitorOnB routed = .error Fault.undefinedBehaviour ∧
      ReaderThreadRun_forward monitorOnB (timeDataFrom 2) = .error Fault.undefinedBehaviour :=
  ⟨rfl, rfl, rfl, rfl, _, rfl, rfl, rfl, rfl, rfl⟩

/-- C23 fails on the code: in a run phase with two components, two rounds in
which the read from the socket of component 0 fails and component 1 offers
nothing leave `nClosedSock` at 2, the number of components, with one
component counted twice: component 0 was read again after it had been
counted, and the loop has ended although component 1 has neither asked to
close nor failed. -/
theorem failed_socket_is_counted_again :
    runPhaseCoSim.TheModel.GetComponentsNum = 2 ∧
    (∀ round ∈ [firstSocketFails, firstSocketFails],
      round 0 = SocketEvent.readFailed ∧ round 1 = SocketEvent.noData) ∧
    (∃ (self1 : ManagerCommHandler) (locals1 : RunPhaseLocals),
      ReaderThreadRun_round examplePlatform exampleLayout firstSocketFails
          (descending runPhaseCoSim.TheModel.Components.length)
          (runPhaseCoSim, { nClosedSock := 0, closedSockets := [] })
        = .ok (self1, locals1) ∧
      locals1 = { nClosedSock := 1, closedSockets := [] } ∧
      runLoopCondition (self1, locals1) = true) ∧
    ∃ (self : ManagerCommHandler) (locals : RunPhaseLocals),
      ReaderThreadRun_runLoop examplePlatform exampleLayout
          [firstSocketFails, firstSocketFails]
          (runPhaseCoSim, { nClosedSock := 0, closedSockets := [] })
        = .ok (self, locals) ∧
      locals = { nClosedSock := 2, closedSockets := [] } ∧
      runLoopCondition (self, locals) = false :=
  ⟨rfl, by decide, ⟨_, _, rfl, by decide, by decide⟩, _, _, rfl, by decide, by decide⟩

/-- The run of `ProcessRegInterfaceMessage` that creates an interface: in
interface-request mode, for a name that the lookup does not find. -/
theorem processRegInterface_created (P : Platform) (uninit : TLMConnectionParams)
    (self : ManagerCommHandler) (compID : Int) (mess : TLMMessage)
    (hmode : self.CommMode = CommunicationMode.InterfaceRequestMode)
    (hkind : mess.Header.MessageType = TLMMessageTypeConst.TLM_REG_INTERFACE)
    (hid : self.TheModel.GetTLMInterfaceID compID
      (parseInterfaceSpecification mess.payload).aName < 0) :
    ProcessRegInterfaceMessage P uninit self compID mess = .ok
      (SetupInterfaceRequestMessage P uninit
        { mess with
          Header := { mess.Header with
            TLMInterfaceID := self.TheModel.Interfaces.length
            SourceIsBigEndianSystem := P.IsBigEndianSystem
            DataSize := 0 } },
       { self with
          TheModel := { self.TheModel with
            Interfaces := self.TheModel.Interfaces ++
              [{ ComponentID := compID
                 Name := (parseInterfaceSpecification mess.payload).aName
                 Dimensions := (parseInterfaceSpecification mess.payload).dimensions
                 Causality := (parseInterfaceSpecification mess.payload).causality
                 Domain := (parseInterfaceSpecification mess.payload).domain
                 ConnectionID := -1, LinkedID := -1, Connected := true
                 time0Data3D := freshTimeData }] } }) := by
  have hnew : ∀ ifc : TLMInterfaceProxy, ifc.ComponentID = compID →
      ifc.Name = (parseInterfaceSpecification mess.payload).aName →
      firstIndex (fun ifc : TLMInterfaceProxy => decide (ifc.ComponentID = compID ∧
        ifc.Name = (parseInterfaceSpecification mess.payload).aName))
        (self.TheModel.Interfaces ++ [ifc]) = self.TheModel.Interfaces.length := by
    intro ifc h1 h2
    exact firstIndex_append_new _ ifc (by simp [h1, h2]) _ hid
  have hnot : ¬ ((self.TheModel.Interfaces.length : Int) < 0) := by omega
  have hid' : firstIndex (fun ifc : TLMInterfaceProxy => decide (ifc.ComponentID = compID ∧
      ifc.Name = (parseInterfaceSpecification mess.payload).aName))
      self.TheModel.Interfaces < 0 := hid
  unfold ProcessRegInterfaceMessage
  simp only [hkind, hmode, hid', ne_eq, not_true_eq_false, if_false, bind, Except.bind, pure,
    Except.pure, and_self, if_true, CompositeModel.RegisterTLMInterfaceProxy,
    CompositeModel.GetTLMInterfaceID, hnew, hnot, CompositeModel.GetTLMInterfaceProxy,
    tableAt_append_new, CompositeModel.setInterface, Int.toNat_ofNat, set_append_last]

/-- C26 as stated fails: in interface-request mode the payload
`x:3:sideways:foo` makes `ProcessRegInterfaceMessage` register an interface
with 3 dimensions and causality `sideways`. -/
theorem registered_shape_out_of_range :
    startupRequest.CommMode = CommunicationMode.InterfaceRequestMode ∧
    ∃ (reply : TLMMessage) (self' : ManagerCommHandler) (ifc : TLMInterfaceProxy),
      ProcessRegInterfaceMessage examplePlatform exampleParams startupRequest 0
        (received TLMMessageTypeConst.TLM_REG_INTERFACE 10 "x:3:sideways:foo")
        = .ok (reply, self') ∧
      self'.TheModel.Interfaces = startupRequest.TheModel.Interfaces ++ [ifc] ∧
      ifc.Dimensions = 3 ∧
      ifc.Causality = "sideways".toList ∧
      ¬ (ifc.Dimensions = 1 ∨ ifc.Dimensions = 6) ∧
      ¬ (ifc.Causality = "bidirectional".toList ∨ ifc.Causality = "input".toList ∨
        ifc.Causality = "output".toList) := by
  have hparse : parseInterfaceSpecification
      (received TLMMessageTypeConst.TLM_REG_INTERFACE 10 "x:3:sideways:foo").payload
      = { aName := "x".toList, dimensions := 3, causality := "sideways".toList,
          domain := "foo".toList } := by decide
  have hrun := processRegInterface_created examplePlatform exampleParams startupRequest 0
    (received TLMMessageTypeConst.TLM_REG_INTERFACE 10 "x:3:sideways:foo") rfl rfl
    (by rw [hparse]; decide)
  rw [hparse] at hrun
  exact ⟨rfl, _, _, _, hrun, rfl, rfl, rfl, by decide, by decide⟩

/-- C26, amended. Every interface that `ProcessRegInterfaceMessage` registers
in interface-request mode (for a name the lookup does not find) has the
dimensions and the causality that the parser yields from the payload; for a
payload without a colon, and for a payload `n:d:c:m` whose d is `1`, `6` or
`3D` and whose c is `bidirectional`, `input` or `output`, the dimensions are 1
or 6 and the causality is one of `bidirectional`, `input`, `output`. -/
theorem registered_shape_follows_payload (P : Platform) (uninit : TLMConnectionParams)
    (self : ManagerCommHandler) (compID : Int) (mess : TLMMessage)
    (hmode : self.CommMode = CommunicationMode.InterfaceRequestMode)
    (hkind : mess.Header.MessageType = TLMMessageTypeConst.TLM_REG_INTERFACE)
    (hid : self.TheModel.GetTLMInterfaceID compID
      (parseInterfaceSpecification mess.payload).aName < 0) :
    ∃ (reply : TLMMessage) (self' : ManagerCommHandler) (ifc : TLMInterfaceProxy),
      ProcessRegInterfaceMessage P uninit self compID mess = .ok (reply, self') ∧
      self'.TheModel.Interfaces = self.TheModel.Interfaces ++ [ifc] ∧
      ifc.Dimensions = (parseInterfaceSpecification mess.payload).dimensions ∧
      ifc.Causality = (parseInterfaceSpecification mess.payload).causality ∧
      (':' ∉ mess.payload →
        ifc.Dimensions = 6 ∧ ifc.Causality = "bidirectional".toList) ∧
      (∀ n d c m : List Char,
        mess.payload = n ++ ':' :: (d ++ ':' :: (c ++ ':' :: m)) →
        ':' ∉ n →
        (d = "1".toList ∨ d = "6".toList ∨ d = "3D".toList) →
        (c = "bidirectional".toList ∨ c = "input".toList ∨ c = "output".toList) →
        (ifc.Dimensions = 1 ∨ ifc.Dimensions = 6) ∧
        (d = "1".toList → ifc.Dimensions = 1) ∧
        ifc.Causality = c) := by
  refine ⟨_, _, _, processRegInterface_created P uninit self compID mess hmode hkind hid,
    rfl, rfl, rfl, ?_, ?_⟩
  · intro hno
    show (parseInterfaceSpecification mess.payload).dimensions = 6 ∧
      (parseInterfaceSpecification mess.payload).causality = "bidirectional".toList
    have hscan := scan_no_colon mess.payload hno
    refine ⟨(parse_defaults mess.payload).2.2 hno, ?_⟩
    simp only [parseInterfaceSpecification, hscan]
    decide
  · intro n d c m hform hn hd hc
    show ((parseInterfaceSpecification mess.payload).dimensions = 1 ∨
        (parseInterfaceSpecification mess.payload).dimensions = 6) ∧
      (d = "1".toList → (parseInterfaceSpecification mess.payload).dimensions = 1) ∧
      (parseInterfaceSpecification mess.payload).causality = c
    have hdc : ':' ∉ d := by
      rcases hd with h | h | h <;> rw [h] <;> decide
    have hcc : ':' ∉ c := by
      rcases hc with h | h | h <;> rw [h] <;> decide
    have hc0 : c ≠ [] := by
      rcases hc with h | h | h <;> rw [h] <;> decide
    have hscan := scan_four_fields n d c m hn hdc hcc
    rw [hform]
    simp only [parseInterfaceSpecification, hscan, if_neg hc0]
    refine ⟨?_, ?_, trivial⟩
    · rcases hd with h | h | h <;> rw [h] <;> decide
    · intro h
      rw [h]
      decide

/-- C26, amended, at the registration of `dynamic:1:input:signal` by component
`A`. -/
theorem registered_shape_follows_payload_witness :
    (startupRequest.CommMode = CommunicationMode.InterfaceRequestMode ∧
      regInterfaceDynamic.Header.MessageType = TLMMessageTypeConst.TLM_REG_INTERFACE ∧
      startupRequest.TheModel.GetTLMInterfaceID 0
        (parseInterfaceSpecification regInterfaceDynamic.payload).aName < 0) ∧
    ∃ (reply : TLMMessage) (self' : ManagerCommHandler) (ifc : TLMInterfaceProxy),
      ProcessRegInterfaceMessage examplePlatform exampleParams startupRequest 0
        regInterfaceDynamic = .ok (reply, self') ∧
      self'.TheModel.Interfaces = startupRequest.TheModel.Interfaces ++ [ifc] ∧
      ifc.Dimensions = (parseInterfaceSpecification regInterfaceDynamic.payload).dimensions ∧
      ifc.Causality = (parseInterfaceSpecification regInterfaceDynamic.payload).causality ∧
      (':' ∉ regInterfaceDynamic.payload →
        ifc.Dimensions = 6 ∧ ifc.Causality = "bidirectional".toList) ∧
      (∀ n d c m : List Char,
        regInterfaceDynamic.payload = n ++ ':' :: (d ++ ':' :: (c ++ ':' :: m)) →
        ':' ∉ n →
        (d = "1".toList ∨ d = "6".toList ∨ d = "3D".toList) →
        (c = "bidirectional".toList ∨ c = "input".toList ∨ c = "output".toList) →
        (ifc.Dimensions = 1 ∨ ifc.Dimensions = 6) ∧
        (d = "1".toList → ifc.Dimensions = 1) ∧
        ifc.Causality = c) :=
  ⟨⟨rfl, rfl, by decide⟩,
    registered_shape_follows_payload examplePlatform exampleParams startupRequest 0
      regInterfaceDynamic rfl rfl (by decide)⟩

theorem set_same {α : Type} :
    ∀ (l : List α) (i : Nat) (x : α), l[i]? = some x → l.set i x = l
  | [], _, _, _ => rfl
  | y :: l, 0, x, h => by
    simp only [List.getElem?_cons_zero, Option.some.injEq] at h
    rw [List.set_cons_zero, h]
  | y :: l, i + 1, x, h => by
    simp only [List.getElem?_cons_succ] at h
    rw [List.set_cons_succ, set_same l i x h]

theorem tableAt_ok_getElem {α : Type} (table : List α) (i : Int) (x : α)
    (h : tableAt table i = .ok x) : table[i.toNat]? = some x := by
  unfold tableAt at h
  by_cases hneg : i < 0
  · simp [hneg] at h
  · simp only [hneg, if_false] at h
    cases hget : table[i.toNat]? with
    | none => simp [hget] at h
    | some y =>
      simp only [hget, Except.ok.injEq] at h
      rw [h]

/-- The two ways in which `SetupInterfaceConnectionMessage` returns. -/
theorem setupInterfaceConnection_cases (P : Platform) (self self' : ManagerCommHandler)
    (IfcID : Int) (mess reply : TLMMessage)
    (h : SetupInterfaceConnectionMessage P self IfcID mess = .ok (reply, self')) :
    ∃ ifc : TLMInterfaceProxy,
      self.TheModel.GetTLMInterfaceProxy IfcID = .ok ifc ∧
      ((ifc.ConnectionID < 0 ∧
          reply = { mess with Header := { mess.Header with TLMInterfaceID := -1 } } ∧
          self' = { self with
            TheModel := self.TheModel.setInterface IfcID { ifc with Connected := true } }) ∨
        (0 ≤ ifc.ConnectionID ∧
          ∃ (conn : TLMConnection) (comp : TLMComponentProxy),
            self.TheModel.GetTLMConnection ifc.ConnectionID = .ok conn ∧
            self.TheModel.GetTLMComponentProxy ifc.ComponentID = .ok comp ∧
            reply = { mess with
              Header := { mess.Header with DataSize := P.sizeofParams }
              Data := P.bytesOf
                { conn.Params with
                  cX_R_cG_cG := comp.cX_R_cG_cG
                  cX_A_cG := comp.cX_A_cG
                  Nom_cI_R_cX_cX := ifc.time0Data3D.Position
                  Nom_cI_A_cX := ifc.time0Data3D.RotMatrix } } ∧
            self' = { self with
              TheModel :=
                (self.TheModel.setInterface IfcID { ifc with Connected := true }).setConnection
                  ifc.ConnectionID
                  { conn with
                    Params :=
                      { conn.Params with
                        cX_R_cG_cG := comp.cX_R_cG_cG
                        cX_A_cG := comp.cX_A_cG
                        Nom_cI_R_cX_cX := ifc.time0Data3D.Position
                        Nom_cI_A_cX := ifc.time0Data3D.RotMatrix } } })) := by
  cases hifc : self.TheModel.GetTLMInterfaceProxy IfcID with
  | error e =>
    unfold SetupInterfaceConnectionMessage at h
    simp only [bind, Except.bind, hifc] at h
    cases h
  | ok ifc =>
    refine ⟨ifc, rfl, ?_⟩
    by_cases hneg : ifc.ConnectionID < 0
    · left
      rw [setupInterfaceConnection_unpaired P self IfcID mess ifc hifc hneg] at h
      injection h with h
      injection h with h1 h2
      exact ⟨hneg, h1.symm, h2.symm⟩
    · right
      have h0 : 0 ≤ ifc.ConnectionID := by omega
      refine ⟨h0, ?_⟩
      cases hconn : self.TheModel.GetTLMConnection ifc.ConnectionID with
      | error e =>
        have hconn' : (self.TheModel.setInterface IfcID
            { ifc with Connected := true }).GetTLMConnection ifc.ConnectionID = .error e := hconn
        unfold SetupInterfaceConnectionMessage at h
        simp only [bind, Except.bind, hifc, pure, Except.pure] at h
        rw [if_neg hneg] at h
        simp only [hconn'] at h
        cases h
      | ok conn =>
        cases hcomp : self.TheModel.GetTLMComponentProxy ifc.ComponentID with
        | error e =>
          have hconn' : (self.TheModel.setInterface IfcID
              { ifc with Connected := true }).GetTLMConnection ifc.ConnectionID = .ok conn := hconn
          have hcomp' : (self.TheModel.setInterface IfcID
              { ifc with Connected := true }).GetTLMComponentProxy ifc.ComponentID = .error e :=
            hcomp
          unfold SetupInterfaceConnectionMessage at h
          simp only [bind, Except.bind, hifc, pure, Except.pure] at h
          rw [if_neg hneg] at h
          simp only [hconn', hcomp'] at h
          cases h
        | ok comp =>
          rw [setupInterfaceConnection_paired P self IfcID mess ifc conn comp hifc h0 hconn
            hcomp] at h
          injection h with h
          injection h with h1 h2
          exact ⟨conn, comp, rfl, rfl, h1.symm, h2.symm⟩

/-- The two ways in which `ProcessInterfaceMonitoringMessage` returns: with -1
for a name that the lookup does not find, and with the id of a connected
interface after `SetupInterfaceConnectionMessage`. -/
theorem processInterfaceMonitoring_cases (P : Platform) (self self' : ManagerCommHandler)
    (message reply : TLMMessage) (id : Int)
    (h : ProcessInterfaceMonitoringMessage P self message = .ok (id, reply, self')) :
    message.Header.MessageType = TLMMessageTypeConst.TLM_REG_INTERFACE ∧
    ((self.TheModel.GetTLMInterfaceID_FullName (monitoredName message.payload) < 0 ∧
        id = -1 ∧ self' = self ∧
        reply = { message with
          Header := { message.Header with
            TLMInterfaceID :=
              self.TheModel.GetTLMInterfaceID_FullName (monitoredName message.payload)
            SourceIsBigEndianSystem := P.IsBigEndianSystem
            DataSize := 0 } }) ∨
      (0 ≤ id ∧
        id = self.TheModel.GetTLMInterfaceID_FullName (monitoredName message.payload) ∧
        ∃ ifc : TLMInterfaceProxy,
          self.TheModel.GetTLMInterfaceProxy id = .ok ifc ∧ ifc.Connected = true ∧
          SetupInterfaceConnectionMessage P self id
            { message with
              Header := { message.Header with
                TLMInterfaceID := id
                SourceIsBigEndianSystem := P.IsBigEndianSystem
                DataSize := 0 } } = .ok (reply, self'))) := by
  unfold ProcessInterfaceMonitoringMessage at h
  by_cases hkind : message.Header.MessageType = TLMMessageTypeConst.TLM_REG_INTERFACE
  · refine ⟨hkind, ?_⟩
    have hk : ¬ message.Header.MessageType ≠ TLMMessageTypeConst.TLM_REG_INTERFACE :=
      fun hne => hne hkind
    simp only [bind, Except.bind, pure, Except.pure] at h
    rw [if_neg hk] at h
    by_cases hneg : self.TheModel.GetTLMInterfaceID_FullName (monitoredName message.payload) < 0
    · left
      rw [if_pos hneg] at h
      injection h with h
      injection h with h1 h2
      injection h2 with h2 h3
      exact ⟨hneg, h1.symm, h3.symm, h2.symm⟩
    · right
      rw [if_neg hneg] at h
      cases hifc : self.TheModel.GetTLMInterfaceProxy
          (self.TheModel.GetTLMInterfaceID_FullName (monitoredName message.payload)) with
      | error e =>
        rw [hifc] at h
        cases h
      | ok ifc =>
        rw [hifc] at h
        dsimp only at h
        by_cases hconn : ifc.Connected = false
        · rw [if_pos hconn] at h
          cases h
        · rw [if_neg hconn] at h
          cases hset : SetupInterfaceConnectionMessage P self
              (self.TheModel.GetTLMInterfaceID_FullName (monitoredName message.payload))
              { message with
                Header := { message.Header with
                  TLMInterfaceID :=
                    self.TheModel.GetTLMInterfaceID_FullName (monitoredName message.payload)
                  SourceIsBigEndianSystem := P.IsBigEndianSystem
                  DataSize := 0 } } with
          | error e =>
            rw [hset] at h
            cases h
          | ok r =>
            obtain ⟨m, s'⟩ := r
            rw [hset] at h
            injection h with h
            injection h with h1 h2
            injection h2 with h2 h3
            subst h1; subst h2; subst h3
            refine ⟨by omega, rfl, ifc, hifc, ?_, hset⟩
            cases hc : ifc.Connected
            · exact absurd hc hconn
            · rfl
  · simp [hkind, throw, throwThe, MonadExceptOf.throw, bind, Except.bind] at h

/-- C25 as stated fails: in the co-simulation run phase, with interface `A.p`
at the time-zero position (1, 0, 0) and the parameter block of connection 0
holding zeros, the registration of a monitor for `A.p` writes the position of
`A.p` into the parameter block of connection 0. -/
theorem monitor_registration_rewrites_parameter_block :
    runPhaseMoved.CommMode = CommunicationMode.CoSimulationMode ∧
    runPhaseMoved.runningMode = RunningMode.RunMode ∧
    ∃ (conn conn' : TLMConnection) (id : Int) (reply : TLMMessage)
      (self' : ManagerCommHandler),
      runPhaseMoved.TheModel.GetTLMConnection 0 = .ok conn ∧
      ProcessInterfaceMonitoringMessage examplePlatform runPhaseMoved
        (received TLMMessageTypeConst.TLM_REG_INTERFACE 7 "A.p") = .ok (id, reply, self') ∧
      id = 0 ∧
      self'.TheModel.GetTLMConnection 0 = .ok conn' ∧
      conn.Params.Nom_cI_R_cX_cX 0 = Double.zero ∧
      conn'.Params.Nom_cI_R_cX_cX 0 = Double.one ∧
      conn'.Params.Nom_cI_R_cX_cX 0 ≠ conn.Params.Nom_cI_R_cX_cX 0 :=
  ⟨rfl, rfl, _, _, _, _, _, rfl, rfl, rfl, rfl, rfl, rfl, by decide⟩

/-- C25, amended. Of the handlers that run after the run phase has begun,
`MarshalMessage` and `ForwardToMonitor` (the co-simulation branch of the
reader) leave the whole model as it was, and the registration handler of the
monitor thread, `ProcessInterfaceMonitoringMessage`, changes no component
proxy, no interface proxy and no parameter proxy; through
`SetupInterfaceConnectionMessage` it writes to the parameter block of the
connection of the interface registered, and only there: the inertial
transformation of the owning component and the time-zero position and rotation
matrix of the interface; every other connection stays as it was. -/
theorem run_phase_handlers_frame (P : Platform) (self : ManagerCommHandler) :
    (∀ (message : TLMMessage) (self' : ManagerCommHandler),
      ReaderThreadRun_forward self message = .ok self' → self'.TheModel = self.TheModel) ∧
    (∀ (message reply : TLMMessage) (self' : ManagerCommHandler),
      ForwardToMonitor self message = .ok (reply, self') → self'.TheModel = self.TheModel) ∧
    (∀ (message reply : TLMMessage) (id : Int) (self' : ManagerCommHandler),
      ProcessInterfaceMonitoringMessage P self message = .ok (id, reply, self') →
      self'.TheModel.Components = self.TheModel.Components ∧
      self'.TheModel.Interfaces = self.TheModel.Interfaces ∧
      self'.TheModel.Parameters = self.TheModel.Parameters ∧
      (id < 0 → self'.TheModel.Connections = self.TheModel.Connections) ∧
      (0 ≤ id →
        ∃ ifc : TLMInterfaceProxy,
          self.TheModel.GetTLMInterfaceProxy id = .ok ifc ∧
          (ifc.ConnectionID < 0 → self'.TheModel.Connections = self.TheModel.Connections) ∧
          (∀ j : Int, j ≠ ifc.ConnectionID →
            self'.TheModel.GetTLMConnection j = self.TheModel.GetTLMConnection j) ∧
          (0 ≤ ifc.ConnectionID →
            ∃ (conn : TLMConnection) (comp : TLMComponentProxy),
              self.TheModel.GetTLMConnection ifc.ConnectionID = .ok conn ∧
              self.TheModel.GetTLMComponentProxy ifc.ComponentID = .ok comp ∧
              self'.TheModel.GetTLMConnection ifc.ConnectionID = .ok
                { conn with
                  Params :=
                    { conn.Params with
                      cX_R_cG_cG := comp.cX_R_cG_cG
                      cX_A_cG := comp.cX_A_cG
                      Nom_cI_R_cX_cX := ifc.time0Data3D.Position
                      Nom_cI_A_cX := ifc.time0Data3D.RotMatrix } }))) := by
  refine ⟨?_, ?_, ?_⟩
  · intro message self' h
    exact (readerThreadRun_forward_frame self self' message h).1
  · intro message reply self' h
    exact (forwardToMonitor_frame self message reply self' h).2.1
  · intro message reply id self' h
    obtain ⟨_, hcase⟩ := processInterfaceMonitoring_cases P self self' message reply id h
    rcases hcase with ⟨_, hid, hself, _⟩ | ⟨h0, _, ifc, hifc, hconnected, hset⟩
    · subst hself
      refine ⟨rfl, rfl, rfl, fun _ => rfl, ?_⟩
      intro h0
      omega
    · have hsame : ({ ifc with Connected := true } : TLMInterfaceProxy) = ifc := by
        cases ifc
        simp only at hconnected
        simp only [hconnected]
      have hkeep : self.TheModel.Interfaces.set id.toNat { ifc with Connected := true }
          = self.TheModel.Interfaces := by
        rw [hsame]
        exact set_same _ _ _ (tableAt_ok_getElem _ _ _ hifc)
      obtain ⟨ifc', hifc', hres⟩ := setupInterfaceConnection_cases P self self' id _ reply hset
      have hi : ifc' = ifc := by
        rw [hifc] at hifc'
        injection hifc' with e
        exact e.symm
      subst hi
      rcases hres with ⟨hneg, _, hs⟩ | ⟨hc0, conn, comp, hconn, hcomp, _, hs⟩
      · subst hs
        refine ⟨rfl, hkeep, rfl, fun hlt => by omega, fun _ => ⟨ifc', hifc, fun _ => rfl,
          fun _ _ => rfl, fun hc0 => by omega⟩⟩
      · subst hs
        obtain ⟨_, hclt⟩ := tableAt_ok_range _ _ _ hconn
        refine ⟨rfl, hkeep, rfl, fun hlt => by omega, fun _ => ⟨ifc', hifc, fun hlt => by omega,
          ?_, fun _ => ⟨conn, comp, hconn, hcomp, ?_⟩⟩⟩
        · intro j hj
          exact tableAt_set_other self.TheModel.Connections ifc'.ConnectionID j _ hc0 hj
        · exact tableAt_set_same self.TheModel.Connections ifc'.ConnectionID _ hc0 hclt

/-- The run of `ProcessInterfaceMonitoringMessage` for the full name of a
connected interface. -/
theorem processInterfaceMonitoring_found (P : Platform) (self self' : ManagerCommHandler)
    (message reply : TLMMessage) (ifc : TLMInterfaceProxy)
    (hkind : message.Header.MessageType = TLMMessageTypeConst.TLM_REG_INTERFACE)
    (hifc : self.TheModel.GetTLMInterfaceProxy
      (self.TheModel.GetTLMInterfaceID_FullName (monitoredName message.payload)) = .ok ifc)
    (hconnected : ifc.Connected = true)
    (hset : SetupInterfaceConnectionMessage P self
      (self.TheModel.GetTLMInterfaceID_FullName (monitoredName message.payload))
      { message with
        Header := { message.Header with
          TLMInterfaceID :=
            self.TheModel.GetTLMInterfaceID_FullName (monitoredName message.payload)
          SourceIsBigEndianSystem := P.IsBigEndianSystem
          DataSize := 0 } } = .ok (reply, self')) :
    ProcessInterfaceMonitoringMessage P self message
      = .ok (self.TheModel.GetTLMInterfaceID_FullName (monitoredName message.payload),
          reply, self') := by
  have hk : ¬ message.Header.MessageType ≠ TLMMessageTypeConst.TLM_REG_INTERFACE :=
    fun hne => hne hkind
  have hneg : ¬ self.TheModel.GetTLMInterfaceID_FullName (monitoredName message.payload) < 0 := by
    have := (tableAt_ok_range _ _ _ hifc).1
    omega
  have hc : ¬ ifc.Connected = false := by
    rw [hconnected]
    decide
  unfold ProcessInterfaceMonitoringMessage
  simp only [bind, Except.bind, pure, Except.pure]
  rw [if_neg hk, if_neg hneg, hifc]
  dsimp only
  rw [if_neg hc, hset]

/-- C21. Let component `compID` register an interface in co-simulation mode
and let a monitor register a full name, both names being found by the model
lookups as the same interface I, connected at the time of the monitor; let
the interface have the same connection and the same time-zero state at both
times and, when it has a connection, let the owning component have the same
inertial transformation and the connection the same `Delay` and `mode` (which
no handler writes).  Then both handlers return and the two replies have the
same header interface id, the same payload length and the same payload bytes. -/
theorem monitor_reply_matches_component_reply (P : Platform) (uninit : TLMConnectionParams)
    (atComp atMon : ManagerCommHandler) (compID : Int) (mess monMess : TLMMessage) (I : Int)
    (ifc1 ifc2 : TLMInterfaceProxy)
    (hmode : atComp.CommMode = CommunicationMode.CoSimulationMode)
    (hkind1 : mess.Header.MessageType = TLMMessageTypeConst.TLM_REG_INTERFACE)
    (hkind2 : monMess.Header.MessageType = TLMMessageTypeConst.TLM_REG_INTERFACE)
    (hI1 : atComp.TheModel.GetTLMInterfaceID compID
      (parseInterfaceSpecification mess.payload).aName = I)
    (hI2 : atMon.TheModel.GetTLMInterfaceID_FullName (monitoredName monMess.payload) = I)
    (hifc1 : atComp.TheModel.GetTLMInterfaceProxy I = .ok ifc1)
    (hifc2 : atMon.TheModel.GetTLMInterfaceProxy I = .ok ifc2)
    (hconnected : ifc2.Connected = true)
    (hconnID : ifc2.ConnectionID = ifc1.ConnectionID)
    (hstate : ifc2.time0Data3D = ifc1.time0Data3D)
    (hpaired : 0 ≤ ifc1.ConnectionID →
      ∃ (conn1 conn2 : TLMConnection) (comp1 comp2 : TLMComponentProxy),
        atComp.TheModel.GetTLMConnection ifc1.ConnectionID = .ok conn1 ∧
        atMon.TheModel.GetTLMConnection ifc1.ConnectionID = .ok conn2 ∧
        atComp.TheModel.GetTLMComponentProxy ifc1.ComponentID = .ok comp1 ∧
        atMon.TheModel.GetTLMComponentProxy ifc2.ComponentID = .ok comp2 ∧
        conn2.Params.Delay = conn1.Params.Delay ∧
        conn2.Params.mode = conn1.Params.mode ∧
        comp2.cX_R_cG_cG = comp1.cX_R_cG_cG ∧
        comp2.cX_A_cG = comp1.cX_A_cG) :
    ∃ (toComp toMon : TLMMessage) (s1 s2 : ManagerCommHandler),
      ProcessRegInterfaceMessage P uninit atComp compID mess = .ok (toComp, s1) ∧
      ProcessInterfaceMonitoringMessage P atMon monMess = .ok (I, toMon, s2) ∧
      toMon.Header.TLMInterfaceID = toComp.Header.TLMInterfaceID ∧
      toMon.Header.DataSize = toComp.Header.DataSize ∧
      toMon.payload = toComp.payload ∧
      (ifc1.ConnectionID < 0 →
        toComp.Header.TLMInterfaceID = -1 ∧ toComp.Header.DataSize = 0) ∧
      (0 ≤ ifc1.ConnectionID →
        toComp.Header.TLMInterfaceID = I ∧ toComp.Header.DataSize = P.sizeofParams) := by
  have hI0 : ¬ I < 0 := by
    have := (tableAt_ok_range _ _ _ hifc1).1
    omega
  have hrun1 := processRegInterface_unfold_cosim P uninit atComp compID mess hmode hkind1
  rw [hI1, if_neg hI0] at hrun1
  subst hI2
  by_cases hneg : ifc1.ConnectionID < 0
  · have hneg2 : ifc2.ConnectionID < 0 := by rw [hconnID]; exact hneg
    have hset1 := setupInterfaceConnection_unpaired P atComp _
      { mess with
        Header := { mess.Header with
          TLMInterfaceID := atMon.TheModel.GetTLMInterfaceID_FullName
            (monitoredName monMess.payload)
          SourceIsBigEndianSystem := P.IsBigEndianSystem
          DataSize := 0 } } ifc1 hifc1 hneg
    have hset2 := setupInterfaceConnection_unpaired P atMon _
      { monMess with
        Header := { monMess.Header with
          TLMInterfaceID := atMon.TheModel.GetTLMInterfaceID_FullName
            (monitoredName monMess.payload)
          SourceIsBigEndianSystem := P.IsBigEndianSystem
          DataSize := 0 } } ifc2 hifc2 hneg2
    refine ⟨_, _, _, _, hrun1.trans hset1,
      processInterfaceMonitoring_found P atMon _ monMess _ ifc2 hkind2 hifc2 hconnected hset2,
      rfl, rfl, ?_, fun _ => ⟨rfl, rfl⟩, fun h0 => by omega⟩
    simp [TLMMessage.payload]
  · have h0 : 0 ≤ ifc1.ConnectionID := by omega
    obtain ⟨conn1, conn2, comp1, comp2, hconn1, hconn2, hcomp1, hcomp2, hD, hm, hR, hA⟩ :=
      hpaired h0
    have h02 : 0 ≤ ifc2.ConnectionID := by rw [hconnID]; exact h0
    have hconn2' : atMon.TheModel.GetTLMConnection ifc2.ConnectionID = .ok conn2 := by
      rw [hconnID]; exact hconn2
    have hset1 := setupInterfaceConnection_paired P atComp _
      { mess with
        Header := { mess.Header with
          TLMInterfaceID := atMon.TheModel.GetTLMInterfaceID_FullName
            (monitoredName monMess.payload)
          SourceIsBigEndianSystem := P.IsBigEndianSystem
          DataSize := 0 } } ifc1 conn1 comp1 hifc1 h0 hconn1 hcomp1
    have hset2 := setupInterfaceConnection_paired P atMon _
      { monMess with
        Header := { monMess.Header with
          TLMInterfaceID := atMon.TheModel.GetTLMInterfaceID_FullName
            (monitoredName monMess.payload)
          SourceIsBigEndianSystem := P.IsBigEndianSystem
          DataSize := 0 } } ifc2 conn2 comp2 hifc2 h02 hconn2' hcomp2
    have hparam : ({ conn2.Params with
          cX_R_cG_cG := comp2.cX_R_cG_cG
          cX_A_cG := comp2.cX_A_cG
          Nom_cI_R_cX_cX := ifc2.time0Data3D.Position
          Nom_cI_A_cX := ifc2.time0Data3D.RotMatrix } : TLMConnectionParams)
        = { conn1.Params with
          cX_R_cG_cG := comp1.cX_R_cG_cG
          cX_A_cG := comp1.cX_A_cG
          Nom_cI_R_cX_cX := ifc1.time0Data3D.Position
          Nom_cI_A_cX := ifc1.time0Data3D.RotMatrix } := by
      simp only [hD, hm, hR, hA, hstate]
    refine ⟨_, _, _, _, hrun1.trans hset1,
      processInterfaceMonitoring_found P atMon _ monMess _ ifc2 hkind2 hifc2 hconnected hset2,
      rfl, rfl, ?_, fun hlt => by omega, fun _ => ⟨rfl, rfl⟩⟩
    simp only [TLMMessage.payload, hparam]

/-- C21 at the registration of `p` by component `B` and the registration of a
monitor for `B.p`. -/
theorem monitor_reply_matches_component_reply_witness :
    (startupCoSim.CommMode = CommunicationMode.CoSimulationMode ∧
      regInterfaceP.Header.MessageType = TLMMessageTypeConst.TLM_REG_INTERFACE ∧
      (received TLMMessageTypeConst.TLM_REG_INTERFACE 7 "B.p").Header.MessageType
        = TLMMessageTypeConst.TLM_REG_INTERFACE ∧
      startupCoSim.TheModel.GetTLMInterfaceID 1
        (parseInterfaceSpecification regInterfaceP.payload).aName = 1 ∧
      runPhaseCoSim.TheModel.GetTLMInterfaceID_FullName
        (monitoredName (received TLMMessageTypeConst.TLM_REG_INTERFACE 7 "B.p").payload) = 1 ∧
      startupCoSim.TheModel.GetTLMInterfaceProxy 1 = .ok ifcBp ∧
      runPhaseCoSim.TheModel.GetTLMInterfaceProxy 1 = .ok ifcBp ∧
      ifcBp.Connected = true ∧ (0 : Int) ≤ ifcBp.ConnectionID) ∧
    ∃ (toComp toMon : TLMMessage) (s1 s2 : ManagerCommHandler),
      ProcessRegInterfaceMessage examplePlatform exampleParams startupCoSim 1 regInterfaceP
        = .ok (toComp, s1) ∧
      ProcessInterfaceMonitoringMessage examplePlatform runPhaseCoSim
        (received TLMMessageTypeConst.TLM_REG_INTERFACE 7 "B.p") = .ok (1, toMon, s2) ∧
      toMon.Header.TLMInterfaceID = toComp.Header.TLMInterfaceID ∧
      toMon.Header.DataSize = toComp.Header.DataSize ∧
      toMon.payload = toComp.payload ∧
      (ifcBp.ConnectionID < 0 →
        toComp.Header.TLMInterfaceID = -1 ∧ toComp.Header.DataSize = 0) ∧
      ((0 : Int) ≤ ifcBp.ConnectionID →
        toComp.Header.TLMInterfaceID = 1 ∧
          toComp.Header.DataSize = examplePlatform.sizeofParams) :=
  ⟨⟨rfl, rfl, rfl, by decide, by decide, rfl, rfl, rfl, by decide⟩,
    monitor_reply_matches_component_reply examplePlatform exampleParams startupCoSim
      runPhaseCoSim 1 regInterfaceP (received TLMMessageTypeConst.TLM_REG_INTERFACE 7 "B.p") 1
      ifcBp ifcBp rfl rfl rfl (by decide) (by decide) rfl rfl rfl rfl rfl
      (fun _ => ⟨_, _, _, _, rfl, rfl, rfl, rfl, rfl, rfl, rfl, rfl⟩)⟩

/-! ### The startup loop and the buffers of the queue -/

theorem countP_set_same {α : Type} (p : α → Bool) :
    ∀ (l : List α) (i : Nat) (x y : α), l[i]? = some y → p x = p y →
      (l.set i x).countP p = l.countP p
  | [], _, _, _, h, _ => by simp at h
  | z :: l, 0, x, y, h, hp => by
    simp only [List.getElem?_cons_zero, Option.some.injEq] at h
    rw [List.set_cons_zero, List.countP_cons, List.countP_cons, hp, h]
  | z :: l, i + 1, x, y, h, hp => by
    simp only [List.getElem?_cons_succ] at h
    rw [List.set_cons_succ, List.countP_cons, List.countP_cons,
      countP_set_same p l i x y h hp]

theorem countP_set_marked {α : Type} (p : α → Bool) :
    ∀ (l : List α) (i : Nat) (x y : α), l[i]? = some y → p y = false → p x = true →
      (l.set i x).countP p = l.countP p + 1
  | [], _, _, _, h, _, _ => by simp at h
  | z :: l, 0, x, y, h, hy, hx => by
    simp only [List.getElem?_cons_zero, Option.some.injEq] at h
    rw [List.set_cons_zero, List.countP_cons, List.countP_cons, hx, h, hy]
    simp
  | z :: l, i + 1, x, y, h, hy, hx => by
    simp only [List.getElem?_cons_succ] at h
    rw [List.set_cons_succ, List.countP_cons, List.countP_cons,
      countP_set_marked p l i x y h hy hx]
    omega

/-- `SetupInterfaceConnectionMessage` leaves the components and the message
queue as they were. -/
theorem setupInterfaceConnection_frame (P : Platform) (self self' : ManagerCommHandler)
    (IfcID : Int) (mess reply : TLMMessage)
    (h : SetupInterfaceConnectionMessage P self IfcID mess = .ok (reply, self')) :
    self'.TheModel.Components = self.TheModel.Components ∧
    self'.MessageQueue = self.MessageQueue := by
  obtain ⟨ifc, _, hres⟩ := setupInterfaceConnection_cases P self self' IfcID mess reply h
  rcases hres with ⟨_, _, hs⟩ | ⟨_, conn, comp, _, _, _, hs⟩
  · subst hs
    exact ⟨rfl, rfl⟩
  · subst hs
    exact ⟨rfl, rfl⟩

/-- `ProcessRegParameterMessage` leaves the components and the message queue
as they were. -/
theorem processRegParameter_frame (P : Platform) (ValueBuf : List Byte)
    (self self' : ManagerCommHandler) (compID : Int) (mess reply : TLMMessage)
    (h : ProcessRegParameterMessage P ValueBuf self compID mess = .ok (reply, self')) :
    self'.TheModel.Components = self.TheModel.Components ∧
    self'.MessageQueue = self.MessageQueue := by
  unfold ProcessRegParameterMessage at h
  simp only [bind, Except.bind, pure, Except.pure] at h
  split_ifs at h
  all_goals first
    | (cases h <;> exact ⟨rfl, rfl⟩)
    | (split at h <;> cases h <;> exact ⟨rfl, rfl⟩)

/-- `ProcessRegInterfaceMessage` leaves the components and the message queue
as they were. -/
theorem processRegInterface_frame (P : Platform) (uninit : TLMConnectionParams)
    (self self' : ManagerCommHandler) (compID : Int) (mess reply : TLMMessage)
    (h : ProcessRegInterfaceMessage P uninit self compID mess = .ok (reply, self')) :
    self'.TheModel.Components = self.TheModel.Components ∧
    self'.MessageQueue = self.MessageQueue := by
  unfold ProcessRegInterfaceMessage at h
  simp only [bind, Except.bind, pure, Except.pure] at h
  split_ifs at h
  all_goals first
    | (cases h <;> exact ⟨rfl, rfl⟩)
    | (split at h
       · have hframe := setupInterfaceConnection_frame P _ self' _ _ reply h
         exact hframe
       · split at h
         · cases h
         · cases h
           exact ⟨rfl, rfl⟩)

/-- `ProcessRegComponentMessage` leaves the message queue as it was and
writes the socket handle of the message into the proxy that the lookup of the
name finds. -/
theorem processRegComponent_frame (self self' : ManagerCommHandler) (mess reply : TLMMessage)
    (h : ProcessRegComponentMessage self mess = .ok (reply, self')) :
    self'.MessageQueue = self.MessageQueue ∧
    ∃ comp : TLMComponentProxy,
      self.TheModel.GetTLMComponentProxy (self.TheModel.GetTLMComponentID mess.payload)
        = .ok comp ∧
      self'.TheModel.Components = self.TheModel.Components.set
        (self.TheModel.GetTLMComponentID mess.payload).toNat
        { comp with SocketHandle := mess.SocketHandle } := by
  unfold ProcessRegComponentMessage at h
  simp only [bind, Except.bind, pure, Except.pure] at h
  split_ifs at h
  all_goals first
    | cases h
    | (split at h
       · cases h
       · rename_i comp hcomp
         cases h
         exact ⟨rfl, comp, hcomp, rfl⟩)

theorem getReadSlot_ok (q q' : TLMMessageQueue) (slot : TLMMessage)
    (h : q.GetReadSlot = .ok (slot, q')) :
    q.FreeSlots = slot :: q'.FreeSlots ∧ q'.SendBuffer = q.SendBuffer ∧
    q'.Terminated = q.Terminated := by
  unfold TLMMessageQueue.GetReadSlot at h
  split at h
  · cases h
  · rename_i s rest hfree
    cases h
    exact ⟨hfree, rfl, rfl⟩

/-- A buffer got with `GetReadSlot` and handed back with `ReleaseSlot` leaves
the number of buffers of the queue as it was. -/
theorem slotCount_release (q q' : TLMMessageQueue) (slot mess : TLMMessage)
    (h : q.GetReadSlot = .ok (slot, q')) :
    slotCount (q'.ReleaseSlot mess) = slotCount q := by
  obtain ⟨hfree, hsend, _⟩ := getReadSlot_ok q q' slot h
  simp only [slotCount, TLMMessageQueue.ReleaseSlot, hfree, hsend, List.length_cons]

/-- A buffer got with `GetReadSlot` and handed back with `PutWriteSlot` leaves
the number of buffers of the queue as it was. -/
theorem slotCount_put (q q' : TLMMessageQueue) (slot mess : TLMMessage)
    (h : q.GetReadSlot = .ok (slot, q')) :
    slotCount (q'.PutWriteSlot mess) = slotCount q := by
  obtain ⟨hfree, hsend, _⟩ := getReadSlot_ok q q' slot h
  simp only [slotCount, TLMMessageQueue.PutWriteSlot, hfree, hsend, List.length_cons,
    List.length_append, List.length_nil]
  omega

theorem startupInvariant_congr (self self' : ManagerCommHandler) (locals locals' : StartupLocals)
    (hc : self'.TheModel.Components = self.TheModel.Components)
    (hn : locals'.numCheckModel = locals.numCheckModel) :
    StartupInvariant (self, locals) → StartupInvariant (self', locals') := by
  intro hinv
  unfold StartupInvariant readyCount at *
  dsimp only at *
  rw [hc, hn]
  exact hinv

/-- Marking a component that is not ready and has a non-negative socket
handle keeps the invariant of the startup loop when `numCheckModel` is
incremented. -/
theorem startupInvariant_mark (self : ManagerCommHandler) (locals : StartupLocals)
    (iSock : Int) (comp : TLMComponentProxy)
    (hcomp : self.TheModel.GetTLMComponentProxy iSock = .ok comp)
    (hneg : ¬ comp.SocketHandle < 0) (hready : ¬ comp.ReadyToSim = true)
    (hinv : StartupInvariant (self, locals)) :
    StartupInvariant
      ({ self with
          TheModel := self.TheModel.setComponent iSock { comp with ReadyToSim := true } },
        { locals with numCheckModel := locals.numCheckModel + 1 }) := by
  have hget := tableAt_ok_getElem _ _ _ hcomp
  have hfalse : comp.ReadyToSim = false := by
    cases hr : comp.ReadyToSim
    · rfl
    · exact absurd hr hready
  obtain ⟨hcount, hhandle⟩ := hinv
  constructor
  · show locals.numCheckModel + 1
      = ((self.TheModel.Components.set iSock.toNat { comp with ReadyToSim := true }).countP
          (fun c => c.ReadyToSim) : Nat)
    rw [countP_set_marked (fun c : TLMComponentProxy => c.ReadyToSim) _ _ _ comp hget hfalse rfl]
    have hcount' : locals.numCheckModel
        = (self.TheModel.Components.countP (fun c => c.ReadyToSim) : Nat) := hcount
    rw [hcount']
    push_cast
    rfl
  · intro c hc hr
    have hc' : c ∈ self.TheModel.Components.set iSock.toNat { comp with ReadyToSim := true } := hc
    rcases List.mem_or_eq_of_mem_set hc' with hmem | heq
    · exact hhandle c hmem hr
    · rw [heq]
      show 0 ≤ comp.SocketHandle
      omega

/-- One visit of the loop over the components in the startup loop: the buffer
it takes is handed back, the counter `numToRegister` stays, and the invariant
of the loop is kept. -/
theorem startup_visit_spec (P : Platform) (uninit : TLMConnectionParams)
    (ValueBuf : List Byte) (self self' : ManagerCommHandler) (locals locals' : StartupLocals)
    (iSock : Int) (event : SocketEvent)
    (h : RunStartupProtocol_visit P uninit ValueBuf (self, locals) iSock event
      = .ok (self', locals')) :
    slotCount self'.MessageQueue = slotCount self.MessageQueue ∧
    self'.TheModel.Components.length = self.TheModel.Components.length ∧
    locals'.numToRegister = locals.numToRegister ∧
    (StartupInvariant (self, locals) → StartupInvariant (self', locals')) := by
  unfold RunStartupProtocol_visit at h
  simp only [bind, Except.bind, pure, Except.pure] at h
  cases hcomp : self.TheModel.GetTLMComponentProxy iSock with
  | error e =>
    rw [hcomp] at h
    cases h
  | ok comp =>
    rw [hcomp] at h
    dsimp only at h
    by_cases hneg : comp.SocketHandle < 0
    · rw [if_pos hneg] at h
      cases h
      exact ⟨rfl, rfl, rfl, id⟩
    · rw [if_neg hneg] at h
      by_cases hready : comp.ReadyToSim = true
      · rw [if_pos hready] at h
        cases h
        exact ⟨rfl, rfl, rfl, id⟩
      · rw [if_neg hready] at h
        by_cases hnodata : event = SocketEvent.noData
        · rw [if_pos hnodata] at h
          cases h
          exact ⟨rfl, rfl, rfl, id⟩
        · rw [if_neg hnodata] at h
          cases hq : self.MessageQueue.GetReadSlot with
          | error e =>
            rw [hq] at h
            cases h
          | ok r =>
            obtain ⟨slot, q⟩ := r
            rw [hq] at h
            dsimp only at h
            split_ifs at h with hcheck hpar
            · cases h
              refine ⟨slotCount_release _ _ slot _ hq, ?_, rfl,
                startupInvariant_mark self locals iSock comp hcomp hneg hready⟩
              simp [CompositeModel.setComponent]
            · split at h
              · cases h
              · rename_i v hv
                obtain ⟨reply, s⟩ := v
                cases h
                obtain ⟨hc, hmq⟩ := processRegParameter_frame P ValueBuf _ s iSock _ reply hv
                refine ⟨?_, ?_, rfl, startupInvariant_congr self _ locals locals hc rfl⟩
                · show slotCount (s.MessageQueue.PutWriteSlot reply) = _
                  rw [hmq]
                  exact slotCount_put _ _ slot _ hq
                · show s.TheModel.Components.length = _
                  rw [hc]
            · split at h
              · cases h
              · rename_i v hv
                obtain ⟨reply, s⟩ := v
                cases h
                obtain ⟨hc, hmq⟩ := processRegInterface_frame P uninit _ s iSock _ reply hv
                refine ⟨?_, ?_, rfl, startupInvariant_congr self _ locals locals hc rfl⟩
                · show slotCount (s.MessageQueue.PutWriteSlot reply) = _
                  rw [hmq]
                  exact slotCount_put _ _ slot _ hq
                · show s.TheModel.Components.length = _
                  rw [hc]

/-- One round of the loop over the components in the startup loop. -/
theorem startup_round_spec (P : Platform) (uninit : TLMConnectionParams)
    (ValueBuf : List Byte) (sockets : Int → SocketEvent) :
    ∀ (indices : List Int) (self self' : ManagerCommHandler) (locals locals' : StartupLocals),
      RunStartupProtocol_round P uninit ValueBuf sockets indices (self, locals)
        = .ok (self', locals') →
      slotCount self'.MessageQueue = slotCount self.MessageQueue ∧
      self'.TheModel.Components.length = self.TheModel.Components.length ∧
      locals'.numToRegister = locals.numToRegister ∧
      (StartupInvariant (self, locals) → StartupInvariant (self', locals'))
  | [], self, self', locals, locals', h => by
    simp only [RunStartupProtocol_round, pure, Except.pure] at h
    cases h
    exact ⟨rfl, rfl, rfl, id⟩
  | i :: rest, self, self', locals, locals', h => by
    simp only [RunStartupProtocol_round, bind, Except.bind] at h
    cases hv : RunStartupProtocol_visit P uninit ValueBuf (self, locals) i (sockets i) with
    | error e =>
      rw [hv] at h
      cases h
    | ok st1 =>
      obtain ⟨s1, l1⟩ := st1
      rw [hv] at h
      obtain ⟨a1, b1, c1, d1⟩ := startup_visit_spec P uninit ValueBuf self s1 locals l1 i _ hv
      obtain ⟨a2, b2, c2, d2⟩ :=
        startup_round_spec P uninit ValueBuf sockets rest s1 self' l1 locals' h
      exact ⟨a2.trans a1, b2.trans b1, c2.trans c1, fun hinv => d2 (d1 hinv)⟩

/-- The check for a new connection in the startup loop: the buffer it takes
is handed back and, the handle of the accepted socket being non-negative, the
invariant of the loop is kept. -/
theorem startup_accept_spec (self self' : ManagerCommHandler) (locals locals' : StartupLocals)
    (accepted : Option (Int × SocketEvent))
    (h : RunStartupProtocol_accept (self, locals) accepted = .ok (self', locals')) :
    slotCount self'.MessageQueue = slotCount self.MessageQueue ∧
    self'.TheModel.Components.length = self.TheModel.Components.length ∧
    ((∀ (hdl : Int) (event : SocketEvent), accepted = some (hdl, event) → 0 ≤ hdl) →
      StartupInvariant (self, locals) → StartupInvariant (self', locals')) := by
  unfold RunStartupProtocol_accept at h
  cases accepted with
  | none =>
    simp only [pure, Except.pure] at h
    cases h
    exact ⟨rfl, rfl, fun _ => id⟩
  | some a =>
    obtain ⟨hdl, event⟩ := a
    simp only [bind, Except.bind, pure, Except.pure] at h
    by_cases hnum : locals.numToRegister > 0
    · rw [if_pos hnum] at h
      cases hq : self.MessageQueue.GetReadSlot with
      | error e =>
        rw [hq] at h
        cases h
      | ok r =>
        obtain ⟨slot, q⟩ := r
        rw [hq] at h
        dsimp only at h
        cases event with
        | noData => cases h
        | readFailed => cases h
        | received Header Data =>
          dsimp only at h
          split at h
          · cases h
          · rename_i v hv
            obtain ⟨reply, s⟩ := v
            cases h
            obtain ⟨hmq, comp, hcomp, hset⟩ := processRegComponent_frame _ s _ reply hv
            have hget := tableAt_ok_getElem _ _ _ hcomp
            refine ⟨?_, ?_, ?_⟩
            · show slotCount (s.MessageQueue.PutWriteSlot reply) = _
              rw [hmq]
              exact slotCount_put _ _ slot _ hq
            · show s.TheModel.Components.length = _
              rw [hset, List.length_set]
            · intro hhandle
              have h0 : 0 ≤ hdl := hhandle hdl _ rfl
              rintro ⟨hcount, hready⟩
              constructor
              · show locals.numCheckModel
                  = ((s.TheModel.Components.countP (fun c => c.ReadyToSim) : Nat) : Int)
                have hcnt := countP_set_same (fun c : TLMComponentProxy => c.ReadyToSim) _ _
                  { comp with SocketHandle := hdl } comp hget rfl
                rw [hset]
                exact hcount.trans (congrArg (fun n : Nat => (n : Int)) hcnt.symm)
              · intro c hc hr
                have hc' : c ∈ s.TheModel.Components := hc
                rw [hset] at hc'
                rcases List.mem_or_eq_of_mem_set hc' with hmem | heq
                · exact hready c hmem hr
                · rw [heq]
                  exact h0
    · rw [if_neg hnum] at h
      cases h
      exact ⟨rfl, rfl, fun _ => id⟩

/-- One round of the startup loop. -/
theorem startup_iteration_spec (P : Platform) (uninit : TLMConnectionParams)
    (ValueBuf : List Byte) (acceptSocket : Int) (round : StartupRound)
    (self self' : ManagerCommHandler) (locals locals' : StartupLocals)
    (h : RunStartupProtocol_iteration P uninit ValueBuf acceptSocket round (self, locals)
      = .ok (self', locals')) :
    slotCount self'.MessageQueue = slotCount self.MessageQueue ∧
    self'.TheModel.Components.length = self.TheModel.Components.length ∧
    ((∀ (hdl : Int) (event : SocketEvent), round.accepted = some (hdl, event) → 0 ≤ hdl) →
      StartupInvariant (self, locals) → StartupInvariant (self', locals')) := by
  unfold RunStartupProtocol_iteration at h
  simp only [bind, Except.bind, pure, Except.pure] at h
  by_cases ht : round.timedOut = true
  · rw [if_pos ht] at h
    cases h
  · rw [if_neg ht] at h
    split at h
    · cases h
    · rename_i st1 hr
      obtain ⟨s1, l1⟩ := st1
      split at h
      · cases h
      · rename_i st2 ha
        obtain ⟨s2, l2⟩ := st2
        obtain ⟨a1, b1, _, d1⟩ := startup_round_spec P uninit ValueBuf round.sockets _ _ s1
          locals l1 hr
        obtain ⟨a2, b2, d2⟩ := startup_accept_spec s1 s2 l1 l2 round.accepted ha
        have hfirst : StartupInvariant (self, locals) → StartupInvariant (s1, l1) :=
          fun hinv => d1 hinv
        split_ifs at h
        · cases h
          exact ⟨a2.trans a1, b2.trans b1, fun hh hinv => d2 hh (hfirst hinv)⟩
        · cases h
          exact ⟨a2.trans a1, b2.trans b1, fun hh hinv => d2 hh (hfirst hinv)⟩

/-- The startup loop, when it has ended: the number of buffers of the queue
and the number of components are as before, the invariant of the loop is kept
and the condition of the loop is false. -/
theorem startup_loop_spec (P : Platform) (uninit : TLMConnectionParams)
    (ValueBuf : List Byte) (acceptSocket : Int) :
    ∀ (rounds : List StartupRound) (self self' : ManagerCommHandler)
      (locals locals' : StartupLocals),
      RunStartupProtocol_loop P uninit ValueBuf acceptSocket rounds (self, locals)
        = .ok (self', locals') →
      slotCount self'.MessageQueue = slotCount self.MessageQueue ∧
      self'.TheModel.Components.length = self.TheModel.Components.length ∧
      ((∀ round ∈ rounds, ∀ (hdl : Int) (event : SocketEvent),
          round.accepted = some (hdl, event) → 0 ≤ hdl) →
        StartupInvariant (self, locals) → StartupInvariant (self', locals')) ∧
      startupLoopCondition (self', locals') = false
  | [], self, self', locals, locals', h => by
    unfold RunStartupProtocol_loop at h
    by_cases hcond : startupLoopCondition (self, locals) = true
    · rw [if_pos hcond] at h
      cases h
    · rw [if_neg hcond] at h
      cases h
      exact ⟨rfl, rfl, fun _ => id, by simpa using hcond⟩
  | round :: rest, self, self', locals, locals', h => by
    unfold RunStartupProtocol_loop at h
    by_cases hcond : startupLoopCondition (self, locals) = true
    · rw [if_pos hcond] at h
      simp only [bind, Except.bind] at h
      cases hi : RunStartupProtocol_iteration P uninit ValueBuf acceptSocket round
          (self, locals) with
      | error e =>
        rw [hi] at h
        cases h
      | ok st1 =>
        obtain ⟨s1, l1⟩ := st1
        rw [hi] at h
        obtain ⟨a1, b1, d1⟩ := startup_iteration_spec P uninit ValueBuf acceptSocket round
          self s1 locals l1 hi
        obtain ⟨a2, b2, d2, e2⟩ := startup_loop_spec P uninit ValueBuf acceptSocket rest
          s1 self' l1 locals' h
        exact ⟨a2.trans a1, b2.trans b1,
          fun hhandle hinv =>
            d2 (fun r hr => hhandle r (List.mem_cons_of_mem round hr))
              (d1 (hhandle round (List.mem_cons_self round rest)) hinv),
          e2⟩
    · rw [if_neg hcond] at h
      cases h
      exact ⟨rfl, rfl, fun _ => id, by simpa using hcond⟩

/-- C24. Let no component be marked ready at the entry of
`RunStartupProtocol` and let the handles of the accepted sockets be
non-negative.  Then `numCheckModel` is the number of component proxies marked
ready at the entry of the loop, every round of the loop keeps this and keeps
that a proxy marked ready has a non-negative socket handle, and when the loop
has ended with its condition false, both hold, so that every component proxy
is marked ready and has a non-negative socket handle. -/
theorem startup_exit_means_all_ready (P : Platform) (uninit : TLMConnectionParams)
    (ValueBuf : List Byte) (acceptSocket : Int) (rounds : List StartupRound)
    (self0 self : ManagerCommHandler) (locals : StartupLocals)
    (hentry : ∀ comp ∈ self0.TheModel.Components, comp.ReadyToSim = false)
    (haccept : ∀ round ∈ rounds, ∀ (hdl : Int) (event : SocketEvent),
      round.accepted = some (hdl, event) → 0 ≤ hdl)
    (hrun : RunStartupProtocol P uninit ValueBuf acceptSocket rounds self0
      = .ok (self, locals)) :
    (0 : Int) = readyCount self0.TheModel ∧
    (∀ (round : StartupRound) (s s' : ManagerCommHandler) (l l' : StartupLocals),
      (∀ (hdl : Int) (event : SocketEvent), round.accepted = some (hdl, event) → 0 ≤ hdl) →
      l.numCheckModel = readyCount s.TheModel →
      (∀ comp ∈ s.TheModel.Components, comp.ReadyToSim = true → 0 ≤ comp.SocketHandle) →
      RunStartupProtocol_iteration P uninit ValueBuf acceptSocket round (s, l) = .ok (s', l') →
      l'.numCheckModel = readyCount s'.TheModel ∧
      (∀ comp ∈ s'.TheModel.Components, comp.ReadyToSim = true → 0 ≤ comp.SocketHandle)) ∧
    locals.numCheckModel = readyCount self.TheModel ∧
    ¬ (locals.numToRegister > 0 ∨
      locals.numCheckModel < self.TheModel.GetComponentsNum) ∧
    (∀ comp ∈ self.TheModel.Components,
      comp.ReadyToSim = true ∧ 0 ≤ comp.SocketHandle) := by
  have hzero : readyCount self0.TheModel = 0 := by
    unfold readyCount
    rw [List.countP_eq_zero]
    intro comp hc
    rw [hentry comp hc]
    decide
  have hinit : StartupInvariant
      ({ self0 with Comm := self0.Comm.AddActiveSocket acceptSocket },
        { numToRegister := self0.TheModel.GetComponentsNum, numCheckModel := 0 }) := by
    constructor
    · show (0 : Int) = ((readyCount self0.TheModel : Nat) : Int)
      rw [hzero]
      rfl
    · intro comp hc hr
      have hc' : comp ∈ self0.TheModel.Components := hc
      rw [hentry comp hc'] at hr
      cases hr
  obtain ⟨_, _, hkeep, hcond⟩ := startup_loop_spec P uninit ValueBuf acceptSocket rounds _ self
    _ locals hrun
  obtain ⟨hcount, hhandle⟩ := hkeep haccept hinit
  have hcond' : ¬ (locals.numToRegister > 0 ∨
      locals.numCheckModel < self.TheModel.GetComponentsNum) := by
    unfold startupLoopCondition at hcond
    simpa using hcond
  have hcount' : locals.numCheckModel
      = ((self.TheModel.Components.countP (fun c => c.ReadyToSim) : Nat) : Int) := hcount
  have hall : self.TheModel.Components.countP (fun c => c.ReadyToSim)
      = self.TheModel.Components.length := by
    have hle := List.countP_le_length (fun c : TLMComponentProxy => c.ReadyToSim)
      (l := self.TheModel.Components)
    have hge : ¬ locals.numCheckModel < (self.TheModel.Components.length : Int) :=
      fun hlt => hcond' (Or.inr hlt)
    omega
  refine ⟨by rw [hzero]; rfl, ?_, hcount, hcond', ?_⟩
  · intro round s s' l l' hh hc hr hi
    exact (startup_iteration_spec P uninit ValueBuf acceptSocket round s s' l l' hi).2.2 hh
      ⟨hc, hr⟩
  · intro comp hc
    have hr : comp.ReadyToSim = true := (List.countP_eq_length.mp hall) comp hc
    exact ⟨hr, hhandle comp hc hr⟩

/-- C24 at the startup of the two components `A` and `B`. -/
theorem startup_exit_means_all_ready_witness :
    ((∀ comp ∈ beforeStartup.TheModel.Components, comp.ReadyToSim = false) ∧
      (∀ round ∈ startupRounds, ∀ (hdl : Int) (event : SocketEvent),
        round.accepted = some (hdl, event) → 0 ≤ hdl) ∧
      RunStartupProtocol examplePlatform exampleParams staleValueBuf 3 startupRounds
        beforeStartup = .ok (afterStartup.1, afterStartup.2)) ∧
    afterStartup.2 = { numToRegister := 0, numCheckModel := 2 } ∧
    afterStartup.1.TheModel.Components.map (fun comp => (comp.SocketHandle, comp.ReadyToSim))
      = [(10, true), (11, true)] ∧
    (0 : Int) = readyCount beforeStartup.TheModel ∧
    (∀ (round : StartupRound) (s s' : ManagerCommHandler) (l l' : StartupLocals),
      (∀ (hdl : Int) (event : SocketEvent), round.accepted = some (hdl, event) → 0 ≤ hdl) →
      l.numCheckModel = readyCount s.TheModel →
      (∀ comp ∈ s.TheModel.Components, comp.ReadyToSim = true → 0 ≤ comp.SocketHandle) →
      RunStartupProtocol_iteration examplePlatform exampleParams staleValueBuf 3 round (s, l)
        = .ok (s', l') →
      l'.numCheckModel = readyCount s'.TheModel ∧
      (∀ comp ∈ s'.TheModel.Components, comp.ReadyToSim = true → 0 ≤ comp.SocketHandle)) ∧
    afterStartup.2.numCheckModel = readyCount afterStartup.1.TheModel ∧
    ¬ (afterStartup.2.numToRegister > 0 ∨
      afterStartup.2.numCheckModel < afterStartup.1.TheModel.GetComponentsNum) ∧
    (∀ comp ∈ afterStartup.1.TheModel.Components,
      comp.ReadyToSim = true ∧ 0 ≤ comp.SocketHandle) :=
  have hentry : ∀ comp ∈ beforeStartup.TheModel.Components, comp.ReadyToSim = false := by
    decide
  have haccept : ∀ round ∈ startupRounds, ∀ (hdl : Int) (event : SocketEvent),
      round.accepted = some (hdl, event) → 0 ≤ hdl := by
    intro round hr hdl event he
    simp only [startupRounds, List.mem_cons, List.mem_singleton, List.not_mem_nil,
      or_false] at hr
    rcases hr with h | h | h <;> rw [h] at he <;> simp at he <;> omega
  ⟨⟨hentry, haccept, rfl⟩, by decide, by decide,
    startup_exit_means_all_ready examplePlatform exampleParams staleValueBuf 3 startupRounds
      beforeStartup afterStartup.1 afterStartup.2 hentry haccept rfl⟩

/-- `UnpackAndStoreTimeData` leaves the message queue as it was. -/
theorem unpackAndStoreTimeData_queue (P : Platform) (L : TimeDataLayout)
    (self self' : ManagerCommHandler) (message message' : TLMMessage)
    (h : UnpackAndStoreTimeData P L self message = .ok (message', self')) :
    self'.MessageQueue = self.MessageQueue := by
  unfold UnpackAndStoreTimeData at h
  simp only [bind, Except.bind, pure, Except.pure] at h
  by_cases hkind : message.Header.MessageType = TLMMessageTypeConst.TLM_TIME_DATA
  · simp only [hkind, ne_eq, not_true_eq_false, if_false] at h
    cases hip : self.TheModel.GetTLMInterfaceProxy message.Header.TLMInterfaceID with
    | error e => simp [hip] at h
    | ok ip =>
      simp only [hip] at h
      by_cases c6 : ip.Dimensions = 6 ∧ ip.Causality = "bidirectional".toList
      · simp only [c6, and_self, if_true] at h
        by_cases hs : (swapIfNeeded P message).Data.length < L.sizeof3D
        · simp [hs, throw, throwThe, MonadExceptOf.throw] at h
        · simp only [hs, if_false] at h
          cases h
          rfl
      · by_cases c1 : ip.Dimensions = 1 ∧ ip.Causality = "bidirectional".toList
        · simp only [c6, c1, and_self, if_true, if_false] at h
          by_cases hs : (swapIfNeeded P message).Data.length < L.sizeof1D
          · simp [hs, throw, throwThe, MonadExceptOf.throw] at h
          · simp only [hs, if_false] at h
            cases h
            rfl
        · simp only [c6, c1, if_false] at h
          cases h
          rfl
  · simp [hkind, throw, throwThe, MonadExceptOf.throw, pure, Except.pure] at h

/-- The loop over `closedSockets` after the run phase leaves the message
queue as it was. -/
theorem permissionLoop_queue (fresh : TLMMessage) :
    ∀ (indices : List Int) (self self' : ManagerCommHandler) (sent sent' : List TLMMessage),
      permissionLoop fresh indices self sent = .ok (self', sent') →
      self'.MessageQueue = self.MessageQueue
  | [], self, self', sent, sent', h => by
    simp only [permissionLoop, pure, Except.pure] at h
    cases h
    rfl
  | i :: rest, self, self', sent, sent', h => by
    simp only [permissionLoop, bind, Except.bind] at h
    split at h
    · cases h
    · rename_i comp hcomp
      have ih := permissionLoop_queue fresh rest _ self' _ sent' h
      exact ih

theorem publishedTimeData_of_eq (q q' : TLMMessageQueue) (h : q'.SendBuffer = q.SendBuffer) :
    publishedTimeData q q' := by
  refine ⟨[], ?_, ?_⟩
  · rw [h, List.append_nil]
  · intro m hm
    cases hm

theorem publishedTimeData_trans (q1 q2 q3 : TLMMessageQueue)
    (h12 : publishedTimeData q1 q2) (h23 : publishedTimeData q2 q3) :
    publishedTimeData q1 q3 := by
  obtain ⟨m1, e1, k1⟩ := h12
  obtain ⟨m2, e2, k2⟩ := h23
  refine ⟨m1 ++ m2, ?_, ?_⟩
  · rw [e2, e1, List.append_assoc]
  · intro m hm
    rcases List.mem_append.mp hm with h | h
    · exact k1 m h
    · exact k2 m h

theorem publishedTimeData_put (q : TLMMessageQueue) (mess : TLMMessage)
    (hk : mess.Header.MessageType = TLMMessageTypeConst.TLM_TIME_DATA) :
    publishedTimeData q (q.PutWriteSlot mess) := by
  refine ⟨[mess], rfl, ?_⟩
  intro m hm
  rw [List.mem_singleton] at hm
  rw [hm]
  exact hk

/-- A message that `MarshalMessage` returns has the kind `TIME_DATA`. -/
theorem marshalMessage_kind (TheModel : CompositeModel) (message routed : TLMMessage)
    (h : MarshalMessage TheModel message = .ok routed) :
    routed.Header.MessageType = TLMMessageTypeConst.TLM_TIME_DATA := by
  unfold MarshalMessage at h
  simp only [bind, Except.bind, pure, Except.pure] at h
  split at h
  · cases h
  · rename_i src hsrc
    by_cases hkind : message.Header.MessageType = TLMMessageTypeConst.TLM_TIME_DATA
    · simp only [hkind, ne_eq, not_true_eq_false, if_false] at h
      by_cases hdest : src.LinkedID < 0
      · rw [if_pos hdest] at h
        cases h
        rfl
      · rw [if_neg hdest] at h
        split at h
        · cases h
        · split at h
          · cases h
          · cases h
            rfl
    · simp [hkind, throw, throwThe, MonadExceptOf.throw] at h

/-- The loop of `ForwardToMonitor` for a `TIME_DATA` message publishes
messages of that kind only, behind what was published. -/
theorem forwardLoop_published (I : Int) (message : TLMMessage)
    (hk : message.Header.MessageType = TLMMessageTypeConst.TLM_TIME_DATA) :
    ∀ (handles : List Int) (q q' : TLMMessageQueue),
      forwardLoop I message handles q = .ok q' → publishedTimeData q q'
  | [], q, q', h => by
    simp only [forwardLoop, pure, Except.pure] at h
    cases h
    exact publishedTimeData_of_eq _ _ rfl
  | hdl :: rest, q, q', h => by
    simp only [forwardLoop, bind, Except.bind] at h
    split at h
    · cases h
    · rename_i r hq
      obtain ⟨slot, q1⟩ := r
      have ih := forwardLoop_published I message hk rest _ q' h
      have hget := (getReadSlot_ok q q1 slot hq).2.1
      have hkind : (monitorCopy I message hdl slot).Header.MessageType
          = TLMMessageTypeConst.TLM_TIME_DATA := by
        rw [monitorCopy_header]
        exact hk
      exact publishedTimeData_trans _ _ _
        (publishedTimeData_trans _ _ _ (publishedTimeData_of_eq q q1 hget)
          (publishedTimeData_put q1 _ hkind)) ih

/-- `ForwardToMonitor` publishes `TIME_DATA` messages only. -/
theorem forwardToMonitor_published (self self' : ManagerCommHandler)
    (message message' : TLMMessage)
    (h : ForwardToMonitor self message = .ok (message', self')) :
    publishedTimeData self.MessageQueue self'.MessageQueue := by
  unfold ForwardToMonitor at h
  by_cases hdisc : self.MonitorsDisconnected = true
  · simp only [hdisc, if_true, pure, Except.pure, bind, Except.bind] at h
    cases h
    exact publishedTimeData_of_eq _ _ rfl
  · simp only [hdisc, bind, Except.bind] at h
    cases hifc : self.TheModel.GetTLMInterfaceProxy message.Header.TLMInterfaceID with
    | error e => simp [hifc, pure, Except.pure] at h
    | ok ifc =>
      simp only [hifc] at h
      by_cases hcount : (equalRange self.monitorInterfaceMap ifc.LinkedID).length > 0
      · simp only [hcount, if_true] at h
        by_cases hkind : message.Header.MessageType = TLMMessageTypeConst.TLM_TIME_DATA
        · simp only [hkind, ne_eq, not_true_eq_false, if_false, pure, Except.pure] at h
          cases hloop : forwardLoop ifc.LinkedID message
              (equalRange self.monitorInterfaceMap ifc.LinkedID) self.MessageQueue with
          | error e => simp [hloop] at h
          | ok q =>
            simp only [hloop] at h
            cases h
            exact forwardLoop_published _ _ hkind _ _ _ hloop
        · simp [hkind, throw, throwThe, MonadExceptOf.throw, pure, Except.pure] at h
      · simp only [hcount, if_false, pure, Except.pure] at h
        cases h
        exact publishedTimeData_of_eq _ _ rfl

/-- The co-simulation branch of the reader publishes `TIME_DATA` messages
only. -/
theorem readerThreadRun_forward_published (self self' : ManagerCommHandler)
    (message : TLMMessage) (h : ReaderThreadRun_forward self message = .ok self') :
    publishedTimeData self.MessageQueue self'.MessageQueue := by
  unfold ReaderThreadRun_forward at h
  simp only [bind, Except.bind, pure, Except.pure] at h
  split at h
  · cases h
  · rename_i routed hm
    split at h
    · cases h
    · rename_i r hf
      obtain ⟨m', s1⟩ := r
      cases h
      have hkind := marshalMessage_kind _ _ _ hm
      have hsame : m' = routed := (forwardToMonitor_frame self routed m' s1 hf).1
      have h1 := forwardToMonitor_published self s1 routed m' hf
      have h2 : publishedTimeData s1.MessageQueue (s1.MessageQueue.PutWriteSlot m') :=
        publishedTimeData_put _ _ (by rw [hsame]; exact hkind)
      exact publishedTimeData_trans _ _ _ h1 h2

/-- The interface-request branch of the reader publishes nothing. -/
theorem readerThreadRun_store_published (P : Platform) (L : TimeDataLayout)
    (self self' : ManagerCommHandler) (message : TLMMessage)
    (h : ReaderThreadRun_store P L self message = .ok self') :
    publishedTimeData self.MessageQueue self'.MessageQueue := by
  unfold ReaderThreadRun_store at h
  simp only [bind, Except.bind, pure, Except.pure] at h
  split at h
  · cases h
  · rename_i r hu
    obtain ⟨m', s1⟩ := r
    cases h
    apply publishedTimeData_of_eq
    show (s1.MessageQueue.ReleaseSlot m').SendBuffer = _
    rw [unpackAndStoreTimeData_queue P L self s1 message m' hu]
    rfl

/-- One visit of the run-phase loop publishes `TIME_DATA` messages only. -/
theorem visit_published (P : Platform) (L : TimeDataLayout) (self self' : ManagerCommHandler)
    (locals locals' : RunPhaseLocals) (iSock : Int) (event : SocketEvent)
    (h : ReaderThreadRun_visit P L (self, locals) iSock event = .ok (self', locals')) :
    publishedTimeData self.MessageQueue self'.MessageQueue := by
  unfold ReaderThreadRun_visit at h
  simp only [bind, Except.bind, pure, Except.pure] at h
  cases hcomp : self.TheModel.GetTLMComponentProxy iSock with
  | error e => simp [hcomp] at h
  | ok comp =>
    simp only [hcomp] at h
    by_cases hcond : iSock ∉ locals.closedSockets ∧ comp.SocketHandle ≠ 0 ∧
        event ≠ SocketEvent.noData
    · rw [if_pos hcond] at h
      cases hslot : self.MessageQueue.GetReadSlot with
      | error e => simp [hslot] at h
      | ok r =>
        obtain ⟨slot, q⟩ := r
        have hq : publishedTimeData self.MessageQueue q :=
          publishedTimeData_of_eq _ _ (getReadSlot_ok _ _ _ hslot).2.1
        simp only [hslot] at h
        cases event with
        | noData => exact absurd rfl hcond.2.2
        | readFailed =>
          simp only at h
          cases h
          exact publishedTimeData_of_eq _ _ (getReadSlot_ok _ _ _ hslot).2.1
        | received Header Data =>
          simp only at h
          by_cases hclose : Header.MessageType = TLMMessageTypeConst.TLM_CLOSE_REQUEST
          · simp only [hclose, if_true] at h
            cases h
            exact publishedTimeData_of_eq _ _ (getReadSlot_ok _ _ _ hslot).2.1
          · simp only [hclose, if_false] at h
            by_cases hmode : self.CommMode = CommunicationMode.CoSimulationMode
            · rw [if_pos hmode] at h
              cases hfwd : ReaderThreadRun_forward { self with MessageQueue := q }
                  { slot with SocketHandle := comp.SocketHandle, Header := Header, Data := Data } with
              | error e =>
                rw [hfwd] at h
                cases h
              | ok s1 =>
                rw [hfwd] at h
                cases h
                have hs := readerThreadRun_forward_published _ _ _ hfwd
                exact publishedTimeData_trans _ _ _ hq hs
            · rw [if_neg hmode] at h
              cases hst : ReaderThreadRun_store P L { self with MessageQueue := q }
                  { slot with SocketHandle := comp.SocketHandle, Header := Header, Data := Data } with
              | error e =>
                rw [hst] at h
                cases h
              | ok s1 =>
                rw [hst] at h
                cases h
                have hs := readerThreadRun_store_published _ _ _ _ _ hst
                exact publishedTimeData_trans _ _ _ hq hs
    · rw [if_neg hcond] at h
      cases h
      exact publishedTimeData_of_eq _ _ rfl

/-- One round of the run-phase loop publishes `TIME_DATA` messages only. -/
theorem round_published (P : Platform) (L : TimeDataLayout) (round : Int → SocketEvent) :
    ∀ (indices : List Int) (self self' : ManagerCommHandler) (locals locals' : RunPhaseLocals),
      ReaderThreadRun_round P L round indices (self, locals) = .ok (self', locals') →
      publishedTimeData self.MessageQueue self'.MessageQueue
  | [], self, self', locals, locals', h => by
    simp only [ReaderThreadRun_round, pure, Except.pure] at h
    cases h
    exact publishedTimeData_of_eq _ _ rfl
  | i :: rest, self, self', locals, locals', h => by
    simp only [ReaderThreadRun_round, bind, Except.bind] at h
    cases hv : ReaderThreadRun_visit P L (self, locals) i (round i) with
    | error e =>
      rw [hv] at h
      cases h
    | ok st1 =>
      obtain ⟨s1, l1⟩ := st1
      rw [hv] at h
      exact publishedTimeData_trans _ _ _ (visit_published P L self s1 locals l1 i _ hv)
        (round_published P L round rest s1 self' l1 locals' h)

/-- The run-phase loop publishes `TIME_DATA` messages only. -/
theorem runLoop_published (P : Platform) (L : TimeDataLayout) :
    ∀ (rounds : List (Int → SocketEvent)) (self self' : ManagerCommHandler)
      (locals locals' : RunPhaseLocals),
      ReaderThreadRun_runLoop P L rounds (self, locals) = .ok (self', locals') →
      publishedTimeData self.MessageQueue self'.MessageQueue
  | [], self, self', locals, locals', h => by
    unfold ReaderThreadRun_runLoop at h
    by_cases hcond : runLoopCondition (self, locals) = true
    · rw [if_pos hcond] at h
      cases h
    · rw [if_neg hcond] at h
      cases h
      exact publishedTimeData_of_eq _ _ rfl
  | round :: rest, self, self', locals, locals', h => by
    unfold ReaderThreadRun_runLoop at h
    by_cases hcond : runLoopCondition (self, locals) = true
    · rw [if_pos hcond] at h
      simp only [bind, Except.bind] at h
      cases hr : ReaderThreadRun_round P L round (descending self.TheModel.Components.length)
          (self, locals) with
      | error e =>
        rw [hr] at h
        cases h
      | ok st1 =>
        obtain ⟨s1, l1⟩ := st1
        rw [hr] at h
        exact publishedTimeData_trans _ _ _ (round_published P L round _ self s1 locals l1 hr)
          (runLoop_published P L rest s1 self' l1 locals' h)
    · rw [if_neg hcond] at h
      cases h
      exact publishedTimeData_of_eq _ _ rfl

/-- The end of the reader publishes nothing. -/
theorem finish_published (fresh : TLMMessage) (self self' : ManagerCommHandler)
    (locals : RunPhaseLocals) (sent : List TLMMessage)
    (h : ReaderThreadRun_finish fresh self locals = .ok (self', sent)) :
    self'.MessageQueue.SendBuffer = self.MessageQueue.SendBuffer := by
  unfold ReaderThreadRun_finish at h
  simp only [bind, Except.bind, pure, Except.pure] at h
  split at h
  · cases h
  · rename_i r hperm
    obtain ⟨s3, sent3⟩ := r
    have h3 := permissionLoop_queue fresh _ _ _ _ _ hperm
    cases h
    show s3.MessageQueue.Terminate.SendBuffer = _
    rw [h3]
    rfl

/-- C16. With a free buffer for each of the N components, the reader
publishes after the startup loop exactly N replies, one for each component
index from N-1 down to 0, each of kind `CHECK_MODEL`, with payload length 0,
the socket handle of its component and the status of `CheckProxyComm` as
header interface id.  When that status is 0 the reader then terminates the
queue and returns: it does not switch the socket set or `runningMode` to the
run phase and sends nothing more.  When the status is not 0 the reader goes
on, from the state with these replies published, to the run phase and to its
end.  Whenever the reader returns, the send buffer holds what it held before,
then the N replies, then what the run phase has published, which are
`TIME_DATA` messages only (none when the status is 0). -/
theorem reader_publishes_check_model_replies (CheckProxyComm : CompositeModel → Int)
    (P : Platform) (L : TimeDataLayout) (fresh : TLMMessage)
    (rounds : List (Int → SocketEvent)) (self : ManagerCommHandler)
    (hfree : self.TheModel.Components.length ≤ self.MessageQueue.FreeSlots.length) :
    ∃ (self1 : ManagerCommHandler) (replies : List TLMMessage),
      checkModelLoop (CheckProxyComm self.TheModel)
        (descending self.TheModel.Components.length) self = .ok self1 ∧
      self1.MessageQueue.SendBuffer = self.MessageQueue.SendBuffer ++ replies ∧
      replies.length = self.TheModel.Components.length ∧
      replies.map (fun r => r.SocketHandle)
        = (descending self.TheModel.Components.length).map (handleOf self.TheModel) ∧
      (∀ r ∈ replies,
        r.Header.MessageType = TLMMessageTypeConst.TLM_CHECK_MODEL ∧
        r.Header.DataSize = 0 ∧
        r.Header.TLMInterfaceID = CheckProxyComm self.TheModel) ∧
      (CheckProxyComm self.TheModel = 0 →
        ReaderThreadRun_afterStartup CheckProxyComm P L fresh rounds self
          = .ok ({ self1 with MessageQueue := self1.MessageQueue.Terminate }, []) ∧
        self1.MessageQueue.Terminate.Terminated = true ∧
        self1.runningMode = self.runningMode ∧
        self1.Comm = self.Comm) ∧
      (CheckProxyComm self.TheModel ≠ 0 →
        ReaderThreadRun_afterStartup CheckProxyComm P L fresh rounds self
          = (ReaderThreadRun_runLoop P L rounds
              ({ self1 with
                  Comm := self1.Comm.SwitchToRunningMode
                  runningMode := RunningMode.RunMode },
                { nClosedSock := 0, closedSockets := [] })).bind
            (fun state => ReaderThreadRun_finish fresh state.1 state.2)) ∧
      (∀ (self' : ManagerCommHandler) (sent : List TLMMessage),
        ReaderThreadRun_afterStartup CheckProxyComm P L fresh rounds self = .ok (self', sent) →
        ∃ more : List TLMMessage,
          self'.MessageQueue.SendBuffer = self.MessageQueue.SendBuffer ++ replies ++ more ∧
          (∀ m ∈ more, m.Header.MessageType = TLMMessageTypeConst.TLM_TIME_DATA) ∧
          (CheckProxyComm self.TheModel = 0 → more = [])) := by
  have hlen : (descending self.TheModel.Components.length).length
      ≤ self.MessageQueue.FreeSlots.length := by
    rw [length_descending]
    exact hfree
  have hloop := checkModelLoop_ok (CheckProxyComm self.TheModel)
    (descending self.TheModel.Components.length) self
    (fun i hi => (mem_descending _ i).mp hi) hlen
  have hsock := zipWith_checkModelReply_socket (CheckProxyComm self.TheModel) self.TheModel
    (descending self.TheModel.Components.length) self.MessageQueue.FreeSlots hlen
  have hzero : ∀ s1 : ManagerCommHandler,
      checkModelLoop (CheckProxyComm self.TheModel)
        (descending self.TheModel.Components.length) self = .ok s1 →
      CheckProxyComm self.TheModel = 0 →
      ReaderThreadRun_afterStartup CheckProxyComm P L fresh rounds self
        = .ok ({ s1 with MessageQueue := s1.MessageQueue.Terminate }, []) := by
    intro s1 hs1 hz
    unfold ReaderThreadRun_afterStartup
    simp only [hs1, bind, Except.bind]
    simp only [hz, pure, Except.pure, if_true]
  have hrun : ∀ s1 : ManagerCommHandler,
      checkModelLoop (CheckProxyComm self.TheModel)
        (descending self.TheModel.Components.length) self = .ok s1 →
      CheckProxyComm self.TheModel ≠ 0 →
      ReaderThreadRun_afterStartup CheckProxyComm P L fresh rounds self
        = (ReaderThreadRun_runLoop P L rounds
            ({ s1 with
                Comm := s1.Comm.SwitchToRunningMode
                runningMode := RunningMode.RunMode },
              { nClosedSock := 0, closedSockets := [] })).bind
          (fun state => ReaderThreadRun_finish fresh state.1 state.2) := by
    intro s1 hs1 hnz
    unfold ReaderThreadRun_afterStartup
    simp only [hs1, bind, Except.bind]
    rw [if_neg hnz]
    rfl
  refine ⟨_, _, hloop, rfl, ?_, hsock, ?_, ?_, hrun _ hloop, ?_⟩
  · have := congrArg List.length hsock
    simpa [length_descending] using this
  · apply zipWith_forall
    intro i slot
    exact ⟨rfl, rfl, rfl⟩
  · intro hz
    exact ⟨hzero _ hloop hz, rfl, rfl, rfl⟩
  · intro self' sent hret
    by_cases hz : CheckProxyComm self.TheModel = 0
    · rw [hzero _ hloop hz] at hret
      cases hret
      refine ⟨[], ?_, ?_, fun _ => rfl⟩
      · rw [List.append_nil]
        rfl
      · intro m hm
        cases hm
    · rw [hrun _ hloop hz] at hret
      generalize hl : ReaderThreadRun_runLoop P L rounds _ = res at hret
      cases res with
      | error e => cases hret
      | ok st =>
        obtain ⟨s2, l2⟩ := st
        have hfin := finish_published fresh s2 self' l2 sent hret
        obtain ⟨more, hmore, hkind⟩ := runLoop_published P L rounds _ s2 _ l2 hl
        refine ⟨more, ?_, hkind, fun h => absurd h hz⟩
        rw [hfin, hmore]

/-- C16 at the example model with its two components, the status being 1 and
every component asking to close in the first round of the run phase: the
reader returns, and what it has published are the two replies, for the
sockets 11 and 10, with the status 1. -/
theorem reader_publishes_check_model_replies_witness :
    startupDone.TheModel.Components.length ≤ startupDone.MessageQueue.FreeSlots.length ∧
    (∃ (self1 : ManagerCommHandler) (replies : List TLMMessage),
      checkModelLoop ((fun _ => 1) startupDone.TheModel)
        (descending startupDone.TheModel.Components.length) startupDone = .ok self1 ∧
      self1.MessageQueue.SendBuffer = startupDone.MessageQueue.SendBuffer ++ replies ∧
      replies.length = startupDone.TheModel.Components.length ∧
      replies.map (fun r => r.SocketHandle)
        = (descending startupDone.TheModel.Components.length).map
            (handleOf startupDone.TheModel) ∧
      (∀ r ∈ replies,
        r.Header.MessageType = TLMMessageTypeConst.TLM_CHECK_MODEL ∧
        r.Header.DataSize = 0 ∧
        r.Header.TLMInterfaceID = (fun _ => 1) startupDone.TheModel) ∧
      ((fun _ => 1) startupDone.TheModel = (0 : Int) →
        ReaderThreadRun_afterStartup (fun _ => 1) examplePlatform exampleLayout emptyMessage
            [allRequestClose] startupDone
          = .ok ({ self1 with MessageQueue := self1.MessageQueue.Terminate }, []) ∧
        self1.MessageQueue.Terminate.Terminated = true ∧
        self1.runningMode = startupDone.runningMode ∧
        self1.Comm = startupDone.Comm) ∧
      ((fun _ => 1) startupDone.TheModel ≠ (0 : Int) →
        ReaderThreadRun_afterStartup (fun _ => 1) examplePlatform exampleLayout emptyMessage
            [allRequestClose] startupDone
          = (ReaderThreadRun_runLoop examplePlatform exampleLayout [allRequestClose]
              ({ self1 with
                  Comm := self1.Comm.SwitchToRunningMode
                  runningMode := RunningMode.RunMode },
                { nClosedSock := 0, closedSockets := [] })).bind
            (fun state => ReaderThreadRun_finish emptyMessage state.1 state.2)) ∧
      (∀ (self' : ManagerCommHandler) (sent : List TLMMessage),
        ReaderThreadRun_afterStartup (fun _ => 1) examplePlatform exampleLayout emptyMessage
            [allRequestClose] startupDone = .ok (self', sent) →
        ∃ more : List TLMMessage,
          self'.MessageQueue.SendBuffer
            = startupDone.MessageQueue.SendBuffer ++ replies ++ more ∧
          (∀ m ∈ more, m.Header.MessageType = TLMMessageTypeConst.TLM_TIME_DATA) ∧
          ((fun _ => 1) startupDone.TheModel = (0 : Int) → more = []))) ∧
    (∃ (self' : ManagerCommHandler) (sent : List TLMMessage),
      ReaderThreadRun_afterStartup (fun _ => 1) examplePlatform exampleLayout emptyMessage
          [allRequestClose] startupDone = .ok (self', sent) ∧
      self'.MessageQueue.SendBuffer.map
          (fun r => (r.SocketHandle, r.Header.MessageType, r.Header.TLMInterfaceID,
            r.Header.DataSize))
        = [(11, TLMMessageTypeConst.TLM_CHECK_MODEL, 1, 0),
           (10, TLMMessageTypeConst.TLM_CHECK_MODEL, 1, 0)] ∧
      self'.runningMode = RunningMode.ShutdownMode) :=
  ⟨by decide,
    reader_publishes_check_model_replies (fun _ => 1) examplePlatform exampleLayout emptyMessage
      [allRequestClose] startupDone (by decide),
    ⟨_, _, rfl, by decide, rfl⟩⟩


end OMTLM
